import Mathlib

/-!
Verification development for the wxbench weather-normalization core.

The Python source under `src/wxbench` is shallowly embedded:
* raw provider payloads (JSON-decoded nested dicts/lists) become the `Json`
  inductive type;
* `datetime` instants become rational numbers of seconds since the Unix
  epoch (UTC); calendar dates become integer day numbers since the epoch;
* an IANA time zone is modelled as a fixed UTC offset in seconds (the code
  only converts instants to local calendar days and back);
* IEEE-754 binary64 arithmetic is modelled by exact rational arithmetic;
* functions that can raise return `Except String`; optional values are
  `Option`.
Python builtins used by the code (`float`, `int`, `str`, truthiness, `or`)
are modelled on the `Json` fragment the mappers actually touch.
-/

set_option maxRecDepth 4000
set_option maxHeartbeats 2000000

unseal Rat.add Rat.mul Rat.inv Rat.sub Rat.ofScientific

deriving instance DecidableEq for Except

/-- JSON-like dynamic value: the shape of a decoded provider payload. -/
inductive Json where
  | null : Json
  | bool (b : Bool) : Json
  | num (q : ℚ) : Json
  | str (s : String) : Json
  | arr (items : List Json) : Json
  | obj (fields : List (String × Json)) : Json

/-- Dictionary lookup: first binding of the key wins (payload literals have
unique keys). -/
def lookupKey : List (String × Json) → String → Option Json
  | [], _ => none
  | kv :: rest, key => if kv.1 = key then some kv.2 else lookupKey rest key

/-- Python `mapping.get(key)`; `none` when the receiver is not a mapping. -/
def Json.get : Json → String → Option Json
  | .obj fields, key => lookupKey fields key
  | _, _ => none

/-- Python `key in mapping` for mapping receivers. -/
def Json.containsKey (j : Json) (key : String) : Bool :=
  (j.get key).isSome

/-- Python truthiness of a JSON-shaped value. -/
def Json.isTruthy : Json → Bool
  | .null => false
  | .bool b => b
  | .num q => decide (q ≠ 0)
  | .str s => decide (s ≠ "")
  | .arr items => !items.isEmpty
  | .obj fields => !fields.isEmpty

/-- Python `mapping.get(key)` with `None` for a missing key. -/
def Json.getD (j : Json) (key : String) : Json :=
  (j.get key).getD .null

/-- Python `a or b`. -/
def pyOr (a b : Json) : Json :=
  if a.isTruthy then a else b

/-- Python `mapping.get(key) or dflt`. -/
def Json.getOr (j : Json) (key : String) (dflt : Json) : Json :=
  pyOr (j.getD key) dflt

/-- ASCII whitespace for Python `str.strip()`. -/
def isSpaceChar (c : Char) : Bool :=
  c = ' ' || c = '\t' || c = '\n' || c = '\r'

/-- Python `str.strip()` on the character list. -/
def trimChars (l : List Char) : List Char :=
  ((l.dropWhile isSpaceChar).reverse.dropWhile isSpaceChar).reverse

/-- Python `str.endswith`. -/
def strEndsWith (s suffix : String) : Bool :=
  suffix.toList.isSuffixOf s.toList

/-- Python `str.startswith`. -/
def strStartsWith (s pre : String) : Bool :=
  pre.toList.isPrefixOf s.toList

/-- ASCII lower-casing of one character (Python `str.lower` on the
payloads' ASCII unit and MAC strings). -/
def lowerChar (c : Char) : Char :=
  if 'A' ≤ c && c ≤ 'Z' then Char.ofNat (c.toNat + 32) else c

/-- Python `str.lower`. -/
def strToLower (s : String) : String :=
  String.mk (s.toList.map lowerChar)

/-- Python `<` on strings: lexicographic by code point. -/
def listCharLt : List Char → List Char → Bool
  | [], [] => false
  | [], _ :: _ => true
  | _ :: _, [] => false
  | a :: as_, b :: bs =>
      if a.toNat < b.toNat then true
      else if a.toNat = b.toNat then listCharLt as_ bs
      else false

def strLt (a b : String) : Bool :=
  listCharLt a.toList b.toList

/-- Value of a decimal digit string. -/
def digitsVal (l : List Char) : Nat :=
  l.foldl (fun acc c => acc * 10 + (c.toNat - 48)) 0

def allDigits (l : List Char) : Bool :=
  l.all Char.isDigit

/-- Strip one optional leading sign, returning the sign as `±1`. -/
def splitSign : List Char → Int × List Char
  | '-' :: rest => (-1, rest)
  | '+' :: rest => (1, rest)
  | l => (1, l)

/-- Split at the first decimal point, if any. -/
def splitOnDot : List Char → List Char × Option (List Char)
  | [] => ([], none)
  | '.' :: rest => ([], some rest)
  | c :: rest =>
      let r := splitOnDot rest
      (c :: r.1, r.2)

/-- Split at the first exponent marker `e`/`E`, if any. -/
def splitOnExp : List Char → List Char × Option (List Char)
  | [] => ([], none)
  | c :: rest =>
      if c = 'e' ∨ c = 'E' then ([], some rest)
      else
        let r := splitOnExp rest
        (c :: r.1, r.2)

/-- Unsigned decimal mantissa: `digits`, `digits.digits`, `digits.` or
`.digits` (at least one digit overall). -/
def parseMantissa (l : List Char) : Option ℚ :=
  match splitOnDot l with
  | (ip, none) =>
      if !ip.isEmpty && allDigits ip then some ((digitsVal ip : ℚ)) else none
  | (ip, some fp) =>
      if (!ip.isEmpty || !fp.isEmpty) && allDigits ip && allDigits fp then
        some ((digitsVal ip : ℚ) + (digitsVal fp : ℚ) / (10 : ℚ) ^ fp.length)
      else none

/-- Signed decimal exponent part. -/
def parseExp (l : List Char) : Option Int :=
  let s := splitSign l
  if !s.2.isEmpty && allDigits s.2 then some (s.1 * (digitsVal s.2 : Int)) else none

def parseFloatChars (l : List Char) : Option ℚ :=
  let s := splitSign l
  match splitOnExp s.2 with
  | (m, none) => (parseMantissa m).map (fun q => (s.1 : ℚ) * q)
  | (m, some e) =>
      match parseMantissa m, parseExp e with
      | some q, some ex => some ((s.1 : ℚ) * q * (10 : ℚ) ^ ex)
      | _, _ => none

/-- Python `float(s)` on the decimal-literal fragment (sign, digits,
fraction, exponent, surrounding whitespace); other strings fail. -/
def parseFloatString (s : String) : Option ℚ :=
  parseFloatChars (trimChars s.toList)

/-- Python `int(s)`: optional sign and digits only. -/
def parseIntString (s : String) : Option Int :=
  let sp := splitSign (trimChars s.toList)
  if !sp.2.isEmpty && allDigits sp.2 then some (sp.1 * (digitsVal sp.2 : Int)) else none

/-- Python `float(x)`: numbers pass through, booleans become 0/1, numeric
strings are parsed, everything else raises. -/
def pyFloatE : Json → Except String ℚ
  | .null => .error "float() argument must not be None"
  | .bool b => .ok (if b then 1 else 0)
  | .num q => .ok q
  | .str s =>
      match parseFloatString s with
      | some q => .ok q
      | none => .error ("could not convert string to float: " ++ s)
  | .arr _ => .error "float() argument must be a string or a number"
  | .obj _ => .error "float() argument must be a string or a number"

/-- Truncation toward zero, as Python `int(float)`. -/
def truncRat (q : ℚ) : Int :=
  Int.tdiv q.num (q.den : Int)

/-- Python `int(x)`: numbers truncate toward zero, booleans become 0/1,
integer-literal strings are parsed, everything else raises. -/
def pyIntE : Json → Except String Int
  | .null => .error "int() argument must not be None"
  | .bool b => .ok (if b then 1 else 0)
  | .num q => .ok (truncRat q)
  | .str s =>
      match parseIntString s with
      | some i => .ok i
      | none => .error ("invalid literal for int(): " ++ s)
  | .arr _ => .error "int() argument must be a string or a number"
  | .obj _ => .error "int() argument must be a string or a number"

def exceptToOption {α : Type} : Except String α → Option α
  | .ok a => some a
  | .error _ => none

/-- A Python `for` loop that builds a list and lets exceptions escape. -/
def mapME {α β : Type} (g : α → Except String β) : List α → Except String (List β)
  | [] => .ok []
  | a :: rest => do
      let b ← g a
      let bs ← mapME g rest
      pure (b :: bs)

/-- Shared helper `_to_optional_float`: `None` stays absent, a conversion
failure is swallowed to absent. -/
def toOptionalFloat (v : Json) : Option ℚ :=
  exceptToOption (pyFloatE v)

/-- Shared helper `_to_optional_int`. -/
def toOptionalInt (v : Json) : Option Int :=
  exceptToOption (pyIntE v)

/-- Python `str(x)` on the scalar fragment (container `repr` text is not
modelled; no verified path stringifies a container). -/
def pyStrOf : Json → String
  | .null => "None"
  | .bool b => if b then "True" else "False"
  | .num q => if q.den = 1 then toString q.num else toString q
  | .str s => s
  | .arr _ => ""
  | .obj _ => ""

/-- An instant: seconds since the Unix epoch, UTC. -/
abbrev Instant := ℚ

/-- `dt.replace(minute=0, second=0, microsecond=0)` on a UTC instant. -/
def truncHour (t : ℚ) : ℚ :=
  3600 * ((⌊t / 3600⌋ : Int) : ℚ)

/-- `value.astimezone(ZoneInfo(tz)).date()` as an epoch day number, for a
fixed-offset zone of `tzOffset` seconds (`_local_day`). -/
def localDay (tzOffset : Int) (t : ℚ) : Int :=
  ⌊(t + (tzOffset : ℚ)) / 86400⌋

/-- Python `max` over a nonempty float list. -/
def listMax : List ℚ → Option ℚ
  | [] => none
  | x :: xs => some (xs.foldl max x)

/-- Python `min` over a nonempty float list. -/
def listMin : List ℚ → Option ℚ
  | [] => none
  | x :: xs => some (xs.foldl min x)

/-- Python `sum`. -/
def listSum (l : List ℚ) : ℚ :=
  l.foldl (· + ·) 0

/-- `statistics.mean`. -/
def listMean (l : List ℚ) : ℚ :=
  listSum l / (l.length : ℚ)

/-! ## Domain models (`wxbench/domain/models.py`) -/

/-- Geographic point for a station or grid cell. -/
structure Location where
  latitude : ℚ
  longitude : ℚ
  deriving DecidableEq

/-- Normalized observation emitted by a provider, field-for-field after
`models.Observation` (floats as `ℚ`, `datetime` as `Instant`). -/
structure Observation where
  provider : String
  station : Option String
  location : Location
  observed_at : Instant
  temperature_c : Option ℚ := none
  dewpoint_c : Option ℚ := none
  wind_speed_kph : Option ℚ := none
  wind_direction_deg : Option Int := none
  pressure_kpa : Option ℚ := none
  relative_humidity : Option ℚ := none
  visibility_km : Option ℚ := none
  condition : Option String := none
  precipitation_last_hour_mm : Option ℚ := none
  precipitation_daily_mm : Option ℚ := none
  precipitation_weekly_mm : Option ℚ := none
  precipitation_monthly_mm : Option ℚ := none
  precipitation_yearly_mm : Option ℚ := none
  precipitation_event_mm : Option ℚ := none
  pressure_absolute_kpa : Option ℚ := none
  wind_gust_kph : Option ℚ := none
  wind_gust_daily_max_kph : Option ℚ := none
  wind_direction_avg_10m_deg : Option Int := none
  uv_index : Option ℚ := none
  solar_radiation_wm2 : Option ℚ := none
  temperature_apparent_c : Option ℚ := none
  temperature_in_c : Option ℚ := none
  temperature_apparent_in_c : Option ℚ := none
  dewpoint_in_c : Option ℚ := none
  relative_humidity_in : Option ℚ := none
  pressure_sea_level_kpa : Option ℚ := none
  pressure_surface_kpa : Option ℚ := none
  altimeter_kpa : Option ℚ := none
  cloud_cover_pct : Option ℚ := none
  cloud_base_km : Option ℚ := none
  cloud_ceiling_km : Option ℚ := none
  uv_health_concern : Option ℚ := none
  temperature_apparent_shade_c : Option ℚ := none
  temperature_apparent_alt_c : Option ℚ := none
  temperature_wind_chill_c : Option ℚ := none
  temperature_wet_bulb_c : Option ℚ := none
  temperature_wet_bulb_globe_c : Option ℚ := none
  temperature_departure_24h_c : Option ℚ := none
  precipitation_type : Option String := none
  pressure_tendency : Option String := none
  condition_code : Option Int := none
  precipitation_rate_rain_mm_hr : Option ℚ := none
  precipitation_rate_snow_mm_hr : Option ℚ := none
  precipitation_rate_sleet_mm_hr : Option ℚ := none
  precipitation_rate_freezing_rain_mm_hr : Option ℚ := none
  precipitation_rate_ice_mm_hr : Option ℚ := none
  battery_in : Option ℚ := none
  battery_out : Option ℚ := none
  deriving DecidableEq

/-- Normalized forecast period, field-for-field after
`models.ForecastPeriod`. -/
structure ForecastPeriod where
  provider : String
  location : Location
  issued_at : Instant
  start_time : Instant
  end_time : Instant
  temperature_c : Option ℚ := none
  dewpoint_c : Option ℚ := none
  temperature_high_c : Option ℚ := none
  temperature_low_c : Option ℚ := none
  precipitation_probability : Option ℚ := none
  precipitation_mm : Option ℚ := none
  summary : Option String := none
  wind_speed_kph : Option ℚ := none
  wind_direction_deg : Option Int := none
  wind_gust_kph : Option ℚ := none
  temperature_apparent_c : Option ℚ := none
  uv_index : Option ℚ := none
  relative_humidity : Option ℚ := none
  visibility_km : Option ℚ := none
  pressure_sea_level_kpa : Option ℚ := none
  pressure_surface_kpa : Option ℚ := none
  altimeter_kpa : Option ℚ := none
  cloud_cover_pct : Option ℚ := none
  cloud_base_km : Option ℚ := none
  cloud_ceiling_km : Option ℚ := none
  uv_health_concern : Option ℚ := none
  temperature_apparent_shade_c : Option ℚ := none
  temperature_apparent_alt_c : Option ℚ := none
  temperature_wind_chill_c : Option ℚ := none
  temperature_wet_bulb_c : Option ℚ := none
  temperature_wet_bulb_globe_c : Option ℚ := none
  precipitation_probability_rain : Option ℚ := none
  precipitation_probability_snow : Option ℚ := none
  precipitation_probability_ice : Option ℚ := none
  precipitation_probability_thunderstorm : Option ℚ := none
  precipitation_amount_rain_mm : Option ℚ := none
  precipitation_amount_snow_mm : Option ℚ := none
  precipitation_amount_sleet_mm : Option ℚ := none
  precipitation_amount_ice_mm : Option ℚ := none
  precipitation_amount_snow_lwe_mm : Option ℚ := none
  precipitation_amount_sleet_lwe_mm : Option ℚ := none
  precipitation_amount_ice_lwe_mm : Option ℚ := none
  precipitation_rate_rain_mm_hr : Option ℚ := none
  precipitation_rate_snow_mm_hr : Option ℚ := none
  precipitation_rate_sleet_mm_hr : Option ℚ := none
  precipitation_rate_freezing_rain_mm_hr : Option ℚ := none
  precipitation_rate_ice_mm_hr : Option ℚ := none
  snow_depth_cm : Option ℚ := none
  evapotranspiration_mm : Option ℚ := none
  solar_irradiance_wm2 : Option ℚ := none
  sun_hours : Option ℚ := none
  condition_code : Option Int := none
  deriving DecidableEq

/-- Single normalized metric reading, field-for-field after
`models.DataPoint` (dates as epoch day numbers). -/
structure DataPoint where
  provider : String
  product_kind : String
  metric_type : String
  value_num : Option ℚ
  value_text : Option String
  unit : Option String
  value_raw : Option String
  unit_raw : Option String
  observed_at : Option Instant
  valid_start : Option Instant
  valid_end : Option Instant
  issued_at : Option Instant
  run_at : Instant
  local_day : Option Int
  lead_unit : Option String
  lead_offset : Option Int
  lead_label : Option String
  latitude : ℚ
  longitude : ℚ
  station : Option String
  source_field : Option String
  quality_flag : Option String
  deriving DecidableEq

/-! ## Metric explosion (`wxbench/domain/datapoints.py`) -/

def PRODUCT_OBSERVATION : String := "observation"
def PRODUCT_FORECAST_HOURLY : String := "forecast_hourly"
def PRODUCT_FORECAST_DAILY : String := "forecast_daily"

/-- One registry row: `(field_name, metric_type, unit, is_text)`. -/
structure MetricEntry where
  field : String
  metric : String
  unit : Option String
  isText : Bool
  deriving DecidableEq

/-- `_OBSERVATION_METRICS`, in source order. -/
def OBSERVATION_METRICS : List MetricEntry := [
  ⟨"temperature_c", "temperature_air", some "C", false⟩,
  ⟨"temperature_apparent_c", "temperature_apparent", some "C", false⟩,
  ⟨"temperature_apparent_shade_c", "temperature_apparent_shade", some "C", false⟩,
  ⟨"temperature_apparent_alt_c", "temperature_apparent_alt", some "C", false⟩,
  ⟨"temperature_wind_chill_c", "temperature_wind_chill", some "C", false⟩,
  ⟨"temperature_wet_bulb_c", "temperature_wet_bulb", some "C", false⟩,
  ⟨"temperature_wet_bulb_globe_c", "temperature_wet_bulb_globe", some "C", false⟩,
  ⟨"temperature_departure_24h_c", "temperature_departure_24h", some "C", false⟩,
  ⟨"dewpoint_c", "dewpoint", some "C", false⟩,
  ⟨"temperature_in_c", "temperature_indoor", some "C", false⟩,
  ⟨"temperature_apparent_in_c", "temperature_apparent_indoor", some "C", false⟩,
  ⟨"dewpoint_in_c", "dewpoint_indoor", some "C", false⟩,
  ⟨"wind_speed_kph", "wind_speed", some "kph", false⟩,
  ⟨"wind_direction_deg", "wind_direction", some "deg", false⟩,
  ⟨"wind_gust_kph", "wind_gust", some "kph", false⟩,
  ⟨"wind_gust_daily_max_kph", "wind_gust_daily_max", some "kph", false⟩,
  ⟨"wind_direction_avg_10m_deg", "wind_direction_avg_10m", some "deg", false⟩,
  ⟨"pressure_kpa", "pressure", some "kPa", false⟩,
  ⟨"pressure_absolute_kpa", "pressure_absolute", some "kPa", false⟩,
  ⟨"pressure_sea_level_kpa", "pressure_sea_level", some "kPa", false⟩,
  ⟨"pressure_surface_kpa", "pressure_surface", some "kPa", false⟩,
  ⟨"altimeter_kpa", "altimeter", some "kPa", false⟩,
  ⟨"relative_humidity", "humidity", some "%", false⟩,
  ⟨"relative_humidity_in", "humidity_indoor", some "%", false⟩,
  ⟨"visibility_km", "visibility", some "km", false⟩,
  ⟨"cloud_cover_pct", "cloud_cover", some "%", false⟩,
  ⟨"cloud_base_km", "cloud_base", some "km", false⟩,
  ⟨"cloud_ceiling_km", "cloud_ceiling", some "km", false⟩,
  ⟨"precipitation_last_hour_mm", "precip_amount", some "mm", false⟩,
  ⟨"precipitation_daily_mm", "precip_total_day", some "mm", false⟩,
  ⟨"precipitation_weekly_mm", "precip_total_week", some "mm", false⟩,
  ⟨"precipitation_monthly_mm", "precip_total_month", some "mm", false⟩,
  ⟨"precipitation_yearly_mm", "precip_total_year", some "mm", false⟩,
  ⟨"precipitation_event_mm", "precip_total_event", some "mm", false⟩,
  ⟨"precipitation_rate_rain_mm_hr", "precip_rate_rain", some "mm/hr", false⟩,
  ⟨"precipitation_rate_snow_mm_hr", "precip_rate_snow", some "mm/hr", false⟩,
  ⟨"precipitation_rate_sleet_mm_hr", "precip_rate_sleet", some "mm/hr", false⟩,
  ⟨"precipitation_rate_freezing_rain_mm_hr", "precip_rate_freezing_rain", some "mm/hr", false⟩,
  ⟨"precipitation_rate_ice_mm_hr", "precip_rate_ice", some "mm/hr", false⟩,
  ⟨"uv_index", "uv_index", none, false⟩,
  ⟨"uv_health_concern", "uv_health_concern", none, false⟩,
  ⟨"solar_radiation_wm2", "solar_radiation", some "W/m2", false⟩,
  ⟨"battery_in", "battery_in", none, false⟩,
  ⟨"battery_out", "battery_out", none, false⟩,
  ⟨"condition", "condition", none, true⟩,
  ⟨"precipitation_type", "precip_type", none, true⟩,
  ⟨"pressure_tendency", "pressure_tendency", none, true⟩,
  ⟨"condition_code", "condition_code", none, false⟩]

/-- `_FORECAST_METRICS`, in source order. -/
def FORECAST_METRICS : List MetricEntry := [
  ⟨"temperature_c", "temperature_air", some "C", false⟩,
  ⟨"dewpoint_c", "dewpoint", some "C", false⟩,
  ⟨"temperature_apparent_c", "temperature_apparent", some "C", false⟩,
  ⟨"temperature_apparent_shade_c", "temperature_apparent_shade", some "C", false⟩,
  ⟨"temperature_apparent_alt_c", "temperature_apparent_alt", some "C", false⟩,
  ⟨"temperature_wind_chill_c", "temperature_wind_chill", some "C", false⟩,
  ⟨"temperature_wet_bulb_c", "temperature_wet_bulb", some "C", false⟩,
  ⟨"temperature_wet_bulb_globe_c", "temperature_wet_bulb_globe", some "C", false⟩,
  ⟨"temperature_high_c", "temperature_high", some "C", false⟩,
  ⟨"temperature_low_c", "temperature_low", some "C", false⟩,
  ⟨"precipitation_probability", "precip_probability", some "%", false⟩,
  ⟨"precipitation_probability_rain", "precip_probability_rain", some "%", false⟩,
  ⟨"precipitation_probability_snow", "precip_probability_snow", some "%", false⟩,
  ⟨"precipitation_probability_ice", "precip_probability_ice", some "%", false⟩,
  ⟨"precipitation_probability_thunderstorm", "precip_probability_thunderstorm", some "%", false⟩,
  ⟨"precipitation_mm", "precip_amount", some "mm", false⟩,
  ⟨"precipitation_amount_rain_mm", "precip_amount_rain", some "mm", false⟩,
  ⟨"precipitation_amount_snow_mm", "precip_amount_snow", some "mm", false⟩,
  ⟨"precipitation_amount_sleet_mm", "precip_amount_sleet", some "mm", false⟩,
  ⟨"precipitation_amount_ice_mm", "precip_amount_ice", some "mm", false⟩,
  ⟨"precipitation_amount_snow_lwe_mm", "precip_amount_snow_lwe", some "mm", false⟩,
  ⟨"precipitation_amount_sleet_lwe_mm", "precip_amount_sleet_lwe", some "mm", false⟩,
  ⟨"precipitation_amount_ice_lwe_mm", "precip_amount_ice_lwe", some "mm", false⟩,
  ⟨"precipitation_rate_rain_mm_hr", "precip_rate_rain", some "mm/hr", false⟩,
  ⟨"precipitation_rate_snow_mm_hr", "precip_rate_snow", some "mm/hr", false⟩,
  ⟨"precipitation_rate_sleet_mm_hr", "precip_rate_sleet", some "mm/hr", false⟩,
  ⟨"precipitation_rate_freezing_rain_mm_hr", "precip_rate_freezing_rain", some "mm/hr", false⟩,
  ⟨"precipitation_rate_ice_mm_hr", "precip_rate_ice", some "mm/hr", false⟩,
  ⟨"snow_depth_cm", "snow_depth", some "cm", false⟩,
  ⟨"evapotranspiration_mm", "evapotranspiration", some "mm", false⟩,
  ⟨"solar_irradiance_wm2", "solar_irradiance", some "W/m2", false⟩,
  ⟨"sun_hours", "sun_hours", some "hour", false⟩,
  ⟨"wind_speed_kph", "wind_speed", some "kph", false⟩,
  ⟨"wind_direction_deg", "wind_direction", some "deg", false⟩,
  ⟨"wind_gust_kph", "wind_gust", some "kph", false⟩,
  ⟨"uv_index", "uv_index", none, false⟩,
  ⟨"uv_health_concern", "uv_health_concern", none, false⟩,
  ⟨"relative_humidity", "humidity", some "%", false⟩,
  ⟨"visibility_km", "visibility", some "km", false⟩,
  ⟨"pressure_sea_level_kpa", "pressure_sea_level", some "kPa", false⟩,
  ⟨"pressure_surface_kpa", "pressure_surface", some "kPa", false⟩,
  ⟨"altimeter_kpa", "altimeter", some "kPa", false⟩,
  ⟨"cloud_cover_pct", "cloud_cover", some "%", false⟩,
  ⟨"cloud_base_km", "cloud_base", some "km", false⟩,
  ⟨"cloud_ceiling_km", "cloud_ceiling", some "km", false⟩,
  ⟨"summary", "condition", none, true⟩,
  ⟨"condition_code", "condition_code", none, false⟩]

/-- Dynamic field value reached through `getattr` over a registry name. -/
inductive FieldVal where
  | num (q : ℚ)
  | int (i : Int)
  | text (s : String)
  deriving DecidableEq

/-- `float(value)` on a registry value; the registry flags the three string
fields as text, so the numeric branch only ever sees numbers. -/
def FieldVal.asNum : FieldVal → Option ℚ
  | .num q => some q
  | .int i => some ((i : ℚ))
  | .text _ => none

/-- `str(value)` on a registry value flagged as text. -/
def FieldVal.asText : FieldVal → Option String
  | .text s => some s
  | _ => none

/-- `getattr(observation, field_name)` for the observation registry names. -/
def Observation.getMetric (o : Observation) : String → Option FieldVal
  | "temperature_c" => o.temperature_c.map .num
  | "temperature_apparent_c" => o.temperature_apparent_c.map .num
  | "temperature_apparent_shade_c" => o.temperature_apparent_shade_c.map .num
  | "temperature_apparent_alt_c" => o.temperature_apparent_alt_c.map .num
  | "temperature_wind_chill_c" => o.temperature_wind_chill_c.map .num
  | "temperature_wet_bulb_c" => o.temperature_wet_bulb_c.map .num
  | "temperature_wet_bulb_globe_c" => o.temperature_wet_bulb_globe_c.map .num
  | "temperature_departure_24h_c" => o.temperature_departure_24h_c.map .num
  | "dewpoint_c" => o.dewpoint_c.map .num
  | "temperature_in_c" => o.temperature_in_c.map .num
  | "temperature_apparent_in_c" => o.temperature_apparent_in_c.map .num
  | "dewpoint_in_c" => o.dewpoint_in_c.map .num
  | "wind_speed_kph" => o.wind_speed_kph.map .num
  | "wind_direction_deg" => o.wind_direction_deg.map .int
  | "wind_gust_kph" => o.wind_gust_kph.map .num
  | "wind_gust_daily_max_kph" => o.wind_gust_daily_max_kph.map .num
  | "wind_direction_avg_10m_deg" => o.wind_direction_avg_10m_deg.map .int
  | "pressure_kpa" => o.pressure_kpa.map .num
  | "pressure_absolute_kpa" => o.pressure_absolute_kpa.map .num
  | "pressure_sea_level_kpa" => o.pressure_sea_level_kpa.map .num
  | "pressure_surface_kpa" => o.pressure_surface_kpa.map .num
  | "altimeter_kpa" => o.altimeter_kpa.map .num
  | "relative_humidity" => o.relative_humidity.map .num
  | "relative_humidity_in" => o.relative_humidity_in.map .num
  | "visibility_km" => o.visibility_km.map .num
  | "cloud_cover_pct" => o.cloud_cover_pct.map .num
  | "cloud_base_km" => o.cloud_base_km.map .num
  | "cloud_ceiling_km" => o.cloud_ceiling_km.map .num
  | "precipitation_last_hour_mm" => o.precipitation_last_hour_mm.map .num
  | "precipitation_daily_mm" => o.precipitation_daily_mm.map .num
  | "precipitation_weekly_mm" => o.precipitation_weekly_mm.map .num
  | "precipitation_monthly_mm" => o.precipitation_monthly_mm.map .num
  | "precipitation_yearly_mm" => o.precipitation_yearly_mm.map .num
  | "precipitation_event_mm" => o.precipitation_event_mm.map .num
  | "precipitation_rate_rain_mm_hr" => o.precipitation_rate_rain_mm_hr.map .num
  | "precipitation_rate_snow_mm_hr" => o.precipitation_rate_snow_mm_hr.map .num
  | "precipitation_rate_sleet_mm_hr" => o.precipitation_rate_sleet_mm_hr.map .num
  | "precipitation_rate_freezing_rain_mm_hr" => o.precipitation_rate_freezing_rain_mm_hr.map .num
  | "precipitation_rate_ice_mm_hr" => o.precipitation_rate_ice_mm_hr.map .num
  | "uv_index" => o.uv_index.map .num
  | "uv_health_concern" => o.uv_health_concern.map .num
  | "solar_radiation_wm2" => o.solar_radiation_wm2.map .num
  | "battery_in" => o.battery_in.map .num
  | "battery_out" => o.battery_out.map .num
  | "condition" => o.condition.map .text
  | "precipitation_type" => o.precipitation_type.map .text
  | "pressure_tendency" => o.pressure_tendency.map .text
  | "condition_code" => o.condition_code.map .int
  | _ => none

/-- `getattr(forecast, field_name)` for the forecast registry names. -/
def ForecastPeriod.getMetric (f : ForecastPeriod) : String → Option FieldVal
  | "temperature_c" => f.temperature_c.map .num
  | "dewpoint_c" => f.dewpoint_c.map .num
  | "temperature_apparent_c" => f.temperature_apparent_c.map .num
  | "temperature_apparent_shade_c" => f.temperature_apparent_shade_c.map .num
  | "temperature_apparent_alt_c" => f.temperature_apparent_alt_c.map .num
  | "temperature_wind_chill_c" => f.temperature_wind_chill_c.map .num
  | "temperature_wet_bulb_c" => f.temperature_wet_bulb_c.map .num
  | "temperature_wet_bulb_globe_c" => f.temperature_wet_bulb_globe_c.map .num
  | "temperature_high_c" => f.temperature_high_c.map .num
  | "temperature_low_c" => f.temperature_low_c.map .num
  | "precipitation_probability" => f.precipitation_probability.map .num
  | "precipitation_probability_rain" => f.precipitation_probability_rain.map .num
  | "precipitation_probability_snow" => f.precipitation_probability_snow.map .num
  | "precipitation_probability_ice" => f.precipitation_probability_ice.map .num
  | "precipitation_probability_thunderstorm" => f.precipitation_probability_thunderstorm.map .num
  | "precipitation_mm" => f.precipitation_mm.map .num
  | "precipitation_amount_rain_mm" => f.precipitation_amount_rain_mm.map .num
  | "precipitation_amount_snow_mm" => f.precipitation_amount_snow_mm.map .num
  | "precipitation_amount_sleet_mm" => f.precipitation_amount_sleet_mm.map .num
  | "precipitation_amount_ice_mm" => f.precipitation_amount_ice_mm.map .num
  | "precipitation_amount_snow_lwe_mm" => f.precipitation_amount_snow_lwe_mm.map .num
  | "precipitation_amount_sleet_lwe_mm" => f.precipitation_amount_sleet_lwe_mm.map .num
  | "precipitation_amount_ice_lwe_mm" => f.precipitation_amount_ice_lwe_mm.map .num
  | "precipitation_rate_rain_mm_hr" => f.precipitation_rate_rain_mm_hr.map .num
  | "precipitation_rate_snow_mm_hr" => f.precipitation_rate_snow_mm_hr.map .num
  | "precipitation_rate_sleet_mm_hr" => f.precipitation_rate_sleet_mm_hr.map .num
  | "precipitation_rate_freezing_rain_mm_hr" => f.precipitation_rate_freezing_rain_mm_hr.map .num
  | "precipitation_rate_ice_mm_hr" => f.precipitation_rate_ice_mm_hr.map .num
  | "snow_depth_cm" => f.snow_depth_cm.map .num
  | "evapotranspiration_mm" => f.evapotranspiration_mm.map .num
  | "solar_irradiance_wm2" => f.solar_irradiance_wm2.map .num
  | "sun_hours" => f.sun_hours.map .num
  | "wind_speed_kph" => f.wind_speed_kph.map .num
  | "wind_direction_deg" => f.wind_direction_deg.map .int
  | "wind_gust_kph" => f.wind_gust_kph.map .num
  | "uv_index" => f.uv_index.map .num
  | "uv_health_concern" => f.uv_health_concern.map .num
  | "relative_humidity" => f.relative_humidity.map .num
  | "visibility_km" => f.visibility_km.map .num
  | "pressure_sea_level_kpa" => f.pressure_sea_level_kpa.map .num
  | "pressure_surface_kpa" => f.pressure_surface_kpa.map .num
  | "altimeter_kpa" => f.altimeter_kpa.map .num
  | "cloud_cover_pct" => f.cloud_cover_pct.map .num
  | "cloud_base_km" => f.cloud_base_km.map .num
  | "cloud_ceiling_km" => f.cloud_ceiling_km.map .num
  | "summary" => f.summary.map .text
  | "condition_code" => f.condition_code.map .int
  | _ => none

/-- `_lead_label`: signed offset plus a unit suffix (zero signed `+`). -/
def leadLabel (offset : Int) (unit : String) : String :=
  let sign := if 0 ≤ offset then "+" else ""
  let suffix := if unit = "hour" then "h" else "d"
  sign ++ toString offset ++ suffix

/-- Lookup in the optional `source_fields` mapping (absent mapping = `[]`). -/
def lookupStr : List (String × String) → String → Option String
  | [], _ => none
  | kv :: rest, key => if kv.1 = key then some kv.2 else lookupStr rest key

/-- The `DataPoint` built for one non-absent observation registry entry. -/
def mkObservationPoint (o : Observation) (runAt : Instant) (tz : Int)
    (sourceFields : List (String × String)) (e : MetricEntry) (v : FieldVal) : DataPoint :=
  { provider := o.provider
    product_kind := PRODUCT_OBSERVATION
    metric_type := e.metric
    value_num := if e.isText then none else v.asNum
    value_text := if e.isText then v.asText else none
    unit := e.unit
    value_raw := none
    unit_raw := none
    observed_at := some o.observed_at
    valid_start := none
    valid_end := none
    issued_at := none
    run_at := runAt
    local_day := some (localDay tz o.observed_at)
    lead_unit := none
    lead_offset := none
    lead_label := none
    latitude := o.location.latitude
    longitude := o.location.longitude
    station := o.station
    source_field := lookupStr sourceFields e.field
    quality_flag := none }

/-- The registry loop of `observation_to_datapoints`. -/
def explodeObservationAux (o : Observation) (runAt : Instant) (tz : Int)
    (sourceFields : List (String × String)) : List MetricEntry → List DataPoint
  | [] => []
  | e :: rest =>
      match o.getMetric e.field with
      | none => explodeObservationAux o runAt tz sourceFields rest
      | some v =>
          mkObservationPoint o runAt tz sourceFields e v ::
            explodeObservationAux o runAt tz sourceFields rest

/-- `observation_to_datapoints`. -/
def observation_to_datapoints (o : Observation) (runAt : Instant) (tz : Int)
    (sourceFields : List (String × String)) : List DataPoint :=
  explodeObservationAux o runAt tz sourceFields OBSERVATION_METRICS

/-- The `DataPoint` built for one non-absent forecast registry entry. -/
def mkForecastPoint (f : ForecastPeriod) (runAt : Instant) (productKind : String)
    (leadUnit : String) (leadOffset : Int) (label : String) (ld : Int)
    (sourceFields : List (String × String)) (qualityFlag : Option String)
    (e : MetricEntry) (v : FieldVal) : DataPoint :=
  { provider := f.provider
    product_kind := productKind
    metric_type := e.metric
    value_num := if e.isText then none else v.asNum
    value_text := if e.isText then v.asText else none
    unit := e.unit
    value_raw := none
    unit_raw := none
    observed_at := none
    valid_start := some f.start_time
    valid_end := some f.end_time
    issued_at := some f.issued_at
    run_at := runAt
    local_day := if productKind = PRODUCT_FORECAST_DAILY then some ld else none
    lead_unit := some leadUnit
    lead_offset := some leadOffset
    lead_label := some label
    latitude := f.location.latitude
    longitude := f.location.longitude
    station := none
    source_field := lookupStr sourceFields e.field
    quality_flag := qualityFlag }

/-- The registry loop of `forecast_to_datapoints`. -/
def explodeForecastAux (f : ForecastPeriod) (runAt : Instant) (productKind : String)
    (leadUnit : String) (leadOffset : Int) (label : String) (ld : Int)
    (sourceFields : List (String × String)) (qualityFlag : Option String) :
    List MetricEntry → List DataPoint
  | [] => []
  | e :: rest =>
      match f.getMetric e.field with
      | none =>
          explodeForecastAux f runAt productKind leadUnit leadOffset label ld
            sourceFields qualityFlag rest
      | some v =>
          mkForecastPoint f runAt productKind leadUnit leadOffset label ld
              sourceFields qualityFlag e v ::
            explodeForecastAux f runAt productKind leadUnit leadOffset label ld
              sourceFields qualityFlag rest

/-- The hourly lead offset computed by `forecast_to_datapoints`: truncate
both instants to the hour and floor-divide the second difference by 3600. -/
def hourlyLeadOffset (runAt startTime : Instant) : Int :=
  ⌊(truncHour startTime - truncHour runAt) / 3600⌋

/-- `forecast_to_datapoints` (raises on an unsupported product kind). -/
def forecast_to_datapoints (f : ForecastPeriod) (runAt : Instant) (tz : Int)
    (productKind : String) (sourceFields : List (String × String))
    (qualityFlag : Option String) : Except String (List DataPoint) :=
  if productKind ≠ PRODUCT_FORECAST_HOURLY ∧ productKind ≠ PRODUCT_FORECAST_DAILY then
    .error ("Unsupported product_kind: " ++ productKind)
  else
    let leadUnit := if productKind = PRODUCT_FORECAST_HOURLY then "hour" else "day"
    let leadOffset : Int :=
      if leadUnit = "hour" then hourlyLeadOffset runAt f.start_time
      else localDay tz f.start_time - localDay tz runAt
    let label := leadLabel leadOffset leadUnit
    let ld := localDay tz f.start_time
    .ok (explodeForecastAux f runAt productKind leadUnit leadOffset label ld
      sourceFields qualityFlag FORECAST_METRICS)

/-! ## Daily aggregation (`wxbench/domain/aggregate.py`) -/

/-- Insert a day key into an ascending list of distinct day keys. -/
def insertSortedDedup (x : Int) : List Int → List Int
  | [] => [x]
  | y :: ys =>
      if x < y then x :: y :: ys
      else if x = y then y :: ys
      else y :: insertSortedDedup x ys

/-- Ascending distinct group keys, as produced by `sorted(grouped.items())`
(ISO day strings sort like day numbers). -/
def sortedDayKeys (l : List Int) : List Int :=
  l.foldl (fun acc x => insertSortedDedup x acc) []

/-- Python `mean(l) if l else None`. -/
def meanOpt (l : List ℚ) : Option ℚ :=
  match l with
  | [] => none
  | _ => some (listMean l)

/-- Python `sum(l) if l else None`. -/
def sumOpt (l : List ℚ) : Option ℚ :=
  match l with
  | [] => none
  | _ => some (listSum l)

/-- One synthesized daily period for a day group; `e0` is `entries[0]`. -/
def aggregateGroup (tz : Int) (entries : List ForecastPeriod) (e0 : ForecastPeriod) :
    ForecastPeriod where
  provider := e0.provider
  location := e0.location
  issued_at := e0.issued_at
  start_time := ((localDay tz e0.start_time * 86400 - tz : Int) : ℚ)
  end_time := ((localDay tz e0.start_time * 86400 - tz : Int) : ℚ) + 86400
  temperature_c := meanOpt (entries.filterMap (·.temperature_c))
  temperature_apparent_c := meanOpt (entries.filterMap (·.temperature_apparent_c))
  temperature_apparent_shade_c := meanOpt (entries.filterMap (·.temperature_apparent_shade_c))
  temperature_apparent_alt_c := meanOpt (entries.filterMap (·.temperature_apparent_alt_c))
  temperature_wind_chill_c := meanOpt (entries.filterMap (·.temperature_wind_chill_c))
  temperature_wet_bulb_c := meanOpt (entries.filterMap (·.temperature_wet_bulb_c))
  temperature_wet_bulb_globe_c := meanOpt (entries.filterMap (·.temperature_wet_bulb_globe_c))
  dewpoint_c := meanOpt (entries.filterMap (·.dewpoint_c))
  temperature_high_c :=
    match listMax (entries.filterMap (·.temperature_high_c)) with
    | some v => some v
    | none => listMax (entries.filterMap (·.temperature_c))
  temperature_low_c :=
    match listMin (entries.filterMap (·.temperature_low_c)) with
    | some v => some v
    | none => listMin (entries.filterMap (·.temperature_c))
  precipitation_probability := listMax (entries.filterMap (·.precipitation_probability))
  precipitation_probability_rain := listMax (entries.filterMap (·.precipitation_probability_rain))
  precipitation_probability_snow := listMax (entries.filterMap (·.precipitation_probability_snow))
  precipitation_probability_ice := listMax (entries.filterMap (·.precipitation_probability_ice))
  precipitation_probability_thunderstorm :=
    listMax (entries.filterMap (·.precipitation_probability_thunderstorm))
  precipitation_mm := sumOpt (entries.filterMap (·.precipitation_mm))
  precipitation_amount_rain_mm := sumOpt (entries.filterMap (·.precipitation_amount_rain_mm))
  precipitation_amount_snow_mm := sumOpt (entries.filterMap (·.precipitation_amount_snow_mm))
  precipitation_amount_sleet_mm := sumOpt (entries.filterMap (·.precipitation_amount_sleet_mm))
  precipitation_amount_ice_mm := sumOpt (entries.filterMap (·.precipitation_amount_ice_mm))
  precipitation_amount_snow_lwe_mm := sumOpt (entries.filterMap (·.precipitation_amount_snow_lwe_mm))
  precipitation_amount_sleet_lwe_mm := sumOpt (entries.filterMap (·.precipitation_amount_sleet_lwe_mm))
  precipitation_amount_ice_lwe_mm := sumOpt (entries.filterMap (·.precipitation_amount_ice_lwe_mm))
  precipitation_rate_rain_mm_hr := meanOpt (entries.filterMap (·.precipitation_rate_rain_mm_hr))
  precipitation_rate_snow_mm_hr := meanOpt (entries.filterMap (·.precipitation_rate_snow_mm_hr))
  precipitation_rate_sleet_mm_hr := meanOpt (entries.filterMap (·.precipitation_rate_sleet_mm_hr))
  precipitation_rate_freezing_rain_mm_hr :=
    meanOpt (entries.filterMap (·.precipitation_rate_freezing_rain_mm_hr))
  precipitation_rate_ice_mm_hr := meanOpt (entries.filterMap (·.precipitation_rate_ice_mm_hr))
  summary := none
  wind_speed_kph := listMax (entries.filterMap (·.wind_speed_kph))
  wind_gust_kph := listMax (entries.filterMap (·.wind_gust_kph))
  wind_direction_deg := (entries.filterMap (·.wind_direction_deg)).head?
  uv_index := listMax (entries.filterMap (·.uv_index))
  uv_health_concern := listMax (entries.filterMap (·.uv_health_concern))
  relative_humidity := meanOpt (entries.filterMap (·.relative_humidity))
  visibility_km := meanOpt (entries.filterMap (·.visibility_km))
  pressure_sea_level_kpa := meanOpt (entries.filterMap (·.pressure_sea_level_kpa))
  pressure_surface_kpa := meanOpt (entries.filterMap (·.pressure_surface_kpa))
  altimeter_kpa := meanOpt (entries.filterMap (·.altimeter_kpa))
  cloud_cover_pct := meanOpt (entries.filterMap (·.cloud_cover_pct))
  cloud_base_km := meanOpt (entries.filterMap (·.cloud_base_km))
  cloud_ceiling_km := meanOpt (entries.filterMap (·.cloud_ceiling_km))
  snow_depth_cm := listMax (entries.filterMap (·.snow_depth_cm))
  evapotranspiration_mm := sumOpt (entries.filterMap (·.evapotranspiration_mm))
  solar_irradiance_wm2 := meanOpt (entries.filterMap (·.solar_irradiance_wm2))
  sun_hours := sumOpt (entries.filterMap (·.sun_hours))

/-- `aggregate_daily_from_periods`: group by local day of `start_time`,
then reduce each group (the `quality_flag` argument is unused in the
function body and omitted here). -/
def aggregate_daily_from_periods (tz : Int) (periods : List ForecastPeriod) :
    List ForecastPeriod :=
  let keys := sortedDayKeys (periods.map (fun p => localDay tz p.start_time))
  keys.filterMap (fun d =>
    match periods.filter (fun p => decide (localDay tz p.start_time = d)) with
    | [] => none
    | e0 :: rest => some (aggregateGroup tz (e0 :: rest) e0))

/-! ## Unit conversions (claim C8 names one representative per conversion;
`tomorrow_io.py` and `accuweather.py` carry identical copies of the
`m/s`, `hPa`, `mph` and `inch` helpers). -/

/-- `ambient_weather._f_to_c`. -/
def f_to_c : Option ℚ → Option ℚ
  | none => none
  | some v => some ((v - 32) * 5 / 9)

/-- `ambient_weather.MPH_TO_KPH` scaling, `_mph_to_kph`. -/
def mph_to_kph : Option ℚ → Option ℚ
  | none => none
  | some v => some (v * 1.60934)

/-- `ambient_weather._inHg_to_kpa`. -/
def inHg_to_kpa : Option ℚ → Option ℚ
  | none => none
  | some v => some (v * 3.386389)

/-- `ambient_weather._inches_to_mm`. -/
def inches_to_mm : Option ℚ → Option ℚ
  | none => none
  | some v => some (v * 25.4)

/-- `openweather._kelvin_to_celsius`. -/
def kelvin_to_celsius : Option ℚ → Option ℚ
  | none => none
  | some v => some (v - 273.15)

/-- `openweather._meters_to_km`. -/
def meters_to_km : Option ℚ → Option ℚ
  | none => none
  | some v => some (v / 1000)

/-- `openweather._hpa_to_kpa`. -/
def hpa_to_kpa : Option ℚ → Option ℚ
  | none => none
  | some v => some (v / 10)

/-- `openweather._ms_to_kph`. -/
def ms_to_kph : Option ℚ → Option ℚ
  | none => none
  | some v => some (v * 3.6)

/-! ## OpenWeather mappers (`wxbench/domain/mappers/openweather.py`) -/

/-- Elements of a JSON sequence (non-sequences are outside the model). -/
def Json.asArr : Json → List Json
  | .arr l => l
  | _ => []

def Json.isNull : Json → Bool
  | .null => true
  | _ => false

/-- Payload value stored into an `Optional[str]` field. -/
def asOptString : Json → Option String
  | .str s => some s
  | _ => none

/-- `_weather_summary`. -/
def weatherSummary (payload : Json) : Option String :=
  match payload.getOr "weather" (.arr []) with
  | .arr (first :: _) => some (pyStrOf (pyOr (first.getD "description") (first.getD "main")))
  | _ => none

/-- `_weather_code`. -/
def weatherCodeOW (payload : Json) : Option Int :=
  match payload.getOr "weather" (.arr []) with
  | .arr (first :: _) => toOptionalInt (first.getD "id")
  | _ => none

/-- `_timestamp_to_datetime`. -/
def timestampToDatetime (value : Json) : Except String Instant :=
  match value with
  | .null => .error "Timestamp missing"
  | v => do
      let i ← pyIntE v
      pure ((i : ℚ))

/-- The Mapping branch shared by `_extract_precipitation`: `some r` when
the branch returns `r`, `none` when control falls through. -/
def precipBlockResult (block : Json) : Option (Option ℚ) :=
  match block with
  | .obj _ => some (toOptionalFloat (pyOr (block.getD "1h") (block.getD "3h")))
  | _ => none

/-- `_extract_precipitation`. -/
def extractPrecipitation (values : Json) : Option ℚ :=
  match (if values.containsKey "rain" then
      precipBlockResult (values.getOr "rain" (.obj [])) else none) with
  | some r => r
  | none =>
      match (if values.containsKey "snow" then
          precipBlockResult (values.getOr "snow" (.obj [])) else none) with
      | some r => r
      | none => none

/-- One branch of `_extract_onecall_precipitation` (`bool` is an `int` in
Python, so it takes the numeric branch). -/
def onecallPrecipOf (v : Json) : Option (Option ℚ) :=
  match v with
  | .obj _ => some (toOptionalFloat (pyOr (v.getD "1h") (v.getD "3h")))
  | .num q => some (toOptionalFloat (.num q))
  | .bool b => some (toOptionalFloat (.bool b))
  | _ => none

/-- `_extract_onecall_precipitation`. -/
def extractOnecallPrecipitation (values : Json) : Option ℚ :=
  match onecallPrecipOf (values.getD "rain") with
  | some r => r
  | none =>
      match onecallPrecipOf (values.getD "snow") with
      | some r => r
      | none => none

/-- `map_openweather_observation`. -/
def map_openweather_observation (provider : String) (payload : Json) :
    Except String Observation :=
  let coords := payload.getOr "coord" (.obj [])
  if !(coords.containsKey "lat" && coords.containsKey "lon") then
    .error "Missing coordinates for observation"
  else do
    let observed_at ← timestampToDatetime (payload.getD "dt")
    let main := payload.getOr "main" (.obj [])
    let wind := payload.getOr "wind" (.obj [])
    let clouds := payload.getOr "clouds" (.obj [])
    let lat ← pyFloatE (coords.getD "lat")
    let lon ← pyFloatE (coords.getD "lon")
    pure
      { provider := provider
        station := asOptString (payload.getD "name")
        location := ⟨lat, lon⟩
        observed_at := observed_at
        temperature_c := kelvin_to_celsius (toOptionalFloat (main.getD "temp"))
        temperature_apparent_c := kelvin_to_celsius (toOptionalFloat (main.getD "feels_like"))
        dewpoint_c := none
        wind_speed_kph := ms_to_kph (toOptionalFloat (wind.getD "speed"))
        wind_direction_deg := toOptionalInt (wind.getD "deg")
        wind_gust_kph := ms_to_kph (toOptionalFloat (wind.getD "gust"))
        pressure_kpa := hpa_to_kpa (toOptionalFloat (main.getD "pressure"))
        pressure_sea_level_kpa := hpa_to_kpa (toOptionalFloat (main.getD "pressure"))
        relative_humidity := toOptionalFloat (main.getD "humidity")
        visibility_km := meters_to_km (toOptionalFloat (payload.getD "visibility"))
        cloud_cover_pct := toOptionalFloat (clouds.getD "all")
        condition := weatherSummary payload
        condition_code := weatherCodeOW payload
        precipitation_last_hour_mm := extractPrecipitation payload }

/-- One entry of the `map_openweather_forecast` loop. -/
def owForecastEntry (provider : String) (lat lon : ℚ) (issued : Instant)
    (entry : Json) : Except String ForecastPeriod := do
  let start ← timestampToDatetime (entry.getD "dt")
  let endT := start + 3 * 3600
  let main := entry.getOr "main" (.obj [])
  let wind := entry.getOr "wind" (.obj [])
  let clouds := entry.getOr "clouds" (.obj [])
  let precipitation := extractPrecipitation entry
  let pop := (toOptionalFloat (entry.getD "pop")).map (· * 100)
  pure
    { provider := provider
      location := ⟨lat, lon⟩
      issued_at := issued
      start_time := start
      end_time := endT
      temperature_c := kelvin_to_celsius (toOptionalFloat (main.getD "temp"))
      temperature_high_c := kelvin_to_celsius (toOptionalFloat (main.getD "temp_max"))
      temperature_low_c := kelvin_to_celsius (toOptionalFloat (main.getD "temp_min"))
      precipitation_probability := pop
      precipitation_mm := precipitation
      summary := weatherSummary entry
      condition_code := weatherCodeOW entry
      wind_speed_kph := ms_to_kph (toOptionalFloat (wind.getD "speed"))
      wind_direction_deg := toOptionalInt (wind.getD "deg")
      wind_gust_kph := ms_to_kph (toOptionalFloat (wind.getD "gust"))
      relative_humidity := toOptionalFloat (main.getD "humidity")
      pressure_sea_level_kpa := hpa_to_kpa (toOptionalFloat (main.getD "pressure"))
      cloud_cover_pct := toOptionalFloat (clouds.getD "all") }

/-- `map_openweather_forecast`. -/
def map_openweather_forecast (provider : String) (payload : Json) :
    Except String (List ForecastPeriod) :=
  let city := payload.getOr "city" (.obj [])
  let coords := city.getOr "coord" (.obj [])
  let periods := (payload.getOr "list" (.arr [])).asArr
  if !(coords.containsKey "lat" && coords.containsKey "lon") then
    .error "Missing coordinates for forecast"
  else
    match periods with
    | [] => .ok []
    | first :: rest => do
        let issued ← timestampToDatetime (first.getD "dt")
        let lat ← pyFloatE (coords.getD "lat")
        let lon ← pyFloatE (coords.getD "lon")
        mapME (owForecastEntry provider lat lon issued) (first :: rest)

/-! ## Tomorrow.io mappers (`wxbench/domain/mappers/tomorrow_io.py`).
The injectable `iso_parser` becomes an explicit `isoParse` argument; the
stdlib default raises on malformed input, hence `Except`. -/

/-- `_WEATHER_CODE_TO_DESCRIPTION`. -/
def WEATHER_CODE_TO_DESCRIPTION : List (Int × String) := [
  (0, "Unknown"), (1000, "Clear"), (1100, "Mostly Clear"),
  (1101, "Partly Cloudy"), (1102, "Mostly Cloudy"), (1001, "Cloudy"),
  (2000, "Fog"), (2100, "Light Fog"), (4000, "Drizzle"), (4001, "Rain"),
  (4200, "Light Rain"), (4201, "Heavy Rain"), (5000, "Snow"),
  (5001, "Flurries"), (5100, "Light Snow"), (5101, "Heavy Snow"),
  (6000, "Freezing Drizzle"), (6001, "Freezing Rain"),
  (6200, "Light Freezing Rain"), (6201, "Heavy Freezing Rain"),
  (7000, "Ice Pellets"), (7101, "Heavy Ice Pellets"), (7102, "Light Ice Pellets")]

def lookupCode : List (Int × String) → Int → Option String
  | [], _ => none
  | kv :: rest, code => if kv.1 = code then some kv.2 else lookupCode rest code

/-- `_describe_weather_code`. -/
def describeWeatherCode (code : Json) : Option String :=
  match toOptionalInt code with
  | none => none
  | some numeric => some ((lookupCode WEATHER_CODE_TO_DESCRIPTION numeric).getD (toString numeric))

/-- `_sum_intensities`. -/
def sumIntensities (values : Json) : Option ℚ :=
  let r := ["rainIntensity", "snowIntensity", "sleetIntensity", "freezingRainIntensity"].foldl
    (fun (acc : ℚ × Bool) key =>
      match toOptionalFloat (values.getD key) with
      | none => acc
      | some amount => (acc.1 + amount, true))
    (0, false)
  if r.2 then some r.1 else none

/-- `_daily_value` with an explicit suffix. -/
def dailyValueWith (values : Json) (base suffix : String) : Option ℚ :=
  if values.containsKey (base ++ suffix) && !(values.getD (base ++ suffix)).isNull then
    toOptionalFloat (values.getD (base ++ suffix))
  else if values.containsKey base && !(values.getD base).isNull then
    toOptionalFloat (values.getD base)
  else none

/-- `_daily_value` (default suffix `"Avg"`). -/
def dailyValue (values : Json) (base : String) : Option ℚ :=
  dailyValueWith values base "Avg"

/-- `_daily_value_sum`. -/
def dailyValueSum (values : Json) (base : String) : Option ℚ :=
  dailyValueWith values base "Sum"

/-- `_daily_value_max`. -/
def dailyValueMax (values : Json) (base : String) : Option ℚ :=
  dailyValueWith values base "Max"

/-- `_first_present` (tomorrow_io version): first key present whose value
converts to a float. -/
def firstPresentTio (values : Json) : List String → Option ℚ
  | [] => none
  | key :: rest =>
      if values.containsKey key then
        match toOptionalFloat (values.getD key) with
        | some candidate => some candidate
        | none => firstPresentTio values rest
      else firstPresentTio values rest

/-- Python `a or b` on optional floats (`Some 0` is falsy). -/
def orOptQ (a b : Option ℚ) : Option ℚ :=
  match a with
  | some x => if x ≠ 0 then some x else b
  | none => b

/-- The declared-step fallback of `_infer_end_time`: the seconds delta for
a parsable, truthy step suffix, `none` when control reaches `return
start_time`. -/
def stepDelta (ts : String) : Option ℚ :=
  if strEndsWith ts "h" then
    match parseFloatString (ts.dropRight 1) with
    | some hours => if hours ≠ 0 then some (hours * 3600) else none
    | none => none
  else if strEndsWith ts "m" then
    match parseFloatString (ts.dropRight 1) with
    | some minutes => if minutes ≠ 0 then some (minutes * 60) else none
    | none => none
  else if strEndsWith ts "d" then
    match parseFloatString (ts.dropRight 1) with
    | some days => if days ≠ 0 then some (days * 86400) else none
    | none => none
  else none

/-- `_infer_end_time`. -/
def infer_end_time (isoParse : String → Except String Instant) (index : Nat)
    (intervals : List Json) (startTime : Instant) (timestep : Option String) :
    Except String Instant :=
  let nextRaw : Option Json :=
    match intervals.get? (index + 1) with
    | some nxt => let raw := nxt.getD "time"; if raw.isTruthy then some raw else none
    | none => none
  match nextRaw with
  | some raw => isoParse (pyStrOf raw)
  | none =>
      match timestep with
      | some ts =>
          if ts.isEmpty then .ok startTime
          else
            match stepDelta ts with
            | some delta => .ok (startTime + delta)
            | none => .ok startTime
      | none => .ok startTime

/-- `map_tomorrow_io_observation`. -/
def map_tomorrow_io_observation (isoParse : String → Except String Instant)
    (provider : String) (payload : Json) : Except String Observation :=
  let data := payload.getOr "data" (.obj [])
  let values := data.getOr "values" (.obj [])
  let location := payload.getOr "location" (.obj [])
  if !(location.containsKey "lat" && location.containsKey "lon") then
    .error "Missing coordinates for observation"
  else if !(data.getD "time").isTruthy then
    .error "Missing observation time"
  else do
    let observed_at ← isoParse (pyStrOf (data.getD "time"))
    let lat ← pyFloatE (location.getD "lat")
    let lon ← pyFloatE (location.getD "lon")
    pure
      { provider := provider
        station := asOptString (location.getD "name")
        location := ⟨lat, lon⟩
        observed_at := observed_at
        temperature_c := toOptionalFloat (values.getD "temperature")
        temperature_apparent_c := toOptionalFloat (values.getD "temperatureApparent")
        dewpoint_c := toOptionalFloat (values.getD "dewPoint")
        wind_speed_kph := ms_to_kph (toOptionalFloat (values.getD "windSpeed"))
        wind_direction_deg := toOptionalInt (values.getD "windDirection")
        wind_gust_kph := ms_to_kph (toOptionalFloat (values.getD "windGust"))
        pressure_kpa := hpa_to_kpa (toOptionalFloat (values.getD "pressureSurfaceLevel"))
        pressure_surface_kpa := hpa_to_kpa (toOptionalFloat (values.getD "pressureSurfaceLevel"))
        pressure_sea_level_kpa := hpa_to_kpa (toOptionalFloat (values.getD "pressureSeaLevel"))
        altimeter_kpa := hpa_to_kpa (toOptionalFloat (values.getD "altimeterSetting"))
        relative_humidity := toOptionalFloat (values.getD "humidity")
        visibility_km := toOptionalFloat (values.getD "visibility")
        cloud_cover_pct := toOptionalFloat (values.getD "cloudCover")
        cloud_base_km := toOptionalFloat (values.getD "cloudBase")
        cloud_ceiling_km := toOptionalFloat (values.getD "cloudCeiling")
        condition := describeWeatherCode (values.getD "weatherCode")
        condition_code := toOptionalInt (values.getD "weatherCode")
        precipitation_last_hour_mm := sumIntensities values
        precipitation_rate_rain_mm_hr := toOptionalFloat (values.getD "rainIntensity")
        precipitation_rate_snow_mm_hr := toOptionalFloat (values.getD "snowIntensity")
        precipitation_rate_sleet_mm_hr := toOptionalFloat (values.getD "sleetIntensity")
        precipitation_rate_freezing_rain_mm_hr :=
          toOptionalFloat (values.getD "freezingRainIntensity")
        uv_index := toOptionalFloat (values.getD "uvIndex")
        uv_health_concern := toOptionalFloat (values.getD "uvHealthConcern") }

/-- One entry of the `map_tomorrow_io_forecast` loop (the enumerated index
feeds `_infer_end_time` with the hard-coded `"1h"` step). -/
def tioForecastEntry (isoParse : String → Except String Instant) (provider : String)
    (lat lon : ℚ) (issued : Instant) (intervals : List Json) (ie : Nat × Json) :
    Except String ForecastPeriod :=
  let interval := ie.2
  if !(interval.getD "time").isTruthy then
    .error "Forecast interval missing start time"
  else do
    let start ← isoParse (pyStrOf (interval.getD "time"))
    let endT ← infer_end_time isoParse ie.1 intervals start (some "1h")
    let values := interval.getOr "values" (.obj [])
    let precipIntensity := sumIntensities values
    pure
      { provider := provider
        location := ⟨lat, lon⟩
        issued_at := issued
        start_time := start
        end_time := endT
        temperature_c := toOptionalFloat (values.getD "temperature")
        temperature_apparent_c := toOptionalFloat (values.getD "temperatureApparent")
        dewpoint_c := toOptionalFloat (values.getD "dewPoint")
        precipitation_probability := toOptionalFloat (values.getD "precipitationProbability")
        precipitation_mm :=
          match precipIntensity with
          | none => none
          | some amount =>
              if endT ≠ start then some (amount * ((endT - start) / 3600)) else some amount
        precipitation_amount_rain_mm := toOptionalFloat (values.getD "rainAccumulation")
        precipitation_amount_snow_mm := toOptionalFloat (values.getD "snowAccumulation")
        precipitation_amount_sleet_mm := toOptionalFloat (values.getD "sleetAccumulation")
        precipitation_amount_ice_mm := toOptionalFloat (values.getD "iceAccumulation")
        precipitation_amount_snow_lwe_mm := toOptionalFloat (values.getD "snowAccumulationLwe")
        precipitation_amount_sleet_lwe_mm := toOptionalFloat (values.getD "sleetAccumulationLwe")
        precipitation_amount_ice_lwe_mm := toOptionalFloat (values.getD "iceAccumulationLwe")
        precipitation_rate_rain_mm_hr := toOptionalFloat (values.getD "rainIntensity")
        precipitation_rate_snow_mm_hr := toOptionalFloat (values.getD "snowIntensity")
        precipitation_rate_sleet_mm_hr := toOptionalFloat (values.getD "sleetIntensity")
        precipitation_rate_freezing_rain_mm_hr :=
          toOptionalFloat (values.getD "freezingRainIntensity")
        summary := describeWeatherCode (values.getD "weatherCode")
        condition_code := toOptionalInt (values.getD "weatherCode")
        wind_speed_kph := ms_to_kph (toOptionalFloat (values.getD "windSpeed"))
        wind_direction_deg := toOptionalInt (values.getD "windDirection")
        wind_gust_kph := ms_to_kph (toOptionalFloat (values.getD "windGust"))
        uv_index := toOptionalFloat (values.getD "uvIndex")
        uv_health_concern := toOptionalFloat (values.getD "uvHealthConcern")
        relative_humidity := toOptionalFloat (values.getD "humidity")
        visibility_km := toOptionalFloat (values.getD "visibility")
        pressure_surface_kpa := hpa_to_kpa (toOptionalFloat (values.getD "pressureSurfaceLevel"))
        pressure_sea_level_kpa := hpa_to_kpa (toOptionalFloat (values.getD "pressureSeaLevel"))
        altimeter_kpa := hpa_to_kpa (toOptionalFloat (values.getD "altimeterSetting"))
        cloud_cover_pct := toOptionalFloat (values.getD "cloudCover")
        cloud_base_km := toOptionalFloat (values.getD "cloudBase")
        cloud_ceiling_km := toOptionalFloat (values.getD "cloudCeiling")
        snow_depth_cm := toOptionalFloat (values.getD "snowDepth")
        evapotranspiration_mm := toOptionalFloat (values.getD "evapotranspiration") }

/-- `map_tomorrow_io_forecast`. -/
def map_tomorrow_io_forecast (isoParse : String → Except String Instant)
    (provider : String) (payload : Json) : Except String (List ForecastPeriod) :=
  let location := payload.getOr "location" (.obj [])
  let timelines := payload.getOr "timelines" (.obj [])
  let intervals := (timelines.getOr "hourly" (.arr [])).asArr
  if !(location.containsKey "lat" && location.containsKey "lon") then
    .error "Missing coordinates for forecast"
  else
    match intervals with
    | [] => .ok []
    | first :: rest =>
        if !(first.getD "time").isTruthy then
          .error "Missing forecast issue time"
        else do
          let issued ← isoParse (pyStrOf (first.getD "time"))
          let lat ← pyFloatE (location.getD "lat")
          let lon ← pyFloatE (location.getD "lon")
          mapME (tioForecastEntry isoParse provider lat lon issued (first :: rest))
            ((first :: rest).enum)

/-- One entry of the `map_tomorrow_io_daily_forecast` loop (step `"1d"`). -/
def tioDailyEntry (isoParse : String → Except String Instant) (provider : String)
    (lat lon : ℚ) (issued : Instant) (intervals : List Json) (ie : Nat × Json) :
    Except String ForecastPeriod :=
  let interval := ie.2
  if !(interval.getD "time").isTruthy then
    .error "Forecast interval missing start time"
  else do
    let start ← isoParse (pyStrOf (interval.getD "time"))
    let endT ← infer_end_time isoParse ie.1 intervals start (some "1d")
    let values := interval.getOr "values" (.obj [])
    let rainSum := dailyValueSum values "rainAccumulation"
    let snowSum := dailyValueSum values "snowAccumulation"
    let sleetSum := dailyValueSum values "sleetAccumulation"
    let iceSum := dailyValueSum values "iceAccumulation"
    let precipTotal := listSum ([rainSum, snowSum, sleetSum, iceSum].filterMap id)
    pure
      { provider := provider
        location := ⟨lat, lon⟩
        issued_at := issued
        start_time := start
        end_time := endT
        temperature_c :=
          firstPresentTio values ["temperatureAvg", "temperature", "temperatureApparentAvg"]
        temperature_apparent_c :=
          firstPresentTio values ["temperatureApparentAvg", "temperatureApparent"]
        temperature_high_c := firstPresentTio values ["temperatureMax", "temperatureApparentMax"]
        temperature_low_c := firstPresentTio values ["temperatureMin", "temperatureApparentMin"]
        dewpoint_c := dailyValue values "dewPoint"
        precipitation_probability :=
          orOptQ (dailyValueMax values "precipitationProbability")
            (dailyValue values "precipitationProbability")
        precipitation_mm := if precipTotal = 0 then none else some precipTotal
        precipitation_amount_rain_mm := rainSum
        precipitation_amount_snow_mm := snowSum
        precipitation_amount_sleet_mm := sleetSum
        precipitation_amount_ice_mm := iceSum
        precipitation_amount_snow_lwe_mm := dailyValueSum values "snowAccumulationLwe"
        precipitation_amount_sleet_lwe_mm := dailyValueSum values "sleetAccumulationLwe"
        precipitation_amount_ice_lwe_mm := dailyValueSum values "iceAccumulationLwe"
        precipitation_rate_rain_mm_hr := dailyValue values "rainIntensity"
        precipitation_rate_snow_mm_hr := dailyValue values "snowIntensity"
        precipitation_rate_sleet_mm_hr := dailyValue values "sleetIntensity"
        precipitation_rate_freezing_rain_mm_hr := dailyValue values "freezingRainIntensity"
        summary := describeWeatherCode (values.getD "weatherCode")
        condition_code :=
          toOptionalInt (pyOr (values.getD "weatherCodeMax") (values.getD "weatherCode"))
        wind_speed_kph := ms_to_kph (firstPresentTio values ["windSpeedAvg", "windSpeed"])
        wind_direction_deg :=
          toOptionalInt (pyOr (values.getD "windDirectionAvg") (values.getD "windDirection"))
        wind_gust_kph := ms_to_kph (firstPresentTio values ["windGustAvg", "windGust"])
        uv_index := firstPresentTio values ["uvIndexMax", "uvIndex"]
        uv_health_concern :=
          firstPresentTio values
            ["uvHealthConcernMax", "uvHealthConcernAvg", "uvHealthConcern"]
        relative_humidity := dailyValue values "humidity"
        visibility_km := dailyValue values "visibility"
        pressure_sea_level_kpa := hpa_to_kpa (dailyValue values "pressureSeaLevel")
        pressure_surface_kpa := hpa_to_kpa (dailyValue values "pressureSurfaceLevel")
        altimeter_kpa := hpa_to_kpa (dailyValue values "altimeterSetting")
        cloud_cover_pct := dailyValue values "cloudCover"
        cloud_base_km := dailyValue values "cloudBase"
        cloud_ceiling_km := dailyValue values "cloudCeiling"
        snow_depth_cm := dailyValue values "snowDepth"
        evapotranspiration_mm :=
          orOptQ (dailyValueSum values "evapotranspiration")
            (dailyValue values "evapotranspiration") }

/-- `map_tomorrow_io_daily_forecast`. -/
def map_tomorrow_io_daily_forecast (isoParse : String → Except String Instant)
    (provider : String) (payload : Json) : Except String (List ForecastPeriod) :=
  let location := payload.getOr "location" (.obj [])
  let timelines := payload.getOr "timelines" (.obj [])
  let intervals := (timelines.getOr "daily" (.arr [])).asArr
  if !(location.containsKey "lat" && location.containsKey "lon") then
    .error "Missing coordinates for forecast"
  else
    match intervals with
    | [] => .ok []
    | first :: rest =>
        if !(first.getD "time").isTruthy then
          .error "Missing forecast issue time"
        else do
          let issued ← isoParse (pyStrOf (first.getD "time"))
          let lat ← pyFloatE (location.getD "lat")
          let lon ← pyFloatE (location.getD "lon")
          mapME (tioDailyEntry isoParse provider lat lon issued (first :: rest))
            ((first :: rest).enum)

/-- One entry of the `map_openweather_onecall_hourly` loop. -/
def owOnecallHourlyEntry (provider : String) (lat lon : ℚ) (issued : Instant)
    (entry : Json) : Except String ForecastPeriod := do
  let start ← timestampToDatetime (entry.getD "dt")
  let endT := start + 3600
  let pop := (toOptionalFloat (entry.getD "pop")).map (· * 100)
  pure
    { provider := provider
      location := ⟨lat, lon⟩
      issued_at := issued
      start_time := start
      end_time := endT
      temperature_c := toOptionalFloat (entry.getD "temp")
      temperature_apparent_c := toOptionalFloat (entry.getD "feels_like")
      temperature_high_c := none
      temperature_low_c := none
      dewpoint_c := toOptionalFloat (entry.getD "dew_point")
      precipitation_probability := pop
      precipitation_mm := extractOnecallPrecipitation entry
      summary := weatherSummary entry
      condition_code := weatherCodeOW entry
      wind_speed_kph := ms_to_kph (toOptionalFloat (entry.getD "wind_speed"))
      wind_direction_deg := toOptionalInt (entry.getD "wind_deg")
      wind_gust_kph := ms_to_kph (toOptionalFloat (entry.getD "wind_gust"))
      uv_index := toOptionalFloat (entry.getD "uvi")
      relative_humidity := toOptionalFloat (entry.getD "humidity")
      pressure_sea_level_kpa := hpa_to_kpa (toOptionalFloat (entry.getD "pressure"))
      cloud_cover_pct := toOptionalFloat (entry.getD "clouds")
      visibility_km := meters_to_km (toOptionalFloat (entry.getD "visibility")) }

/-- `map_openweather_onecall_hourly`. -/
def map_openweather_onecall_hourly (provider : String) (payload : Json) :
    Except String (List ForecastPeriod) :=
  if (payload.getD "lat").isNull || (payload.getD "lon").isNull then
    .error "Missing coordinates for One Call hourly forecast"
  else
    match (payload.getOr "hourly" (.arr [])).asArr with
    | [] => .ok []
    | first :: rest => do
        let issued ← timestampToDatetime (first.getD "dt")
        let lat ← pyFloatE (payload.getD "lat")
        let lon ← pyFloatE (payload.getD "lon")
        mapME (owOnecallHourlyEntry provider lat lon issued) (first :: rest)

/-- One entry of the `map_openweather_onecall_daily` loop. -/
def owOnecallDailyEntry (provider : String) (lat lon : ℚ) (issued : Instant)
    (entry : Json) : Except String ForecastPeriod := do
  let start ← timestampToDatetime (entry.getD "dt")
  let endT := start + 86400
  let tempBlock := entry.getOr "temp" (.obj [])
  let pop := (toOptionalFloat (entry.getD "pop")).map (· * 100)
  pure
    { provider := provider
      location := ⟨lat, lon⟩
      issued_at := issued
      start_time := start
      end_time := endT
      temperature_c := toOptionalFloat (tempBlock.getD "day")
      temperature_apparent_c := toOptionalFloat ((entry.getOr "feels_like" (.obj [])).getD "day")
      temperature_high_c := toOptionalFloat (tempBlock.getD "max")
      temperature_low_c := toOptionalFloat (tempBlock.getD "min")
      dewpoint_c := toOptionalFloat (entry.getD "dew_point")
      precipitation_probability := pop
      precipitation_mm := extractOnecallPrecipitation entry
      summary := weatherSummary entry
      condition_code := weatherCodeOW entry
      wind_speed_kph := ms_to_kph (toOptionalFloat (entry.getD "wind_speed"))
      wind_direction_deg := toOptionalInt (entry.getD "wind_deg")
      wind_gust_kph := ms_to_kph (toOptionalFloat (entry.getD "wind_gust"))
      uv_index := toOptionalFloat (entry.getD "uvi")
      relative_humidity := toOptionalFloat (entry.getD "humidity")
      pressure_sea_level_kpa := hpa_to_kpa (toOptionalFloat (entry.getD "pressure"))
      cloud_cover_pct := toOptionalFloat (entry.getD "clouds") }

/-- `map_openweather_onecall_daily`. -/
def map_openweather_onecall_daily (provider : String) (payload : Json) :
    Except String (List ForecastPeriod) :=
  if (payload.getD "lat").isNull || (payload.getD "lon").isNull then
    .error "Missing coordinates for One Call daily forecast"
  else
    match (payload.getOr "daily" (.arr [])).asArr with
    | [] => .ok []
    | first :: rest => do
        let issued ← timestampToDatetime (first.getD "dt")
        let lat ← pyFloatE (payload.getD "lat")
        let lon ← pyFloatE (payload.getD "lon")
        mapME (owOnecallDailyEntry provider lat lon issued) (first :: rest)

/-! ## AmbientWeather mapper (`wxbench/domain/mappers/ambient_weather.py`) -/

/-- Python `a if a is not None else b` on optionals. -/
def orElseOpt {α : Type} (a b : Option α) : Option α :=
  match a with
  | some v => some v
  | none => b

/-- `str(device.get("macAddress") or "")`. -/
def macOf (device : Json) : String :=
  pyStrOf (pyOr (device.getD "macAddress") (.str ""))

/-- `_select_device`: explicit MAC match first, else the first device after
sorting by MAC (= the earliest device with the minimal MAC string). -/
def selectDevice (devices : List Json) (preferredMac : Option String) :
    Except String Json :=
  match devices with
  | [] => .error "No devices found in payload"
  | d0 :: rest =>
      match preferredMac with
      | some preferred =>
          match (d0 :: rest).find? (fun dev => strToLower (macOf dev) == strToLower preferred) with
          | some dev => .ok dev
          | none => .error ("Device with MAC " ++ preferred ++ " not found")
      | none =>
          .ok (rest.foldl (fun best dev => if strLt (macOf dev) (macOf best) then dev else best) d0)

/-- The `(lat, lon)` pair resolved by `_extract_coords` before its
`is None` check (`null` models Python `None`). -/
def extractCoordsRaw (info : Json) : Json × Json :=
  match info.getD "coords" with
  | .obj fields =>
      let coords : Json := .obj fields
      match coords.getD "coords" with
      | .obj nestedFields =>
          let nested : Json := .obj nestedFields
          (pyOr (nested.getD "lat") (nested.getD "latitude"),
           pyOr (nested.getD "lon") (nested.getD "longitude"))
      | _ =>
          (pyOr (coords.getD "lat") (coords.getD "latitude"),
           pyOr (coords.getD "lon") (coords.getD "longitude"))
  | .arr items =>
      match items with
      | a :: b :: _ => (a, b)
      | _ => (.null, .null)
  | _ => (.null, .null)

/-- `_extract_coords`. -/
def extract_coords (info : Json) : Except String (ℚ × ℚ) :=
  let raw := extractCoordsRaw info
  if raw.1.isNull || raw.2.isNull then .error "Missing coordinates for device"
  else do
    let la ← pyFloatE raw.1
    let lo ← pyFloatE raw.2
    pure (la, lo)

/-- `_parse_observed_at`: epoch milliseconds collapse to seconds. -/
def parseObservedAt (timestamp : Json) : Except String Instant :=
  match timestamp with
  | .null => .error "Missing observation timestamp"
  | v => do
      let numeric ← pyFloatE v
      pure (if numeric > 10 ^ 12 then numeric / 1000 else numeric)

/-- `map_ambient_weather_observation`. -/
def map_ambient_weather_observation (provider : String) (deviceMac : Option String)
    (payload : List Json) : Except String Observation := do
  let device ← selectDevice payload deviceMac
  let lastData := device.getOr "lastData" (.obj [])
  if !lastData.isTruthy then
    .error "Device payload missing lastData"
  else do
    let info := device.getOr "info" (.obj [])
    let coords ← extract_coords info
    let observed_at ← parseObservedAt (lastData.getD "dateutc")
    let temperature_f :=
      orElseOpt (toOptionalFloat (lastData.getD "tempf")) (toOptionalFloat (lastData.getD "tempOut"))
    let temperature_c_metric :=
      match temperature_f with
      | none => toOptionalFloat (lastData.getD "tempc")
      | some _ => none
    let temperature_in_f :=
      orElseOpt (toOptionalFloat (lastData.getD "tempinf")) (toOptionalFloat (lastData.getD "tempIn"))
    let feels_like_f := toOptionalFloat (lastData.getD "feelsLike")
    let feels_like_in_f := toOptionalFloat (lastData.getD "feelsLikein")
    let dewpoint_f :=
      orElseOpt (toOptionalFloat (lastData.getD "dewPoint")) (toOptionalFloat (lastData.getD "dewptf"))
    let dewpoint_c_metric :=
      match dewpoint_f with
      | none => toOptionalFloat (lastData.getD "dewpt")
      | some _ => none
    let dewpoint_in_f :=
      orElseOpt (toOptionalFloat (lastData.getD "dewPointin")) (toOptionalFloat (lastData.getD "dewptin"))
    let wind_speed_mph :=
      orElseOpt (toOptionalFloat (lastData.getD "windspeedmph")) (toOptionalFloat (lastData.getD "windSpeed"))
    let wind_gust_mph := toOptionalFloat (lastData.getD "windgustmph")
    let max_daily_gust_mph := toOptionalFloat (lastData.getD "maxdailygust")
    let pressure_inhg :=
      orElseOpt (toOptionalFloat (lastData.getD "baromrelin"))
        (orElseOpt (toOptionalFloat (lastData.getD "baromabsin"))
          (toOptionalFloat (lastData.getD "barometer")))
    let pressure_abs_inhg := toOptionalFloat (lastData.getD "baromabsin")
    let precipitation_in :=
      orElseOpt (toOptionalFloat (lastData.getD "hourlyrainin")) (toOptionalFloat (lastData.getD "hourlyrain"))
    pure
      { provider := provider
        station := asOptString (pyOr (info.getD "name") (device.getD "macAddress"))
        location := ⟨coords.1, coords.2⟩
        observed_at := observed_at
        temperature_c :=
          match temperature_c_metric with
          | some v => some v
          | none => f_to_c temperature_f
        temperature_apparent_c := f_to_c feels_like_f
        temperature_in_c := f_to_c temperature_in_f
        temperature_apparent_in_c := f_to_c feels_like_in_f
        dewpoint_c :=
          match dewpoint_c_metric with
          | some v => some v
          | none => f_to_c dewpoint_f
        dewpoint_in_c := f_to_c dewpoint_in_f
        wind_speed_kph := mph_to_kph wind_speed_mph
        wind_gust_kph := mph_to_kph wind_gust_mph
        wind_gust_daily_max_kph := mph_to_kph max_daily_gust_mph
        wind_direction_deg := toOptionalInt (lastData.getD "winddir")
        wind_direction_avg_10m_deg := toOptionalInt (lastData.getD "winddir_avg10m")
        pressure_kpa := inHg_to_kpa pressure_inhg
        pressure_absolute_kpa := inHg_to_kpa pressure_abs_inhg
        relative_humidity := toOptionalFloat (lastData.getD "humidity")
        relative_humidity_in := toOptionalFloat (lastData.getD "humidityin")
        visibility_km := none
        condition := none
        precipitation_last_hour_mm := inches_to_mm precipitation_in
        precipitation_daily_mm := inches_to_mm (toOptionalFloat (lastData.getD "dailyrainin"))
        precipitation_weekly_mm := inches_to_mm (toOptionalFloat (lastData.getD "weeklyrainin"))
        precipitation_monthly_mm := inches_to_mm (toOptionalFloat (lastData.getD "monthlyrainin"))
        precipitation_yearly_mm := inches_to_mm (toOptionalFloat (lastData.getD "yearlyrainin"))
        precipitation_event_mm := inches_to_mm (toOptionalFloat (lastData.getD "eventrainin"))
        uv_index := toOptionalFloat (lastData.getD "uv")
        solar_radiation_wm2 := toOptionalFloat (lastData.getD "solarradiation")
        battery_in := toOptionalFloat (lastData.getD "battin")
        battery_out := toOptionalFloat (lastData.getD "battout") }

/-! ## MSC RDPS PROGNOS parsing (`wxbench/domain/mappers/msc_rdps_prognos.py`).
Only `parse_prognos_payload` is embedded; station selection
(`select_nearest_station`) is pure trigonometric post-processing. -/

/-- One PROGNOS station sample. -/
structure PrognosStationValue where
  station_id : String
  latitude : ℚ
  longitude : ℚ
  reference_time : Instant
  forecast_time : Instant
  lead_hours : Int
  unit : String
  value : ℚ
  deriving DecidableEq

/-- `_parse_lead_hours`: `PT<n>H` strings only. -/
def parseLeadHours (value : String) : Except String Int :=
  if !(strStartsWith value "PT") || !(strEndsWith value "H") then
    .error ("Unexpected lead time format: " ++ value)
  else
    match parseIntString ((value.drop 2).dropRight 1) with
    | some i => .ok i
    | none => .error ("invalid literal for int(): " ++ (value.drop 2).dropRight 1)

/-- The `features` resolution of `parse_prognos_payload`: strings and dicts
are iterable (their elements are never mappings, so every element is
skipped), scalars are not. -/
def prognosFeatures (payload : Json) : Except String (List Json) :=
  match payload.getOr "features" (.arr []) with
  | .arr l => .ok l
  | .str _ => .ok []
  | .obj _ => .ok []
  | _ => .error "Missing features array in RDPS PROGNOS payload"

/-- One feature of the `parse_prognos_payload` loop; `none` models
`continue`. -/
def prognosFeature (isoParse : String → Except String Instant) (feature : Json) :
    Except String (Option PrognosStationValue) :=
  match feature with
  | .obj _ =>
      match (feature.getOr "geometry" (.obj [])).getOr "coordinates" (.arr []) with
      | .arr (c0 :: c1 :: _) =>
          let properties := feature.getOr "properties" (.obj [])
          let stationId := properties.getD "prognos_station_id"
          let referenceTime := properties.getD "reference_datetime"
          let forecastTime := properties.getD "forecast_datetime"
          let leadTime := properties.getD "forecast_leadtime"
          let value := properties.getD "forecast_value"
          let unit := properties.getD "unit"
          if stationId.isNull || referenceTime.isNull || forecastTime.isNull || leadTime.isNull then
            pure none
          else
            match toOptionalFloat value with
            | none => pure none
            | some numericValue =>
                if unit.isNull then pure none
                else do
                  let la ← pyFloatE c1
                  let lo ← pyFloatE c0
                  let rt ← isoParse (pyStrOf referenceTime)
                  let ft ← isoParse (pyStrOf forecastTime)
                  let lh ← parseLeadHours (pyStrOf leadTime)
                  pure (some
                    { station_id := pyStrOf stationId
                      latitude := la
                      longitude := lo
                      reference_time := rt
                      forecast_time := ft
                      lead_hours := lh
                      unit := pyStrOf unit
                      value := numericValue })
      | _ => pure none
  | _ => pure none

/-- `parse_prognos_payload`. -/
def parse_prognos_payload (isoParse : String → Except String Instant) (payload : Json) :
    Except String (List PrognosStationValue) := do
  let features ← prognosFeatures payload
  let results ← mapME (prognosFeature isoParse) features
  let values := results.filterMap id
  if values.isEmpty then
    .error "No usable station values in RDPS PROGNOS payload"
  else
    pure values

/-! ## MSC GeoMet mappers (`wxbench/domain/mappers/msc_geomet.py`) -/

/-- A value found by key lookup is structurally smaller than the object. -/
theorem lookupKey_sizeOf (fields : List (String × Json)) (key : String) (v : Json)
    (h : lookupKey fields key = some v) : sizeOf v < sizeOf (Json.obj fields) := by
  induction fields with
  | nil => simp [lookupKey] at h
  | cons kv rest ih =>
      obtain ⟨k, w⟩ := kv
      simp only [lookupKey] at h
      by_cases hk : k = key
      · simp only [hk, if_pos] at h
        cases h
        simp
        omega
      · simp only [if_neg hk] at h
        have := ih h
        simp at this ⊢
        omega

/-- `_unwrap_value`: peel `textSummary` / `value` / `en` wrappers. -/
def unwrapValue : Json → Json
  | .obj fields =>
      match h1 : lookupKey fields "textSummary" with
      | some v => unwrapValue v
      | none =>
          match h2 : lookupKey fields "value" with
          | some v => unwrapValue v
          | none =>
              match h3 : lookupKey fields "en" with
              | some v => unwrapValue v
              | none => .obj fields
  | j => j
termination_by j => sizeOf j
decreasing_by
  · simp_wf
    have := lookupKey_sizeOf _ _ _ h1
    simp at this
    omega
  · simp_wf
    have := lookupKey_sizeOf _ _ _ h2
    simp at this
    omega
  · simp_wf
    have := lookupKey_sizeOf _ _ _ h3
    simp at this
    omega

unseal unwrapValue

/-- `_to_optional_float` (msc_geomet version: unwraps first). -/
def mscToOptionalFloat (v : Json) : Option ℚ :=
  toOptionalFloat (unwrapValue v)

/-- `_to_optional_int` (msc_geomet version: unwraps first). -/
def mscToOptionalInt (v : Json) : Option Int :=
  toOptionalInt (unwrapValue v)

/-- `_extract_condition`. -/
def extractCondition (presentWeather : Json) : Option String :=
  if !presentWeather.isTruthy then none
  else
    let unwrapped := unwrapValue presentWeather
    let indexed :=
      match unwrapped with
      | .arr (x :: _) => x
      | .arr [] => Json.null
      | other => other
    match indexed with
    | .obj fields =>
        let tryKey := fun (key : String) =>
          let candidate := (Json.obj fields).getD key
          if candidate.isTruthy then some (pyStrOf (unwrapValue candidate)) else none
        match tryKey "value" with
        | some s => some s
        | none =>
            match tryKey "text" with
            | some s => some s
            | none =>
                match tryKey "description" with
                | some s => some s
                | none => none
    | other => some (pyStrOf other)

/-- `_first_present` (msc_geomet version): unwraps the first non-`None`
value among the keys; `null` models the `None` fallthrough. -/
def firstPresentMsc (mapping : Json) : List String → Json
  | [] => .null
  | key :: rest =>
      if mapping.containsKey key && !(mapping.getD key).isNull then
        unwrapValue (mapping.getD key)
      else firstPresentMsc mapping rest

/-- `_select_temperature`. -/
def selectTemperature (temperatures : List Json) (category : Option String) : Option ℚ :=
  match temperatures with
  | [] => none
  | entry :: rest =>
      let classValue := unwrapValue (entry.getOr "class" (.obj []))
      if category.isNone || strToLower (pyStrOf classValue) == category.getD "" then
        let candidate := if entry.containsKey "value" then entry.getD "value" else entry
        match toOptionalFloat (unwrapValue candidate) with
        | some numeric => some numeric
        | none => selectTemperature rest category
      else selectTemperature rest category

/-- `{**properties, **current_conditions}`: later bindings win. -/
def mergeObj (a b : Json) : Json :=
  match a, b with
  | .obj fa, .obj fb => .obj (fa.filter (fun kv => !(Json.obj fb).containsKey kv.1) ++ fb)
  | .obj fa, _ => .obj fa
  | _, .obj fb => .obj fb
  | _, _ => .obj []

/-- `map_msc_geomet_observation`. -/
def map_msc_geomet_observation (isoParse : String → Except String Instant)
    (provider : String) (feature : Json) : Except String Observation :=
  let properties := feature.getOr "properties" (.obj [])
  let currentConditions := properties.getOr "currentConditions" (.obj [])
  let merged := mergeObj properties currentConditions
  let geometry := feature.getOr "geometry" (.obj [])
  let coords := (geometry.getOr "coordinates" (.arr [])).asArr
  if coords.length < 2 then
    .error "Missing coordinates for observation"
  else
    let observedRaw := firstPresentMsc merged ["observationTime", "time", "timestamp", "datetime"]
    if !observedRaw.isTruthy then
      .error "Missing observation time"
    else do
      let observed_at ← isoParse (pyStrOf observedRaw)
      let wind := pyOr (merged.getD "wind") (pyOr (merged.getD "winds") (.obj []))
      let la ← pyFloatE ((coords.get? 1).getD .null)
      let lo ← pyFloatE ((coords.get? 0).getD .null)
      pure
        { provider := provider
          station :=
            asOptString
              (pyOr (firstPresentMsc merged ["stationIdentifier", "station", "identifier"])
                (unwrapValue ((properties.getOr "name" (.obj [])).getD "en")))
          location := ⟨la, lo⟩
          observed_at := observed_at
          temperature_c := mscToOptionalFloat (firstPresentMsc merged ["airTemperature", "temperature"])
          dewpoint_c := mscToOptionalFloat (firstPresentMsc merged ["dewpointTemperature", "dewpoint"])
          wind_speed_kph := mscToOptionalFloat (firstPresentMsc wind ["speed"])
          wind_direction_deg := mscToOptionalInt (firstPresentMsc wind ["direction"])
          pressure_kpa := mscToOptionalFloat (firstPresentMsc merged ["seaLevelPressure", "pressure"])
          relative_humidity := mscToOptionalFloat (merged.getD "relativeHumidity")
          visibility_km := mscToOptionalFloat (merged.getD "visibility")
          condition :=
            extractCondition
              (pyOr (merged.getD "presentWeather")
                (pyOr (merged.getD "condition")
                  (match merged.getD "condition" with
                   | .obj fields => .obj fields
                   | _ => .null)))
          precipitation_last_hour_mm := mscToOptionalFloat (merged.getD "precipitationLastHour") }

/-- One enumerated period of the `map_msc_geomet_forecast` loop; `none`
models the `continue` on non-mapping periods. -/
def geoForecastPeriod (isoParse : String → Except String Instant) (provider : String)
    (la lo : ℚ) (issued : Instant) (forecastGroupTruthy : Bool) (ie : Nat × Json) :
    Except String (Option ForecastPeriod) :=
  match ie.2 with
  | .obj periodFields =>
      let period : Json := .obj periodFields
      let startRaw := firstPresentMsc period ["start", "startTime", "validTime", "periodStart"]
      let endRaw := pyOr (firstPresentMsc period ["end", "endTime", "validEndTime", "periodEnd"]) startRaw
      let startTimeE : Except String Instant :=
        if startRaw.isTruthy then isoParse (pyStrOf startRaw)
        else if forecastGroupTruthy then .ok (issued + (ie.1 : ℚ) * 12 * 3600)
        else .error "Forecast period missing start time"
      do
        let start ← startTimeE
        let endT ←
          if endRaw.isTruthy then isoParse (pyStrOf endRaw)
          else if forecastGroupTruthy then pure (start + 12 * 3600)
          else .error "Forecast period missing end time"
        let windEntries : List Json :=
          match period.getD "winds" with
          | .arr rawList => rawList.filter (fun e => match e with | .obj _ => true | _ => false)
          | .obj rawFields =>
              match (Json.obj rawFields).getD "wind" with
              | .arr nested => nested.filter (fun e => match e with | .obj _ => true | _ => false)
              | _ => []
          | _ => []
        let windEntry :=
          match windEntries with
          | w :: _ => w
          | [] => period.getOr "wind" (.obj [])
        let temperatureBlock := period.getOr "temperatures" (.obj [])
        let temps : List Json :=
          (match temperatureBlock with
           | .obj _ => (temperatureBlock.getOr "temperature" (.arr [])).asArr
           | _ => [])
        let precipitation := period.getOr "precipitation" (.obj [])
        let precipitationAmounts := (precipitation.getOr "precipAmounts" (.arr [])).asArr
        let popValue := period.getOr "pop" (.obj [])
        pure (some
          { provider := provider
            location := ⟨la, lo⟩
            issued_at := issued
            start_time := start
            end_time := endT
            temperature_c :=
              orElseOpt (selectTemperature temps none)
                (mscToOptionalFloat (period.getD "temperature"))
            temperature_high_c :=
              orOptQ (selectTemperature temps (some "high"))
                (mscToOptionalFloat (period.getD "temperatureHigh"))
            temperature_low_c :=
              orOptQ (selectTemperature temps (some "low"))
                (mscToOptionalFloat (period.getD "temperatureLow"))
            precipitation_probability :=
              orElseOpt
                (match popValue with
                 | .obj _ => mscToOptionalFloat (firstPresentMsc popValue ["value"])
                 | _ => mscToOptionalFloat popValue)
                (mscToOptionalFloat (firstPresentMsc period ["probabilityOfPrecipitation", "pop"]))
            precipitation_mm :=
              orElseOpt (mscToOptionalFloat ((precipitationAmounts.head?).getD .null))
                (mscToOptionalFloat (firstPresentMsc period ["totalPrecipitation", "precipitationAmount"]))
            summary :=
              extractCondition
                (pyOr (period.getD "summary")
                  (pyOr (period.getD "textSummary") (period.getD "cloudPrecip")))
            wind_speed_kph :=
              orElseOpt (mscToOptionalFloat (firstPresentMsc windEntry ["speed"]))
                (mscToOptionalFloat (period.getD "windSpeed"))
            wind_direction_deg :=
              orElseOpt (mscToOptionalInt (firstPresentMsc windEntry ["direction"]))
                (mscToOptionalInt (period.getD "windDirection")) })
  | _ => pure none

/-- `map_msc_geomet_forecast`. -/
def map_msc_geomet_forecast (isoParse : String → Except String Instant)
    (provider : String) (feature : Json) : Except String (List ForecastPeriod) :=
  let properties := feature.getOr "properties" (.obj [])
  let geometry := feature.getOr "geometry" (.obj [])
  let coords := (geometry.getOr "coordinates" (.arr [])).asArr
  if coords.length < 2 then
    .error "Missing coordinates for forecast"
  else
    let forecastGroup := properties.getOr "forecastGroup" (.obj [])
    let issuedRaw :=
      firstPresentMsc (if forecastGroup.isTruthy then forecastGroup else properties)
        ["forecastIssueTime", "issueTime", "issuedAt", "timestamp"]
    if !issuedRaw.isTruthy then
      .error "Missing forecast issue time"
    else do
      let issued ← isoParse (pyStrOf issuedRaw)
      let periods :=
        (pyOr (forecastGroup.getD "periods")
          (pyOr (forecastGroup.getD "forecasts")
            (pyOr (properties.getD "periods") (.arr [])))).asArr
      let la ← pyFloatE ((coords.get? 1).getD .null)
      let lo ← pyFloatE ((coords.get? 0).getD .null)
      let results ← mapME
        (geoForecastPeriod isoParse provider la lo issued forecastGroup.isTruthy) (periods.enum)
      pure (results.filterMap id)

/-! ## AccuWeather mappers (`wxbench/domain/mappers/accuweather.py`).
The file's local `_fahrenheit_to_celsius`, `_mph_to_kph` and
`_inches_to_mm` are byte-identical to the ambient_weather helpers embedded
above and are reused; `datetime.fromisoformat` (wrapped by the local
`_parse_iso8601`, which swallows failures) becomes the `isoParseOpt`
argument. -/

/-- `_miles_to_km`. -/
def miles_to_km : Option ℚ → Option ℚ
  | none => none
  | some v => some (v * 1.60934)

/-- `_pressure_to_kpa`. -/
def pressure_to_kpa (value : Option ℚ) (unit : Option String) : Option ℚ :=
  match value with
  | none => none
  | some v =>
      match unit with
      | none => some v
      | some u =>
          let ul := strToLower u
          if ul = "kpa" then some v
          else if ul = "mb" ∨ ul = "hpa" then some (v / 10)
          else if ul = "inhg" then some (v * 3.38639)
          else some v

/-- `_extract_metric_block`. -/
def extractMetricBlock (block : Json) : Option ℚ × Option String :=
  match block with
  | .obj _ =>
      let value := toOptionalFloat (block.getD "Value")
      let unit := block.getD "Unit"
      (value, if unit.isTruthy then some (pyStrOf unit) else none)
  | _ => (none, none)

/-- `_temperature_from_block`. -/
def temperatureFromBlock (block : Json) : Option ℚ :=
  let vu := extractMetricBlock block
  match vu.2 with
  | some u => if strStartsWith (strToLower u) "f" then f_to_c vu.1 else vu.1
  | none => vu.1

/-- `_speed_from_block`. -/
def speedFromBlock (block : Json) : Option ℚ :=
  let vu := extractMetricBlock block
  match vu.2 with
  | some u => if strToLower u = "mi/h" ∨ strToLower u = "mph" then mph_to_kph vu.1 else vu.1
  | none => vu.1

/-- `_distance_from_block`. -/
def distanceFromBlock (block : Json) : Option ℚ :=
  let vu := extractMetricBlock block
  match vu.2 with
  | some u =>
      if strToLower u = "mi" then miles_to_km vu.1
      else if strToLower u = "m" then
        match vu.1 with
        | some v => some (v / 1000)
        | none => none
      else if strToLower u = "ft" ∨ strToLower u = "feet" then
        match vu.1 with
        | some v => some (v * 0.0003048)
        | none => none
      else vu.1
  | none => vu.1

/-- `_precip_from_block`. -/
def precipFromBlock (block : Json) : Option ℚ :=
  let vu := extractMetricBlock block
  match vu.2 with
  | some u => if strToLower u = "in" then inches_to_mm vu.1 else vu.1
  | none => vu.1

/-- `_parse_epoch_seconds`. -/
def parseEpochSeconds (value : Json) : Option Instant :=
  (toOptionalInt value).map (fun epoch => ((epoch : ℚ)))

/-- `_parse_iso8601` (accuweather version: `None` on failure). -/
def accuParseIso (isoParseOpt : String → Option Instant) (value : Json) : Option Instant :=
  match value with
  | .null => none
  | v => isoParseOpt (pyStrOf v)

/-- `_first_text`. -/
def firstText : List Json → Option String
  | [] => none
  | v :: rest =>
      match v with
      | .null => firstText rest
      | _ =>
          let text := pyStrOf v
          if trimChars text.toList ≠ [] then some text else firstText rest

/-- `_interval_summary`. -/
def intervalSummary (interval fallback : Json) : Option String :=
  firstText
    [interval.getD "ShortPhrase", interval.getD "BriefPhrase", interval.getD "LongPhrase",
     interval.getD "MinuteText", interval.getD "MinutesText", interval.getD "WidgetPhrase",
     fallback.getD "ShortPhrase", fallback.getD "BriefPhrase", fallback.getD "LongPhrase",
     fallback.getD "MinuteText", fallback.getD "MinutesText", fallback.getD "Phrase"]

/-- `_interval_bounds`. -/
def intervalBounds (interval : Json) (issuedAt : Instant) :
    Except String (Instant × Instant) :=
  match toOptionalInt (interval.getD "StartMinute") with
  | none => .error "Missing interval start minute"
  | some startMinute =>
      let endMinute := toOptionalInt (interval.getD "EndMinute")
      let countMinute := toOptionalInt (interval.getD "CountMinute")
      let start := issuedAt + (startMinute : ℚ) * 60
      let fromEnd : Instant :=
        match endMinute with
        | some e => issuedAt + ((e : ℚ) + 1) * 60
        | none => start + 60
      let endT :=
        match countMinute with
        | some c => if c > 0 then start + (c : ℚ) * 60 else fromEnd
        | none => fromEnd
      .ok (start, endT)

/-- `Minimum`/`Maximum` side of `_average_from_range`. -/
def rangeSideVal (v : Json) : Option ℚ :=
  match v with
  | .obj _ => toOptionalFloat (if v.containsKey "Value" then v.getD "Value" else v)
  | other => toOptionalFloat other

/-- `_average_from_range`. -/
def averageFromRange (block : Json) : Option ℚ :=
  match block with
  | .obj _ =>
      match block.getD "Average" with
      | .obj avgFields =>
          toOptionalFloat
            (if (Json.obj avgFields).containsKey "Value" then (Json.obj avgFields).getD "Value"
             else .obj avgFields)
      | .null =>
          let minVal := rangeSideVal (block.getD "Minimum")
          let maxVal := rangeSideVal (block.getD "Maximum")
          match minVal, maxVal with
          | some a, some b => some ((a + b) / 2)
          | some a, none => some a
          | none, other => other
      | other => toOptionalFloat other
  | _ => none

/-- `_average_temperature_from_range`. -/
def averageTemperatureFromRange (block : Json) : Option ℚ :=
  match block with
  | .obj _ =>
      match block.getD "Average" with
      | .obj avgFields => temperatureFromBlock (.obj avgFields)
      | _ =>
          let minVal :=
            match block.getD "Minimum" with
            | .obj mf => temperatureFromBlock (.obj mf)
            | _ => none
          let maxVal :=
            match block.getD "Maximum" with
            | .obj mf => temperatureFromBlock (.obj mf)
            | _ => none
          match minVal, maxVal with
          | some a, some b => some ((a + b) / 2)
          | some a, none => some a
          | none, other => other
  | _ => none

/-- `map_accuweather_minute_forecast` (caller-supplied coordinates). -/
def map_accuweather_minute_forecast (latitude longitude : Option ℚ) (issuedAt : Instant)
    (provider : String) (payload : Json) : Except String (List ForecastPeriod) :=
  match latitude, longitude with
  | some la, some lo =>
      match (payload.getOr "Summaries" (.arr [])).asArr with
      | [] => .error "Missing minute summaries"
      | first :: rest =>
          let summary := payload.getOr "Summary" (.obj [])
          mapME (fun interval => do
            let bounds ← intervalBounds interval issuedAt
            pure
              { provider := provider
                location := ⟨la, lo⟩
                issued_at := issuedAt
                start_time := bounds.1
                end_time := bounds.2
                summary := intervalSummary interval summary
                precipitation_probability := none
                precipitation_mm := none
                temperature_c := none
                temperature_high_c := none
                temperature_low_c := none
                wind_speed_kph := none
                wind_direction_deg := none }) (first :: rest)
  | _, _ => .error "Missing coordinates for forecast"

/-- `AccuweatherLocation`. -/
structure AccuweatherLocation where
  key : String
  location : Location
  name : Option String
  deriving DecidableEq

/-- `map_accuweather_location`. -/
def map_accuweather_location (payload : Json) : Except String AccuweatherLocation :=
  let key := payload.getD "Key"
  let geo := payload.getOr "GeoPosition" (.obj [])
  match toOptionalFloat (geo.getD "Latitude"), toOptionalFloat (geo.getD "Longitude") with
  | some la, some lo =>
      if !key.isTruthy then .error "Missing location key or coordinates"
      else
        .ok
          { key := pyStrOf key
            location := ⟨la, lo⟩
            name := firstText [payload.getD "LocalizedName", payload.getD "EnglishName"] }
  | _, _ => .error "Missing location key or coordinates"

/-- `(x.get(k) or {}).get("Metric") or x.get(k) or {}`. -/
def metricOr (x : Json) (key : String) : Json :=
  pyOr ((x.getOr key (.obj [])).getD "Metric") (pyOr (x.getD key) (.obj []))

/-- `map_accuweather_observation` (payload is the current-conditions
array; coordinates are caller-supplied). -/
def map_accuweather_observation (isoParseOpt : String → Option Instant)
    (latitude longitude : Option ℚ) (provider : String) (payload : List Json) :
    Except String Observation :=
  match latitude, longitude with
  | some la, some lo =>
      match payload with
      | [] => .error "Missing current conditions payload"
      | current :: _ =>
          match orElseOpt (parseEpochSeconds (current.getD "EpochTime"))
              (accuParseIso isoParseOpt (current.getD "LocalObservationDateTime")) with
          | none => .error "Missing observation time"
          | some observed_at =>
              let temperatureBlock := metricOr current "Temperature"
              let dewpointBlock := metricOr current "DewPoint"
              let pressureBlock := metricOr current "Pressure"
              let visibilityBlock := metricOr current "Visibility"
              let ceilingBlock := metricOr current "Ceiling"
              let wind := current.getOr "Wind" (.obj [])
              let windSpeedBlock := metricOr wind "Speed"
              let windDirection := (wind.getOr "Direction" (.obj [])).getD "Degrees"
              let gust := current.getOr "WindGust" (.obj [])
              let gustSpeedBlock := metricOr gust "Speed"
              let uvIndex := toOptionalFloat (pyOr (current.getD "UVIndexFloat") (current.getD "UVIndex"))
              let realFeelBlock := metricOr current "RealFeelTemperature"
              let realFeelShadeBlock := metricOr current "RealFeelTemperatureShade"
              let apparentBlock := metricOr current "ApparentTemperature"
              let windChillBlock := metricOr current "WindChillTemperature"
              let wetBulbBlock := metricOr current "WetBulbTemperature"
              let wetBulbGlobeBlock := metricOr current "WetBulbGlobeTemperature"
              let departureBlock := metricOr current "Past24HourTemperatureDeparture"
              let precipitationSummary :=
                (current.getOr "PrecipitationSummary" (.obj [])).getOr "Precipitation" (.obj [])
              let precipitationBlock := pyOr (precipitationSummary.getD "Metric") precipitationSummary
              let precipitationOneHour := metricOr current "Precip1hr"
              let pressureTendency := current.getOr "PressureTendency" (.obj [])
              .ok
                { provider := provider
                  station := firstText [current.getD "StationName", current.getD "WeatherText"]
                  location := ⟨la, lo⟩
                  observed_at := observed_at
                  temperature_c := temperatureFromBlock temperatureBlock
                  temperature_apparent_c := temperatureFromBlock realFeelBlock
                  temperature_apparent_shade_c := temperatureFromBlock realFeelShadeBlock
                  temperature_apparent_alt_c := temperatureFromBlock apparentBlock
                  temperature_wind_chill_c := temperatureFromBlock windChillBlock
                  temperature_wet_bulb_c := temperatureFromBlock wetBulbBlock
                  temperature_wet_bulb_globe_c := temperatureFromBlock wetBulbGlobeBlock
                  temperature_departure_24h_c := temperatureFromBlock departureBlock
                  dewpoint_c := temperatureFromBlock dewpointBlock
                  wind_speed_kph := speedFromBlock windSpeedBlock
                  wind_direction_deg := toOptionalInt windDirection
                  wind_gust_kph := speedFromBlock gustSpeedBlock
                  pressure_kpa :=
                    pressure_to_kpa (extractMetricBlock pressureBlock).1 (extractMetricBlock pressureBlock).2
                  pressure_sea_level_kpa :=
                    pressure_to_kpa (extractMetricBlock pressureBlock).1 (extractMetricBlock pressureBlock).2
                  relative_humidity := toOptionalFloat (current.getD "RelativeHumidity")
                  relative_humidity_in := toOptionalFloat (current.getD "IndoorRelativeHumidity")
                  visibility_km := distanceFromBlock visibilityBlock
                  cloud_ceiling_km := distanceFromBlock ceilingBlock
                  cloud_cover_pct := toOptionalFloat (current.getD "CloudCover")
                  condition := firstText [current.getD "WeatherText"]
                  condition_code := toOptionalInt (current.getD "WeatherIcon")
                  precipitation_last_hour_mm :=
                    orOptQ (precipFromBlock precipitationOneHour) (precipFromBlock precipitationBlock)
                  uv_index := uvIndex
                  precipitation_type := firstText [current.getD "PrecipitationType"]
                  pressure_tendency :=
                    firstText [pressureTendency.getD "LocalizedText", pressureTendency.getD "Code"] }
  | _, _ => .error "Missing coordinates for observation"

/-- One entry of the `map_accuweather_hourly_forecast` loop. -/
def accuHourlyEntry (isoParseOpt : String → Option Instant) (provider : String)
    (la lo : ℚ) (issued : Instant) (entry : Json) : Except String ForecastPeriod :=
  match orElseOpt (parseEpochSeconds (entry.getD "EpochDateTime"))
      (accuParseIso isoParseOpt (entry.getD "DateTime")) with
  | none => .error "Missing forecast start time"
  | some start =>
      let tempBlock := metricOr entry "Temperature"
      let realFeelBlock := metricOr entry "RealFeelTemperature"
      let realFeelShadeBlock := metricOr entry "RealFeelTemperatureShade"
      let dewpointBlock := metricOr entry "DewPoint"
      let wetBulbBlock := metricOr entry "WetBulbTemperature"
      let wetBulbGlobeBlock := metricOr entry "WetBulbGlobeTemperature"
      let wind := entry.getOr "Wind" (.obj [])
      let windSpeedBlock := metricOr wind "Speed"
      let windDirection := (wind.getOr "Direction" (.obj [])).getD "Degrees"
      let gust := entry.getOr "WindGust" (.obj [])
      let gustSpeedBlock := metricOr gust "Speed"
      let uvIndex := toOptionalFloat (pyOr (entry.getD "UVIndexFloat") (entry.getD "UVIndex"))
      let rainBlock := metricOr entry "Rain"
      let snowBlock := metricOr entry "Snow"
      let iceBlock := metricOr entry "Ice"
      let totalLiquid := metricOr entry "TotalLiquid"
      let visibilityBlock := metricOr entry "Visibility"
      let ceilingBlock := metricOr entry "Ceiling"
      .ok
        { provider := provider
          location := ⟨la, lo⟩
          issued_at := issued
          start_time := start
          end_time := start + 3600
          temperature_c := temperatureFromBlock tempBlock
          temperature_apparent_c := temperatureFromBlock realFeelBlock
          temperature_apparent_shade_c := temperatureFromBlock realFeelShadeBlock
          temperature_wet_bulb_c := temperatureFromBlock wetBulbBlock
          temperature_wet_bulb_globe_c := temperatureFromBlock wetBulbGlobeBlock
          dewpoint_c := temperatureFromBlock dewpointBlock
          temperature_high_c := none
          temperature_low_c := none
          precipitation_probability := toOptionalFloat (entry.getD "PrecipitationProbability")
          precipitation_probability_thunderstorm :=
            toOptionalFloat (entry.getD "ThunderstormProbability")
          precipitation_probability_rain := toOptionalFloat (entry.getD "RainProbability")
          precipitation_probability_snow := toOptionalFloat (entry.getD "SnowProbability")
          precipitation_probability_ice := toOptionalFloat (entry.getD "IceProbability")
          precipitation_mm :=
            orOptQ (precipFromBlock totalLiquid)
              (orOptQ (precipFromBlock rainBlock) (precipFromBlock snowBlock))
          precipitation_amount_rain_mm := precipFromBlock rainBlock
          precipitation_amount_snow_mm := precipFromBlock snowBlock
          precipitation_amount_ice_mm := precipFromBlock iceBlock
          summary :=
            firstText [entry.getD "IconPhrase", entry.getD "ShortPhrase", entry.getD "LongPhrase"]
          condition_code := toOptionalInt (entry.getD "WeatherIcon")
          wind_speed_kph := speedFromBlock windSpeedBlock
          wind_direction_deg := toOptionalInt windDirection
          wind_gust_kph := speedFromBlock gustSpeedBlock
          uv_index := uvIndex
          relative_humidity := toOptionalFloat (entry.getD "RelativeHumidity")
          visibility_km := distanceFromBlock visibilityBlock
          cloud_ceiling_km := distanceFromBlock ceilingBlock }

/-- `map_accuweather_hourly_forecast`. -/
def map_accuweather_hourly_forecast (isoParseOpt : String → Option Instant)
    (latitude longitude : Option ℚ) (provider : String) (payload : List Json) :
    Except String (List ForecastPeriod) :=
  match latitude, longitude with
  | some la, some lo =>
      match payload with
      | [] => .error "Missing hourly forecast payload"
      | first :: rest =>
          match orElseOpt (parseEpochSeconds (first.getD "EpochDateTime"))
              (accuParseIso isoParseOpt (first.getD "DateTime")) with
          | none => .error "Missing forecast issue time"
          | some issued =>
              mapME (accuHourlyEntry isoParseOpt provider la lo issued) (first :: rest)
  | _, _ => .error "Missing coordinates for forecast"

/-- One entry of the `map_accuweather_daily_forecast` loop. -/
def accuDailyEntry (isoParseOpt : String → Option Instant) (provider : String)
    (la lo : ℚ) (issued : Instant) (entry : Json) : Except String ForecastPeriod :=
  match orElseOpt (parseEpochSeconds (entry.getD "EpochDate"))
      (accuParseIso isoParseOpt (entry.getD "Date")) with
  | none => .error "Missing forecast start time"
  | some start =>
      let temp := entry.getOr "Temperature" (.obj [])
      let tempMinBlock := metricOr temp "Minimum"
      let tempMaxBlock := metricOr temp "Maximum"
      let dayBlock := entry.getOr "Day" (.obj [])
      let realFeel := entry.getOr "RealFeelTemperature" (.obj [])
      let realFeelMinBlock := metricOr realFeel "Minimum"
      let realFeelMaxBlock := metricOr realFeel "Maximum"
      let realFeelShade := entry.getOr "RealFeelTemperatureShade" (.obj [])
      let wind := dayBlock.getOr "Wind" (.obj [])
      let windSpeedBlock := metricOr wind "Speed"
      let windDirection := (wind.getOr "Direction" (.obj [])).getD "Degrees"
      let gust := dayBlock.getOr "WindGust" (.obj [])
      let gustSpeedBlock := metricOr gust "Speed"
      let uvValue := pyOr (dayBlock.getD "UVIndex") (dayBlock.getD "UVIndexFloat")
      let uvIndex :=
        match uvValue with
        | .obj _ =>
            let uvMin := toOptionalFloat (uvValue.getD "Minimum")
            let uvMax := toOptionalFloat (uvValue.getD "Maximum")
            match uvMin, uvMax with
            | some a, some b => some ((a + b) / 2)
            | _, _ => orOptQ uvMax uvMin
        | _ => toOptionalFloat uvValue
      let rainBlock := metricOr dayBlock "Rain"
      let snowBlock := metricOr dayBlock "Snow"
      let iceBlock := metricOr dayBlock "Ice"
      let totalLiquid := metricOr dayBlock "TotalLiquid"
      let wetBulbBlock := dayBlock.getOr "WetBulbTemperature" (.obj [])
      let wetBulbGlobeBlock := dayBlock.getOr "WetBulbGlobeTemperature" (.obj [])
      let humidityBlock := dayBlock.getOr "RelativeHumidity" (.obj [])
      let evapotranspirationBlock := dayBlock.getOr "Evapotranspiration" (.obj [])
      let solarIrradianceBlock := dayBlock.getOr "SolarIrradiance" (.obj [])
      let tempMin := temperatureFromBlock tempMinBlock
      let tempMax := temperatureFromBlock tempMaxBlock
      let tempAvg :=
        match tempMin, tempMax with
        | some a, some b => some ((a + b) / 2)
        | _, _ => none
      let realFeelMin := temperatureFromBlock realFeelMinBlock
      let realFeelMax := temperatureFromBlock realFeelMaxBlock
      let tempApparent :=
        match realFeelMin, realFeelMax with
        | some a, some b => some ((a + b) / 2)
        | _, _ => none
      .ok
        { provider := provider
          location := ⟨la, lo⟩
          issued_at := issued
          start_time := start
          end_time := start + 86400
          temperature_c := tempAvg
          temperature_apparent_c := tempApparent
          temperature_apparent_shade_c := averageTemperatureFromRange realFeelShade
          temperature_high_c := tempMax
          temperature_low_c := tempMin
          precipitation_probability := toOptionalFloat (dayBlock.getD "PrecipitationProbability")
          precipitation_probability_thunderstorm :=
            toOptionalFloat (dayBlock.getD "ThunderstormProbability")
          precipitation_probability_rain := toOptionalFloat (dayBlock.getD "RainProbability")
          precipitation_probability_snow := toOptionalFloat (dayBlock.getD "SnowProbability")
          precipitation_probability_ice := toOptionalFloat (dayBlock.getD "IceProbability")
          precipitation_mm :=
            orOptQ (precipFromBlock totalLiquid)
              (orOptQ (precipFromBlock rainBlock) (precipFromBlock snowBlock))
          precipitation_amount_rain_mm := precipFromBlock rainBlock
          precipitation_amount_snow_mm := precipFromBlock snowBlock
          precipitation_amount_ice_mm := precipFromBlock iceBlock
          summary :=
            firstText
              [dayBlock.getD "IconPhrase", dayBlock.getD "ShortPhrase", dayBlock.getD "LongPhrase"]
          condition_code := toOptionalInt (dayBlock.getD "Icon")
          wind_speed_kph := speedFromBlock windSpeedBlock
          wind_direction_deg := toOptionalInt windDirection
          wind_gust_kph := speedFromBlock gustSpeedBlock
          uv_index := uvIndex
          relative_humidity := averageFromRange humidityBlock
          cloud_cover_pct := toOptionalFloat (dayBlock.getD "CloudCover")
          evapotranspiration_mm := precipFromBlock evapotranspirationBlock
          solar_irradiance_wm2 := (extractMetricBlock solarIrradianceBlock).1
          sun_hours := toOptionalFloat (entry.getD "HoursOfSun")
          temperature_wet_bulb_c := averageTemperatureFromRange wetBulbBlock
          temperature_wet_bulb_globe_c := averageTemperatureFromRange wetBulbGlobeBlock }

/-- `map_accuweather_daily_forecast`. -/
def map_accuweather_daily_forecast (isoParseOpt : String → Option Instant)
    (latitude longitude : Option ℚ) (provider : String) (payload : Json) :
    Except String (List ForecastPeriod) :=
  match latitude, longitude with
  | some la, some lo =>
      match (payload.getOr "DailyForecasts" (.arr [])).asArr with
      | [] => .error "Missing daily forecast payload"
      | first :: rest =>
          match orElseOpt (parseEpochSeconds (first.getD "EpochDate"))
              (accuParseIso isoParseOpt (first.getD "Date")) with
          | none => .error "Missing forecast issue time"
          | some issued =>
              mapME (accuDailyEntry isoParseOpt provider la lo issued) (first :: rest)
  | _, _ => .error "Missing coordinates for forecast"

/-! ## Helper lemmas -/

/-- Inversion for the observation registry loop. -/
theorem mem_explodeObservationAux {o : Observation} {runAt : Instant} {tz : Int}
    {sf : List (String × String)} {p : DataPoint} :
    ∀ {l : List MetricEntry}, p ∈ explodeObservationAux o runAt tz sf l →
      ∃ e ∈ l, ∃ v, o.getMetric e.field = some v ∧ p = mkObservationPoint o runAt tz sf e v := by
  intro l
  induction l with
  | nil => intro h; simp [explodeObservationAux] at h
  | cons e rest ih =>
      intro h
      cases hm : o.getMetric e.field with
      | none =>
          rw [explodeObservationAux, hm] at h
          obtain ⟨e1, he1, v, hv, hp⟩ := ih h
          exact ⟨e1, List.mem_cons_of_mem _ he1, v, hv, hp⟩
      | some v =>
          rw [explodeObservationAux, hm] at h
          rcases List.mem_cons.mp h with hp | hp
          · exact ⟨e, List.mem_cons_self _ _, v, hm, hp⟩
          · obtain ⟨e1, he1, v1, hv1, hp1⟩ := ih hp
            exact ⟨e1, List.mem_cons_of_mem _ he1, v1, hv1, hp1⟩

/-- Length of the observation loop output: one point per non-absent entry. -/
theorem explodeObservationAux_length (o : Observation) (runAt : Instant) (tz : Int)
    (sf : List (String × String)) :
    ∀ l : List MetricEntry, (explodeObservationAux o runAt tz sf l).length
      = (l.filter (fun e => (o.getMetric e.field).isSome)).length := by
  intro l
  induction l with
  | nil => rfl
  | cons e rest ih =>
      cases hm : o.getMetric e.field with
      | none => rw [explodeObservationAux, hm]; simp [List.filter, hm, ih]
      | some v => rw [explodeObservationAux, hm]; simp [List.filter, hm, ih]

/-- Emitted metric types of the observation loop, in registry order. -/
theorem explodeObservationAux_map_metric (o : Observation) (runAt : Instant) (tz : Int)
    (sf : List (String × String)) :
    ∀ l : List MetricEntry, (explodeObservationAux o runAt tz sf l).map DataPoint.metric_type
      = (l.filter (fun e => (o.getMetric e.field).isSome)).map MetricEntry.metric := by
  intro l
  induction l with
  | nil => rfl
  | cons e rest ih =>
      cases hm : o.getMetric e.field with
      | none => rw [explodeObservationAux, hm]; simp [List.filter, hm, ih]
      | some v =>
          rw [explodeObservationAux, hm]
          simp [List.filter, hm, ih, mkObservationPoint]

/-- Inversion for the forecast registry loop. -/
theorem mem_explodeForecastAux {f : ForecastPeriod} {runAt : Instant} {pk lu : String}
    {lo : Int} {lb : String} {ld : Int} {sf : List (String × String)} {qf : Option String}
    {p : DataPoint} :
    ∀ {l : List MetricEntry}, p ∈ explodeForecastAux f runAt pk lu lo lb ld sf qf l →
      ∃ e ∈ l, ∃ v, f.getMetric e.field = some v ∧
        p = mkForecastPoint f runAt pk lu lo lb ld sf qf e v := by
  intro l
  induction l with
  | nil => intro h; simp [explodeForecastAux] at h
  | cons e rest ih =>
      intro h
      cases hm : f.getMetric e.field with
      | none =>
          rw [explodeForecastAux, hm] at h
          obtain ⟨e1, he1, v, hv, hp⟩ := ih h
          exact ⟨e1, List.mem_cons_of_mem _ he1, v, hv, hp⟩
      | some v =>
          rw [explodeForecastAux, hm] at h
          rcases List.mem_cons.mp h with hp | hp
          · exact ⟨e, List.mem_cons_self _ _, v, hm, hp⟩
          · obtain ⟨e1, he1, v1, hv1, hp1⟩ := ih hp
            exact ⟨e1, List.mem_cons_of_mem _ he1, v1, hv1, hp1⟩

/-- Inversion for `mapME`: every output comes from an input. -/
theorem mapME_ok_mem {α β : Type} (g : α → Except String β) :
    ∀ (l : List α) (out : List β), mapME g l = .ok out → ∀ b ∈ out, ∃ a ∈ l, g a = .ok b := by
  intro l
  induction l with
  | nil =>
      intro out h b hb
      cases h
      simp at hb
  | cons a rest ih =>
      intro out h b hb
      rw [mapME] at h
      cases hga : g a with
      | error e => rw [hga] at h; simp [Bind.bind, Except.bind] at h
      | ok b0 =>
          rw [hga] at h
          cases hrest : mapME g rest with
          | error e => rw [hrest] at h; simp [Bind.bind, Except.bind] at h
          | ok bs =>
              rw [hrest] at h
              simp only [Bind.bind, Except.bind, pure, Except.pure, Except.ok.injEq] at h
              subst h
              rcases List.mem_cons.mp hb with rfl | hb1
              · exact ⟨a, List.mem_cons_self _ _, hga⟩
              · obtain ⟨a1, ha1, hg1⟩ := ih bs hrest b hb1
                exact ⟨a1, List.mem_cons_of_mem _ ha1, hg1⟩

/-- `mapME` on a cons: head and tail both succeed. -/
theorem mapME_ok_cons {α β : Type} (g : α → Except String β) (a : α) (rest : List α)
    (out : List β) (h : mapME g (a :: rest) = .ok out) :
    ∃ b0 bs, g a = .ok b0 ∧ mapME g rest = .ok bs ∧ out = b0 :: bs := by
  rw [mapME] at h
  cases hga : g a with
  | error e => rw [hga] at h; simp [Bind.bind, Except.bind] at h
  | ok b0 =>
      rw [hga] at h
      cases hrest : mapME g rest with
      | error e => rw [hrest] at h; simp [Bind.bind, Except.bind] at h
      | ok bs =>
          rw [hrest] at h
          simp only [Bind.bind, Except.bind, pure, Except.pure, Except.ok.injEq] at h
          subst h
          exact ⟨b0, bs, rfl, rfl, rfl⟩


/-- Python `a or b` keeps a truthy left operand. -/
theorem pyOr_truthy (a b : Json) (h : a.isTruthy = true) : pyOr a b = a := by
  unfold pyOr
  rw [h]
  rfl

/-- `_unwrap_value` leaves a plain string unchanged. -/
theorem unwrapValue_str (s : String) : unwrapValue (Json.str s) = Json.str s := by
  rw [unwrapValue]
  exact fun _ h => Json.noConfusion h

/-- `_first_present` (tomorrow_io) finds nothing when every listed key
converts to `None`. -/
theorem firstPresentTio_none (values : Json) (keys : List String)
    (h : ∀ k ∈ keys, toOptionalFloat (values.getD k) = none) :
    firstPresentTio values keys = none := by
  induction keys with
  | nil => rfl
  | cons k rest ih =>
      unfold firstPresentTio
      rw [h k (List.mem_cons_self _ _)]
      have ih2 := ih (fun x hx => h x (List.mem_cons_of_mem _ hx))
      split
      · exact ih2
      · exact ih2

/-- `_daily_value` is absent when both the suffixed and the base key
convert to `None`. -/
theorem dailyValueWith_none (values : Json) (base suffix : String)
    (h1 : toOptionalFloat (values.getD (base ++ suffix)) = none)
    (h2 : toOptionalFloat (values.getD base) = none) :
    dailyValueWith values base suffix = none := by
  unfold dailyValueWith
  split
  · exact h1
  · split
    · exact h2
    · rfl

/-- `_sum_intensities` is absent when every intensity key converts to
`None`. -/
theorem sumIntensities_none (values : Json)
    (h1 : toOptionalFloat (values.getD "rainIntensity") = none)
    (h2 : toOptionalFloat (values.getD "snowIntensity") = none)
    (h3 : toOptionalFloat (values.getD "sleetIntensity") = none)
    (h4 : toOptionalFloat (values.getD "freezingRainIntensity") = none) :
    sumIntensities values = none := by
  unfold sumIntensities
  simp only [List.foldl_cons, List.foldl_nil, h1, h2, h3, h4]
  rfl

/-- `_describe_weather_code` is absent on a non-convertible code. -/
theorem describeWeatherCode_none (code : Json) (h : toOptionalInt code = none) :
    describeWeatherCode code = none := by
  unfold describeWeatherCode
  rw [h]

/-- A mean reducer over an all-absent metric column is absent. -/
theorem meanOpt_absent (l : List ForecastPeriod) (f : ForecastPeriod → Option ℚ)
    (h : ∀ p ∈ l, f p = none) : meanOpt (l.filterMap f) = none := by
  simp only [List.filterMap_eq_nil_iff.mpr h]
  rfl

/-- A sum reducer over an all-absent metric column is absent. -/
theorem sumOpt_absent (l : List ForecastPeriod) (f : ForecastPeriod → Option ℚ)
    (h : ∀ p ∈ l, f p = none) : sumOpt (l.filterMap f) = none := by
  simp only [List.filterMap_eq_nil_iff.mpr h]
  rfl

/-- A max reducer over an all-absent metric column is absent. -/
theorem listMax_absent (l : List ForecastPeriod) (f : ForecastPeriod → Option ℚ)
    (h : ∀ p ∈ l, f p = none) : listMax (l.filterMap f) = none := by
  simp only [List.filterMap_eq_nil_iff.mpr h]
  rfl

/-- The first-non-absent reducer over an all-absent column is absent. -/
theorem headOpt_absent (l : List ForecastPeriod) (f : ForecastPeriod → Option Int)
    (h : ∀ p ∈ l, f p = none) : (l.filterMap f).head? = none := by
  simp only [List.filterMap_eq_nil_iff.mpr h]
  rfl

/-- The explicit-high/instantaneous-max fallback is absent when both
columns are all-absent. -/
theorem maxFallback_absent (l : List ForecastPeriod) (f g : ForecastPeriod → Option ℚ)
    (hf : ∀ p ∈ l, f p = none) (hg : ∀ p ∈ l, g p = none) :
    (match listMax (l.filterMap f) with
     | some v => some v
     | none => listMax (l.filterMap g)) = none := by
  simp only [List.filterMap_eq_nil_iff.mpr hf, List.filterMap_eq_nil_iff.mpr hg]
  rfl

/-- The explicit-low/instantaneous-min fallback is absent when both
columns are all-absent. -/
theorem minFallback_absent (l : List ForecastPeriod) (f g : ForecastPeriod → Option ℚ)
    (hf : ∀ p ∈ l, f p = none) (hg : ∀ p ∈ l, g p = none) :
    (match listMin (l.filterMap f) with
     | some v => some v
     | none => listMin (l.filterMap g)) = none := by
  simp only [List.filterMap_eq_nil_iff.mpr hf, List.filterMap_eq_nil_iff.mpr hg]
  rfl

/-! ## Claim C8 -/

/-- C8: every unit conversion helper maps an absent input to an absent
output without raising: `convert(absent) == absent` for °F→°C, mph→km/h,
inHg→kPa, in→mm, K→°C, m/s→km/h, hPa→kPa and m→km. -/
theorem C8_conversions_propagate_absent :
    f_to_c none = none ∧ mph_to_kph none = none ∧ inHg_to_kpa none = none ∧
    inches_to_mm none = none ∧ kelvin_to_celsius none = none ∧ ms_to_kph none = none ∧
    hpa_to_kpa none = none ∧ meters_to_km none = none :=
  ⟨rfl, rfl, rfl, rfl, rfl, rfl, rfl, rfl⟩

/-! ## Claim C1 -/

/-- C1: for an `Observation` with exactly k non-absent registry fields,
`observation_to_datapoints` emits exactly k points, all with
`product_kind = "observation"`, whose metric types follow registry order,
and every emitted point corresponds to a non-absent registry field. -/
theorem C1_explosion_completeness (o : Observation) (runAt : Instant) (tz : Int)
    (sf : List (String × String)) :
    (observation_to_datapoints o runAt tz sf).length
        = (OBSERVATION_METRICS.filter (fun e => (o.getMetric e.field).isSome)).length
    ∧ (∀ p ∈ observation_to_datapoints o runAt tz sf, p.product_kind = "observation")
    ∧ (observation_to_datapoints o runAt tz sf).map DataPoint.metric_type
        = (OBSERVATION_METRICS.filter (fun e => (o.getMetric e.field).isSome)).map MetricEntry.metric
    ∧ ∀ p ∈ observation_to_datapoints o runAt tz sf,
        ∃ e ∈ OBSERVATION_METRICS, (o.getMetric e.field).isSome ∧ p.metric_type = e.metric := by
  refine ⟨explodeObservationAux_length o runAt tz sf _, ?_, explodeObservationAux_map_metric o runAt tz sf _, ?_⟩
  · intro p hp
    obtain ⟨e, _, v, _, hp⟩ := mem_explodeObservationAux hp
    rw [hp]
    rfl
  · intro p hp
    obtain ⟨e, he, v, hv, hp⟩ := mem_explodeObservationAux hp
    exact ⟨e, he, by rw [hv]; rfl, by rw [hp]; rfl⟩

/-- Concrete observation used to instantiate C1. -/
def obsC1 : Observation :=
  { provider := "demo"
    station := some "station-a"
    location := ⟨10, 20⟩
    observed_at := 1704110400
    temperature_c := some (43 / 2)
    relative_humidity := some 55
    condition := some "Clear" }

/-- The first data point C1's witness expects. -/
def ptC1 : DataPoint :=
  mkObservationPoint obsC1 1704112200 0 []
    ⟨"temperature_c", "temperature_air", some "C", false⟩ (.num (43 / 2))

/-- Witness for C1 at a three-field observation. -/
theorem C1_explosion_completeness_witness :
    (observation_to_datapoints obsC1 1704112200 0 []).length
        = (OBSERVATION_METRICS.filter (fun e => (obsC1.getMetric e.field).isSome)).length
    ∧ (observation_to_datapoints obsC1 1704112200 0 []).length = 3
    ∧ ((observation_to_datapoints obsC1 1704112200 0 []).map DataPoint.metric_type
        = ["temperature_air", "humidity", "condition"])
    ∧ ptC1.product_kind = "observation" := by
  have h := C1_explosion_completeness obsC1 1704112200 0 []
  refine ⟨h.1, ?_, ?_, h.2.1 ptC1 (by decide)⟩
  · rw [h.1]; decide
  · rw [h.2.2.1]; decide

/-! ## Claim C2 -/

/-- Floor of an integer over 3600 in `ℚ` is integer division. -/
theorem floor_intCast_div_3600 (n : Int) : ⌊(n : ℚ) / 3600⌋ = n / 3600 := by
  have h := Rat.floor_intCast_div_natCast n 3600
  norm_num at h
  exact h

/-- Modelled from the spec's words for comparison: truncate both instants
to the top of the hour (`t - t % 3600` on whole seconds), take the
difference, and floor-divide the total seconds by 3600 (`/` on `ℤ` floors
toward negative infinity for this positive divisor). -/
def hourlyLeadOffsetSpecInt (runAt startTime : Int) : Int :=
  ((startTime - startTime % 3600) - (runAt - runAt % 3600)) / 3600

/-- C2: the hourly lead offset stored on every hourly data point equals the
spec's truncate-then-floor-divide formula (flooring toward negative
infinity), and `run_at = 2024-01-01T12:05:00Z` with
`start_time = 2024-01-01T12:00:00Z` yields offset 0 and label `"+0h"`. -/
theorem C2_hourly_lead_offset :
    (∀ runAt startTime : Int,
        hourlyLeadOffset (runAt : ℚ) (startTime : ℚ) = hourlyLeadOffsetSpecInt runAt startTime)
    ∧ (∀ (f : ForecastPeriod) (runAt : Instant) (tz : Int) (sf : List (String × String))
        (qf : Option String) (out : List DataPoint),
        forecast_to_datapoints f runAt tz PRODUCT_FORECAST_HOURLY sf qf = .ok out →
        ∀ p ∈ out, p.lead_offset = some (hourlyLeadOffset runAt f.start_time)
          ∧ p.lead_label = some (leadLabel (hourlyLeadOffset runAt f.start_time) "hour"))
    ∧ hourlyLeadOffset 1704110700 1704110400 = 0
    ∧ leadLabel (hourlyLeadOffset 1704110700 1704110400) "hour" = "+0h" := by
  refine ⟨?_, ?_, by decide, by decide⟩
  · intro r s
    unfold hourlyLeadOffset truncHour hourlyLeadOffsetSpecInt
    rw [floor_intCast_div_3600 s, floor_intCast_div_3600 r]
    have hcast : (3600 : ℚ) * ((s / 3600 : Int) : ℚ) - 3600 * ((r / 3600 : Int) : ℚ)
        = (((3600 * (s / 3600) - 3600 * (r / 3600)) : Int) : ℚ) := by
      push_cast
      ring
    rw [hcast, floor_intCast_div_3600]
    omega
  · intro f runAt tz sf qf out h p hp
    simp only [forecast_to_datapoints] at h
    rw [if_neg (by decide :
      ¬(PRODUCT_FORECAST_HOURLY ≠ PRODUCT_FORECAST_HOURLY
        ∧ PRODUCT_FORECAST_HOURLY ≠ PRODUCT_FORECAST_DAILY))] at h
    injection h with h
    subst h
    obtain ⟨e, he, v, hv, hp⟩ := mem_explodeForecastAux hp
    rw [hp]
    exact ⟨rfl, rfl⟩

/-- Concrete hourly period for C2: start at the top of the hour the run
falls in. -/
def fpC2 : ForecastPeriod :=
  { provider := "demo"
    location := ⟨10, 20⟩
    issued_at := 1704110700
    start_time := 1704110400
    end_time := 1704114000
    temperature_c := some 5 }

/-- The single data point C2's witness expects. -/
def ptC2 : DataPoint :=
  mkForecastPoint fpC2 1704110700 PRODUCT_FORECAST_HOURLY "hour" 0 "+0h" 19723 [] none
    ⟨"temperature_c", "temperature_air", some "C", false⟩ (.num 5)

/-- Witness for C2 at the spec's jittered-run example. -/
theorem C2_hourly_lead_offset_witness :
    forecast_to_datapoints fpC2 1704110700 0 PRODUCT_FORECAST_HOURLY [] none = .ok [ptC2]
    ∧ ptC2.lead_offset = some 0 ∧ ptC2.lead_label = some "+0h" := by
  have hok : forecast_to_datapoints fpC2 1704110700 0 PRODUCT_FORECAST_HOURLY [] none
      = .ok [ptC2] := by decide
  have h := C2_hourly_lead_offset.2.1 fpC2 1704110700 0 [] none [ptC2] hok ptC2 (by decide)
  refine ⟨hok, ?_, ?_⟩
  · rw [h.1]; decide
  · rw [h.2]; decide

/-! ## Claim C3 -/

/-- Concrete observation for C3: one non-absent field, observed midday. -/
def obsC3 : Observation :=
  { provider := "demo"
    station := none
    location := ⟨0, 0⟩
    observed_at := 1704110400
    temperature_c := some 1 }

/-- C3 counterexample: the claim says `local_day` is absent for every
non-daily data point, but an observation data point carries a populated
`local_day`. -/
theorem C3_counterexample :
    ¬ (∀ p ∈ observation_to_datapoints obsC3 0 0 [],
        p.product_kind ≠ PRODUCT_FORECAST_DAILY → p.local_day = none) := by
  decide

/-- C3 (amended): `local_day` is absent exactly for hourly forecast data
points; daily forecast points carry the local calendar day of
`start_time`, and observation points carry the local calendar day of
`observed_at`. -/
theorem C3_local_day_amended :
    (∀ (o : Observation) (runAt : Instant) (tz : Int) (sf : List (String × String)),
        ∀ p ∈ observation_to_datapoints o runAt tz sf,
          p.local_day = some (localDay tz o.observed_at))
    ∧ (∀ (f : ForecastPeriod) (runAt : Instant) (tz : Int) (sf : List (String × String))
        (qf : Option String) (out : List DataPoint),
        forecast_to_datapoints f runAt tz PRODUCT_FORECAST_HOURLY sf qf = .ok out →
        ∀ p ∈ out, p.local_day = none)
    ∧ (∀ (f : ForecastPeriod) (runAt : Instant) (tz : Int) (sf : List (String × String))
        (qf : Option String) (out : List DataPoint),
        forecast_to_datapoints f runAt tz PRODUCT_FORECAST_DAILY sf qf = .ok out →
        ∀ p ∈ out, p.local_day = some (localDay tz f.start_time)) := by
  refine ⟨?_, ?_, ?_⟩
  · intro o runAt tz sf p hp
    obtain ⟨e, he, v, hv, hp⟩ := mem_explodeObservationAux hp
    rw [hp]
    rfl
  · intro f runAt tz sf qf out h p hp
    simp only [forecast_to_datapoints] at h
    rw [if_neg (by decide :
      ¬(PRODUCT_FORECAST_HOURLY ≠ PRODUCT_FORECAST_HOURLY
        ∧ PRODUCT_FORECAST_HOURLY ≠ PRODUCT_FORECAST_DAILY))] at h
    injection h with h
    subst h
    obtain ⟨e, he, v, hv, hp⟩ := mem_explodeForecastAux hp
    rw [hp]
    rfl
  · intro f runAt tz sf qf out h p hp
    simp only [forecast_to_datapoints] at h
    rw [if_neg (by decide :
      ¬(PRODUCT_FORECAST_DAILY ≠ PRODUCT_FORECAST_HOURLY
        ∧ PRODUCT_FORECAST_DAILY ≠ PRODUCT_FORECAST_DAILY))] at h
    injection h with h
    subst h
    obtain ⟨e, he, v, hv, hp⟩ := mem_explodeForecastAux hp
    rw [hp]
    rfl

/-- The single data point C3's witness expects. -/
def ptC3 : DataPoint :=
  mkObservationPoint obsC3 0 0 [] ⟨"temperature_c", "temperature_air", some "C", false⟩ (.num 1)

/-- Witness for C3 (amended) at a concrete observation. -/
theorem C3_local_day_amended_witness :
    observation_to_datapoints obsC3 0 0 [] = [ptC3] ∧ ptC3.local_day = some 19723 := by
  refine ⟨by decide, ?_⟩
  have h := C3_local_day_amended.1 obsC3 0 0 [] ptC3 (by decide)
  rw [h]
  decide

/-! ## Claim C5 -/

theorem insertSortedDedup_self (d : Int) : insertSortedDedup d [d] = [d] := by
  simp [insertSortedDedup]

/-- Folding equal keys over `[d]` leaves `[d]`. -/
theorem foldl_insertSortedDedup_const (d : Int) :
    ∀ l : List Int, (∀ x ∈ l, x = d) →
      List.foldl (fun acc x => insertSortedDedup x acc) [d] l = [d] := by
  intro l
  induction l with
  | nil => intro _; rfl
  | cons x rest ih =>
      intro h
      have hx : x = d := h x (List.mem_cons_self _ _)
      subst hx
      rw [List.foldl_cons, insertSortedDedup_self]
      exact ih (fun y hy => h y (List.mem_cons_of_mem _ hy))

/-- A nonempty list of equal day keys sorts and dedups to a singleton. -/
theorem sortedDayKeys_const (d : Int) (x : Int) (rest : List Int)
    (h : ∀ y ∈ x :: rest, y = d) : sortedDayKeys (x :: rest) = [d] := by
  have hx : x = d := h x (List.mem_cons_self _ _)
  subst hx
  unfold sortedDayKeys
  rw [List.foldl_cons]
  exact foldl_insertSortedDedup_const x rest (fun y hy => h y (List.mem_cons_of_mem _ hy))

/-- C5: a nonempty group of periods sharing one local day aggregates to a
single daily period, and every metric is reduced only over its non-absent
values — mean for instantaneous temperature readings, humidity, pressures,
visibility, cloud metrics, rates and solar irradiance; sum for
precipitation amounts, evapotranspiration and sun hours; max for
probabilities, winds, UV and snow depth; the first non-absent value for
wind direction; the explicit-high max falling back to the max of
instantaneous temperatures (min symmetrically for lows) — and a metric
absent in every period of the group stays absent in the aggregate, never
zero. -/
theorem C5_daily_reducers (tz : Int) (e0 : ForecastPeriod) (rest : List ForecastPeriod)
    (hday : ∀ p ∈ e0 :: rest, localDay tz p.start_time = localDay tz e0.start_time) :
    ∃ q, aggregate_daily_from_periods tz (e0 :: rest) = [q]
      ∧ q.temperature_c = meanOpt ((e0 :: rest).filterMap (·.temperature_c))
      ∧ ((∀ p ∈ e0 :: rest, p.temperature_c = none) → q.temperature_c = none)
      ∧ q.temperature_apparent_c = meanOpt ((e0 :: rest).filterMap (·.temperature_apparent_c))
      ∧ ((∀ p ∈ e0 :: rest, p.temperature_apparent_c = none) → q.temperature_apparent_c = none)
      ∧ q.temperature_apparent_shade_c = meanOpt ((e0 :: rest).filterMap (·.temperature_apparent_shade_c))
      ∧ ((∀ p ∈ e0 :: rest, p.temperature_apparent_shade_c = none) → q.temperature_apparent_shade_c = none)
      ∧ q.temperature_apparent_alt_c = meanOpt ((e0 :: rest).filterMap (·.temperature_apparent_alt_c))
      ∧ ((∀ p ∈ e0 :: rest, p.temperature_apparent_alt_c = none) → q.temperature_apparent_alt_c = none)
      ∧ q.temperature_wind_chill_c = meanOpt ((e0 :: rest).filterMap (·.temperature_wind_chill_c))
      ∧ ((∀ p ∈ e0 :: rest, p.temperature_wind_chill_c = none) → q.temperature_wind_chill_c = none)
      ∧ q.temperature_wet_bulb_c = meanOpt ((e0 :: rest).filterMap (·.temperature_wet_bulb_c))
      ∧ ((∀ p ∈ e0 :: rest, p.temperature_wet_bulb_c = none) → q.temperature_wet_bulb_c = none)
      ∧ q.temperature_wet_bulb_globe_c = meanOpt ((e0 :: rest).filterMap (·.temperature_wet_bulb_globe_c))
      ∧ ((∀ p ∈ e0 :: rest, p.temperature_wet_bulb_globe_c = none) → q.temperature_wet_bulb_globe_c = none)
      ∧ q.dewpoint_c = meanOpt ((e0 :: rest).filterMap (·.dewpoint_c))
      ∧ ((∀ p ∈ e0 :: rest, p.dewpoint_c = none) → q.dewpoint_c = none)
      ∧ q.temperature_high_c =
          (match listMax ((e0 :: rest).filterMap (·.temperature_high_c)) with
           | some v => some v
           | none => listMax ((e0 :: rest).filterMap (·.temperature_c)))
      ∧ ((∀ p ∈ e0 :: rest, p.temperature_high_c = none) →
          (∀ p ∈ e0 :: rest, p.temperature_c = none) → q.temperature_high_c = none)
      ∧ q.temperature_low_c =
          (match listMin ((e0 :: rest).filterMap (·.temperature_low_c)) with
           | some v => some v
           | none => listMin ((e0 :: rest).filterMap (·.temperature_c)))
      ∧ ((∀ p ∈ e0 :: rest, p.temperature_low_c = none) →
          (∀ p ∈ e0 :: rest, p.temperature_c = none) → q.temperature_low_c = none)
      ∧ q.precipitation_probability = listMax ((e0 :: rest).filterMap (·.precipitation_probability))
      ∧ ((∀ p ∈ e0 :: rest, p.precipitation_probability = none) → q.precipitation_probability = none)
      ∧ q.precipitation_probability_rain = listMax ((e0 :: rest).filterMap (·.precipitation_probability_rain))
      ∧ ((∀ p ∈ e0 :: rest, p.precipitation_probability_rain = none) → q.precipitation_probability_rain = none)
      ∧ q.precipitation_probability_snow = listMax ((e0 :: rest).filterMap (·.precipitation_probability_snow))
      ∧ ((∀ p ∈ e0 :: rest, p.precipitation_probability_snow = none) → q.precipitation_probability_snow = none)
      ∧ q.precipitation_probability_ice = listMax ((e0 :: rest).filterMap (·.precipitation_probability_ice))
      ∧ ((∀ p ∈ e0 :: rest, p.precipitation_probability_ice = none) → q.precipitation_probability_ice = none)
      ∧ q.precipitation_probability_thunderstorm = listMax ((e0 :: rest).filterMap (·.precipitation_probability_thunderstorm))
      ∧ ((∀ p ∈ e0 :: rest, p.precipitation_probability_thunderstorm = none) → q.precipitation_probability_thunderstorm = none)
      ∧ q.precipitation_mm = sumOpt ((e0 :: rest).filterMap (·.precipitation_mm))
      ∧ ((∀ p ∈ e0 :: rest, p.precipitation_mm = none) → q.precipitation_mm = none)
      ∧ q.precipitation_amount_rain_mm = sumOpt ((e0 :: rest).filterMap (·.precipitation_amount_rain_mm))
      ∧ ((∀ p ∈ e0 :: rest, p.precipitation_amount_rain_mm = none) → q.precipitation_amount_rain_mm = none)
      ∧ q.precipitation_amount_snow_mm = sumOpt ((e0 :: rest).filterMap (·.precipitation_amount_snow_mm))
      ∧ ((∀ p ∈ e0 :: rest, p.precipitation_amount_snow_mm = none) → q.precipitation_amount_snow_mm = none)
      ∧ q.precipitation_amount_sleet_mm = sumOpt ((e0 :: rest).filterMap (·.precipitation_amount_sleet_mm))
      ∧ ((∀ p ∈ e0 :: rest, p.precipitation_amount_sleet_mm = none) → q.precipitation_amount_sleet_mm = none)
      ∧ q.precipitation_amount_ice_mm = sumOpt ((e0 :: rest).filterMap (·.precipitation_amount_ice_mm))
      ∧ ((∀ p ∈ e0 :: rest, p.precipitation_amount_ice_mm = none) → q.precipitation_amount_ice_mm = none)
      ∧ q.precipitation_amount_snow_lwe_mm = sumOpt ((e0 :: rest).filterMap (·.precipitation_amount_snow_lwe_mm))
      ∧ ((∀ p ∈ e0 :: rest, p.precipitation_amount_snow_lwe_mm = none) → q.precipitation_amount_snow_lwe_mm = none)
      ∧ q.precipitation_amount_sleet_lwe_mm = sumOpt ((e0 :: rest).filterMap (·.precipitation_amount_sleet_lwe_mm))
      ∧ ((∀ p ∈ e0 :: rest, p.precipitation_amount_sleet_lwe_mm = none) → q.precipitation_amount_sleet_lwe_mm = none)
      ∧ q.precipitation_amount_ice_lwe_mm = sumOpt ((e0 :: rest).filterMap (·.precipitation_amount_ice_lwe_mm))
      ∧ ((∀ p ∈ e0 :: rest, p.precipitation_amount_ice_lwe_mm = none) → q.precipitation_amount_ice_lwe_mm = none)
      ∧ q.precipitation_rate_rain_mm_hr = meanOpt ((e0 :: rest).filterMap (·.precipitation_rate_rain_mm_hr))
      ∧ ((∀ p ∈ e0 :: rest, p.precipitation_rate_rain_mm_hr = none) → q.precipitation_rate_rain_mm_hr = none)
      ∧ q.precipitation_rate_snow_mm_hr = meanOpt ((e0 :: rest).filterMap (·.precipitation_rate_snow_mm_hr))
      ∧ ((∀ p ∈ e0 :: rest, p.precipitation_rate_snow_mm_hr = none) → q.precipitation_rate_snow_mm_hr = none)
      ∧ q.precipitation_rate_sleet_mm_hr = meanOpt ((e0 :: rest).filterMap (·.precipitation_rate_sleet_mm_hr))
      ∧ ((∀ p ∈ e0 :: rest, p.precipitation_rate_sleet_mm_hr = none) → q.precipitation_rate_sleet_mm_hr = none)
      ∧ q.precipitation_rate_freezing_rain_mm_hr = meanOpt ((e0 :: rest).filterMap (·.precipitation_rate_freezing_rain_mm_hr))
      ∧ ((∀ p ∈ e0 :: rest, p.precipitation_rate_freezing_rain_mm_hr = none) → q.precipitation_rate_freezing_rain_mm_hr = none)
      ∧ q.precipitation_rate_ice_mm_hr = meanOpt ((e0 :: rest).filterMap (·.precipitation_rate_ice_mm_hr))
      ∧ ((∀ p ∈ e0 :: rest, p.precipitation_rate_ice_mm_hr = none) → q.precipitation_rate_ice_mm_hr = none)
      ∧ q.summary = none
      ∧ q.wind_speed_kph = listMax ((e0 :: rest).filterMap (·.wind_speed_kph))
      ∧ ((∀ p ∈ e0 :: rest, p.wind_speed_kph = none) → q.wind_speed_kph = none)
      ∧ q.wind_gust_kph = listMax ((e0 :: rest).filterMap (·.wind_gust_kph))
      ∧ ((∀ p ∈ e0 :: rest, p.wind_gust_kph = none) → q.wind_gust_kph = none)
      ∧ q.wind_direction_deg = ((e0 :: rest).filterMap (·.wind_direction_deg)).head?
      ∧ ((∀ p ∈ e0 :: rest, p.wind_direction_deg = none) → q.wind_direction_deg = none)
      ∧ q.uv_index = listMax ((e0 :: rest).filterMap (·.uv_index))
      ∧ ((∀ p ∈ e0 :: rest, p.uv_index = none) → q.uv_index = none)
      ∧ q.uv_health_concern = listMax ((e0 :: rest).filterMap (·.uv_health_concern))
      ∧ ((∀ p ∈ e0 :: rest, p.uv_health_concern = none) → q.uv_health_concern = none)
      ∧ q.relative_humidity = meanOpt ((e0 :: rest).filterMap (·.relative_humidity))
      ∧ ((∀ p ∈ e0 :: rest, p.relative_humidity = none) → q.relative_humidity = none)
      ∧ q.visibility_km = meanOpt ((e0 :: rest).filterMap (·.visibility_km))
      ∧ ((∀ p ∈ e0 :: rest, p.visibility_km = none) → q.visibility_km = none)
      ∧ q.pressure_sea_level_kpa = meanOpt ((e0 :: rest).filterMap (·.pressure_sea_level_kpa))
      ∧ ((∀ p ∈ e0 :: rest, p.pressure_sea_level_kpa = none) → q.pressure_sea_level_kpa = none)
      ∧ q.pressure_surface_kpa = meanOpt ((e0 :: rest).filterMap (·.pressure_surface_kpa))
      ∧ ((∀ p ∈ e0 :: rest, p.pressure_surface_kpa = none) → q.pressure_surface_kpa = none)
      ∧ q.altimeter_kpa = meanOpt ((e0 :: rest).filterMap (·.altimeter_kpa))
      ∧ ((∀ p ∈ e0 :: rest, p.altimeter_kpa = none) → q.altimeter_kpa = none)
      ∧ q.cloud_cover_pct = meanOpt ((e0 :: rest).filterMap (·.cloud_cover_pct))
      ∧ ((∀ p ∈ e0 :: rest, p.cloud_cover_pct = none) → q.cloud_cover_pct = none)
      ∧ q.cloud_base_km = meanOpt ((e0 :: rest).filterMap (·.cloud_base_km))
      ∧ ((∀ p ∈ e0 :: rest, p.cloud_base_km = none) → q.cloud_base_km = none)
      ∧ q.cloud_ceiling_km = meanOpt ((e0 :: rest).filterMap (·.cloud_ceiling_km))
      ∧ ((∀ p ∈ e0 :: rest, p.cloud_ceiling_km = none) → q.cloud_ceiling_km = none)
      ∧ q.snow_depth_cm = listMax ((e0 :: rest).filterMap (·.snow_depth_cm))
      ∧ ((∀ p ∈ e0 :: rest, p.snow_depth_cm = none) → q.snow_depth_cm = none)
      ∧ q.evapotranspiration_mm = sumOpt ((e0 :: rest).filterMap (·.evapotranspiration_mm))
      ∧ ((∀ p ∈ e0 :: rest, p.evapotranspiration_mm = none) → q.evapotranspiration_mm = none)
      ∧ q.solar_irradiance_wm2 = meanOpt ((e0 :: rest).filterMap (·.solar_irradiance_wm2))
      ∧ ((∀ p ∈ e0 :: rest, p.solar_irradiance_wm2 = none) → q.solar_irradiance_wm2 = none)
      ∧ q.sun_hours = sumOpt ((e0 :: rest).filterMap (·.sun_hours))
      ∧ ((∀ p ∈ e0 :: rest, p.sun_hours = none) → q.sun_hours = none) := by
  have hlist : aggregate_daily_from_periods tz (e0 :: rest)
      = [aggregateGroup tz (e0 :: rest) e0] := by
    unfold aggregate_daily_from_periods
    have hkeys : sortedDayKeys ((e0 :: rest).map fun p => localDay tz p.start_time)
        = [localDay tz e0.start_time] := by
      rw [List.map_cons]
      refine sortedDayKeys_const (localDay tz e0.start_time) _ _ ?_
      intro y hy
      rcases List.mem_cons.mp hy with rfl | hy1
      · rfl
      · obtain ⟨p, hp, rfl⟩ := List.mem_map.mp hy1
        exact hday p (List.mem_cons_of_mem _ hp)
    rw [hkeys]
    have hfilter : (e0 :: rest).filter
        (fun p => decide (localDay tz p.start_time = localDay tz e0.start_time))
        = e0 :: rest :=
      List.filter_eq_self.mpr (fun p hp => decide_eq_true (hday p hp))
    simp only [List.filterMap_cons, List.filterMap_nil]
    rw [hfilter]
  exact ⟨aggregateGroup tz (e0 :: rest) e0, hlist,
    rfl,
    meanOpt_absent _ _,
    rfl,
    meanOpt_absent _ _,
    rfl,
    meanOpt_absent _ _,
    rfl,
    meanOpt_absent _ _,
    rfl,
    meanOpt_absent _ _,
    rfl,
    meanOpt_absent _ _,
    rfl,
    meanOpt_absent _ _,
    rfl,
    meanOpt_absent _ _,
    rfl,
    maxFallback_absent _ _ _,
    rfl,
    minFallback_absent _ _ _,
    rfl,
    listMax_absent _ _,
    rfl,
    listMax_absent _ _,
    rfl,
    listMax_absent _ _,
    rfl,
    listMax_absent _ _,
    rfl,
    listMax_absent _ _,
    rfl,
    sumOpt_absent _ _,
    rfl,
    sumOpt_absent _ _,
    rfl,
    sumOpt_absent _ _,
    rfl,
    sumOpt_absent _ _,
    rfl,
    sumOpt_absent _ _,
    rfl,
    sumOpt_absent _ _,
    rfl,
    sumOpt_absent _ _,
    rfl,
    sumOpt_absent _ _,
    rfl,
    meanOpt_absent _ _,
    rfl,
    meanOpt_absent _ _,
    rfl,
    meanOpt_absent _ _,
    rfl,
    meanOpt_absent _ _,
    rfl,
    meanOpt_absent _ _,
    rfl,
    rfl,
    listMax_absent _ _,
    rfl,
    listMax_absent _ _,
    rfl,
    headOpt_absent _ _,
    rfl,
    listMax_absent _ _,
    rfl,
    listMax_absent _ _,
    rfl,
    meanOpt_absent _ _,
    rfl,
    meanOpt_absent _ _,
    rfl,
    meanOpt_absent _ _,
    rfl,
    meanOpt_absent _ _,
    rfl,
    meanOpt_absent _ _,
    rfl,
    meanOpt_absent _ _,
    rfl,
    meanOpt_absent _ _,
    rfl,
    meanOpt_absent _ _,
    rfl,
    listMax_absent _ _,
    rfl,
    sumOpt_absent _ _,
    rfl,
    meanOpt_absent _ _,
    rfl,
    sumOpt_absent _ _⟩

/-- Concrete same-day group for C5: hourly temperatures 10, 12, 14. -/
def p5a : ForecastPeriod :=
  { provider := "demo", location := ⟨0, 0⟩, issued_at := 0, start_time := 3600,
    end_time := 7200, temperature_c := some 10 }

def p5b : ForecastPeriod :=
  { provider := "demo", location := ⟨0, 0⟩, issued_at := 0, start_time := 7200,
    end_time := 10800, temperature_c := some 12 }

def p5c : ForecastPeriod :=
  { provider := "demo", location := ⟨0, 0⟩, issued_at := 0, start_time := 10800,
    end_time := 14400, temperature_c := some 14 }

/-- Witness for C5 at the spec's `[10, 12, 14]` example. -/
theorem C5_daily_reducers_witness :
    ∃ q, aggregate_daily_from_periods 0 [p5a, p5b, p5c] = [q]
      ∧ q.temperature_c = some 12 ∧ q.temperature_high_c = some 14
      ∧ q.temperature_low_c = some 10 ∧ q.precipitation_mm = none
      ∧ q.wind_speed_kph = none ∧ q.uv_index = none := by
  obtain ⟨q, hq, -⟩ := C5_daily_reducers 0 p5a [p5b, p5c] (by decide)
  have hagg : aggregate_daily_from_periods 0 [p5a, p5b, p5c]
      = [aggregateGroup 0 [p5a, p5b, p5c] p5a] := by decide
  rw [hagg] at hq
  injection hq with hq1 hq2
  subst hq1
  exact ⟨_, hagg, by decide, by decide, by decide, by decide, by decide, by decide⟩

/-! ## Claim C6 -/

/-- C6 counterexample: with no next interval and no declared step,
`_infer_end_time` returns `start_time` itself, a zero-length period —
not `start_time + 1 unit` as the claim states. -/
theorem C6_counterexample :
    infer_end_time (fun s => .error s) 0 [Json.obj [("time", Json.str "t0")]] 100 none
        = .ok 100
    ∧ (Except.ok (100 : ℚ) : Except String Instant) ≠ .ok (100 + 3600)
    ∧ (Except.ok (100 : ℚ) : Except String Instant) ≠ .ok (100 + 86400) := by
  exact ⟨rfl, by decide, by decide⟩

/-- C6 (amended): `_infer_end_time` resolves `end_time` as the next
interval's parsed start when a truthy next time exists; otherwise as
`start_time` plus the declared step when that step parses to a nonzero
span (`"1h"` adds 3600 s, `"1d"` adds 86400 s); with no declared step it
falls back to `end_time = start_time`, a zero-length period. -/
theorem C6_end_time_resolution :
    (∀ (isoParse : String → Except String Instant) (index : Nat) (intervals : List Json)
        (start : Instant) (ts : Option String) (nxt raw : Json),
        intervals.get? (index + 1) = some nxt → nxt.getD "time" = raw →
        raw.isTruthy = true →
        infer_end_time isoParse index intervals start ts = isoParse (pyStrOf raw))
    ∧ (∀ (isoParse : String → Except String Instant) (index : Nat) (intervals : List Json)
        (start : Instant) (ts : String) (delta : ℚ),
        intervals.get? (index + 1) = none → stepDelta ts = some delta → ts.isEmpty = false →
        infer_end_time isoParse index intervals start (some ts) = .ok (start + delta))
    ∧ (∀ (isoParse : String → Except String Instant) (index : Nat) (intervals : List Json)
        (start : Instant),
        intervals.get? (index + 1) = none →
        infer_end_time isoParse index intervals start none = .ok start)
    ∧ stepDelta "1h" = some 3600 ∧ stepDelta "1d" = some 86400 := by
  refine ⟨?_, ?_, ?_, by decide, by decide⟩
  · intro isoParse index intervals start ts nxt raw h1 h2 h3
    simp only [List.get?_eq_getElem?] at h1
    simp [infer_end_time, h1, h2, h3]
  · intro isoParse index intervals start ts delta h1 h2 h3
    simp only [List.get?_eq_getElem?] at h1
    simp [infer_end_time, h1, h2, h3]
  · intro isoParse index intervals start h1
    simp only [List.get?_eq_getElem?] at h1
    simp [infer_end_time, h1]

/-- Concrete parser/intervals instantiating C6. -/
def p6Parse : String → Except String Instant :=
  fun s => if s = "b" then .ok 3600 else .error s

def ints6 : List Json :=
  [Json.obj [("time", Json.str "a")], Json.obj [("time", Json.str "b")]]

/-- Witness for C6 (amended): next-interval, declared-step and no-step
resolutions at concrete intervals. -/
theorem C6_end_time_resolution_witness :
    infer_end_time p6Parse 0 ints6 0 (some "1h") = .ok 3600
    ∧ infer_end_time p6Parse 1 ints6 3600 (some "1h") = .ok (3600 + 3600)
    ∧ infer_end_time p6Parse 1 ints6 3600 none = .ok 3600 := by
  refine ⟨?_, ?_, ?_⟩
  · have h := C6_end_time_resolution.1 p6Parse 0 ints6 0 (some "1h")
      (Json.obj [("time", Json.str "b")]) (Json.str "b") rfl rfl rfl
    rw [h]
    rfl
  · exact C6_end_time_resolution.2.1 p6Parse 1 ints6 3600 "1h" 3600 rfl (by decide) rfl
  · exact C6_end_time_resolution.2.2.1 p6Parse 1 ints6 3600 rfl

/-! ## Claim C9 -/

/-- Bind inversion for `Except`. -/
theorem exceptBind_ok {α β : Type} {m : Except String α} {f : α → Except String β} {r : β}
    (h : (m >>= f) = .ok r) : ∃ a, m = .ok a ∧ f a = .ok r := by
  cases m with
  | error e => simp [Bind.bind, Except.bind] at h
  | ok a => exact ⟨a, rfl, by simpa [Bind.bind, Except.bind] using h⟩

/-- Each daily Tomorrow.io period zeroes out `precipitation_mm` when the
non-absent accumulations sum to zero. -/
theorem tioDailyEntry_precip (isoParse : String → Except String Instant)
    (provider : String) (lat lon : ℚ) (issued : Instant) (intervals : List Json)
    (ie : Nat × Json) (q : ForecastPeriod)
    (h : tioDailyEntry isoParse provider lat lon issued intervals ie = .ok q) :
    q.precipitation_mm =
      (if listSum ([q.precipitation_amount_rain_mm, q.precipitation_amount_snow_mm,
            q.precipitation_amount_sleet_mm, q.precipitation_amount_ice_mm].filterMap id) = 0
       then none
       else some (listSum ([q.precipitation_amount_rain_mm, q.precipitation_amount_snow_mm,
            q.precipitation_amount_sleet_mm, q.precipitation_amount_ice_mm].filterMap id))) := by
  simp only [tioDailyEntry] at h
  split at h
  · simp at h
  · obtain ⟨start, h1, h⟩ := exceptBind_ok h
    obtain ⟨endT, h2, h⟩ := exceptBind_ok h
    simp only [pure, Except.pure, Except.ok.injEq] at h
    subst h
    rfl

/-- C9: for every daily Tomorrow.io payload mapped successfully, each
period's `precipitation_mm` is absent exactly when the sum of its
non-absent rain/snow/sleet/ice accumulations is zero, and otherwise holds
that sum — in particular all-zero reported accumulations yield an absent
total rather than 0. -/
theorem C9_daily_precip_zero_is_absent (isoParse : String → Except String Instant)
    (provider : String) (payload : Json) (out : List ForecastPeriod)
    (h : map_tomorrow_io_daily_forecast isoParse provider payload = .ok out) :
    ∀ q ∈ out,
      q.precipitation_mm =
        (if listSum ([q.precipitation_amount_rain_mm, q.precipitation_amount_snow_mm,
              q.precipitation_amount_sleet_mm, q.precipitation_amount_ice_mm].filterMap id) = 0
         then none
         else some (listSum ([q.precipitation_amount_rain_mm, q.precipitation_amount_snow_mm,
              q.precipitation_amount_sleet_mm, q.precipitation_amount_ice_mm].filterMap id))) := by
  intro q hq
  simp only [map_tomorrow_io_daily_forecast] at h
  split at h
  · simp at h
  · split at h
    · simp only [Except.ok.injEq] at h
      subst h
      simp at hq
    · split at h
      · simp at h
      · obtain ⟨issued, h1, h⟩ := exceptBind_ok h
        obtain ⟨lat, h2, h⟩ := exceptBind_ok h
        obtain ⟨lon, h3, h⟩ := exceptBind_ok h
        obtain ⟨ie, _, hie⟩ := mapME_ok_mem _ _ _ h q hq
        exact tioDailyEntry_precip _ _ _ _ _ _ _ _ hie

/-- Concrete all-zero daily payload for C9. -/
def c9Parse : String → Except String Instant :=
  fun s => if s = "2024-05-01T00:00:00Z" then .ok 1714521600 else .error s

def c9Payload : Json :=
  .obj [("location", .obj [("lat", .num 45), ("lon", .num (-73))]),
        ("timelines", .obj [("daily", .arr [
          .obj [("time", .str "2024-05-01T00:00:00Z"),
                ("values", .obj [("rainAccumulationSum", .num 0),
                                 ("snowAccumulationSum", .num 0),
                                 ("sleetAccumulationSum", .num 0),
                                 ("iceAccumulationSum", .num 0)])]])])]

/-- The daily period C9's witness expects. -/
def c9Q : ForecastPeriod :=
  { provider := "tomorrow_io", location := ⟨45, -73⟩, issued_at := 1714521600,
    start_time := 1714521600, end_time := 1714608000,
    precipitation_amount_rain_mm := some 0, precipitation_amount_snow_mm := some 0,
    precipitation_amount_sleet_mm := some 0, precipitation_amount_ice_mm := some 0 }

/-- Witness for C9: explicitly zero accumulations yield an absent
`precipitation_mm`. -/
theorem C9_daily_precip_zero_is_absent_witness :
    map_tomorrow_io_daily_forecast c9Parse "tomorrow_io" c9Payload = .ok [c9Q]
    ∧ c9Q.precipitation_mm = none := by
  have hok : map_tomorrow_io_daily_forecast c9Parse "tomorrow_io" c9Payload = .ok [c9Q] := by
    decide
  have hz := C9_daily_precip_zero_is_absent c9Parse "tomorrow_io" c9Payload [c9Q] hok c9Q
    (by decide)
  refine ⟨hok, ?_⟩
  rw [hz]
  decide

/-! ## Claim C4 -/

/-- Every synthesized daily aggregate spans exactly 86400 seconds. -/
theorem aggregateGroup_times (tz : Int) (entries : List ForecastPeriod) (e0 : ForecastPeriod) :
    (aggregateGroup tz entries e0).end_time = (aggregateGroup tz entries e0).start_time + 86400 :=
  rfl

/-- A noon-issued hourly period: its daily aggregate starts at local
midnight, before `issued_at`. -/
def p4 : ForecastPeriod :=
  { provider := "demo", location := ⟨0, 0⟩, issued_at := 43200,
    start_time := 43200, end_time := 46800 }

/-- C4 counterexample: the daily aggregator produces a period whose
`issued_at` (noon, copied from the source period) exceeds its synthesized
local-midnight `start_time`, violating `issued_at <= start_time`. -/
theorem C4_counterexample :
    ¬ (∀ q ∈ aggregate_daily_from_periods 0 [p4],
        q.issued_at ≤ q.start_time ∧ q.start_time < q.end_time) := by
  decide

/-- Shape of one OpenWeather 3-hourly forecast entry. -/
theorem owForecastEntry_shape (provider : String) (lat lon : ℚ) (issued : Instant)
    (entry : Json) (q : ForecastPeriod)
    (h : owForecastEntry provider lat lon issued entry = .ok q) :
    ∃ start, timestampToDatetime (entry.getD "dt") = .ok start
      ∧ q.start_time = start ∧ q.end_time = start + 3 * 3600 ∧ q.issued_at = issued := by
  simp only [owForecastEntry] at h
  obtain ⟨start, h1, h⟩ := exceptBind_ok h
  simp only [pure, Except.pure, Except.ok.injEq] at h
  subst h
  exact ⟨start, h1, rfl, rfl, rfl⟩

/-- Shape of one Tomorrow.io hourly forecast entry. -/
theorem tioForecastEntry_shape (isoParse : String → Except String Instant)
    (provider : String) (lat lon : ℚ) (issued : Instant) (intervals : List Json)
    (ie : Nat × Json) (q : ForecastPeriod)
    (h : tioForecastEntry isoParse provider lat lon issued intervals ie = .ok q) :
    ∃ start endT, isoParse (pyStrOf ((ie.2).getD "time")) = .ok start
      ∧ infer_end_time isoParse ie.1 intervals start (some "1h") = .ok endT
      ∧ q.start_time = start ∧ q.end_time = endT ∧ q.issued_at = issued := by
  simp only [tioForecastEntry] at h
  split at h
  · simp at h
  · obtain ⟨start, h1, h⟩ := exceptBind_ok h
    obtain ⟨endT, h2, h⟩ := exceptBind_ok h
    simp only [pure, Except.pure, Except.ok.injEq] at h
    subst h
    exact ⟨start, endT, h1, h2, rfl, rfl, rfl⟩

/-- C4 (amended): each daily aggregate spans exactly one day
(`end_time = start_time + 1 day > start_time`) though `issued_at` may
exceed `start_time`; every OpenWeather 3-hourly period satisfies
`end_time = start_time + 3 h > start_time` and carries `issued_at` equal
to the first mapped period's `start_time` (so `issued_at <= start_time`
holds exactly when the first interval starts earliest); Tomorrow.io
hourly periods likewise carry `issued_at` equal to the first period's
`start_time`. -/
theorem C4_time_invariants :
    (∀ (tz : Int) (periods : List ForecastPeriod),
        ∀ q ∈ aggregate_daily_from_periods tz periods,
          q.end_time = q.start_time + 86400 ∧ q.start_time < q.end_time)
    ∧ (∀ (provider : String) (payload : Json) (out : List ForecastPeriod),
        map_openweather_forecast provider payload = .ok out →
        ∀ q ∈ out, q.end_time = q.start_time + 3 * 3600 ∧ q.start_time < q.end_time
          ∧ ∃ q0, out.head? = some q0 ∧ q.issued_at = q0.start_time)
    ∧ (∀ (isoParse : String → Except String Instant) (provider : String) (payload : Json)
        (out : List ForecastPeriod),
        map_tomorrow_io_forecast isoParse provider payload = .ok out →
        ∀ q ∈ out, ∃ q0, out.head? = some q0 ∧ q.issued_at = q0.start_time) := by
  refine ⟨?_, ?_, ?_⟩
  · intro tz periods q hq
    unfold aggregate_daily_from_periods at hq
    obtain ⟨d, hd, hfd⟩ := List.mem_filterMap.mp hq
    split at hfd
    · simp at hfd
    · simp only [Option.some.injEq] at hfd
      subst hfd
      refine ⟨aggregateGroup_times _ _ _, ?_⟩
      rw [aggregateGroup_times]
      linarith
  · intro provider payload out h q hq
    simp only [map_openweather_forecast] at h
    split at h
    · simp at h
    · split at h
      · simp only [Except.ok.injEq] at h
        subst h
        simp at hq
      · obtain ⟨issued, h1, h⟩ := exceptBind_ok h
        obtain ⟨lat, h2, h⟩ := exceptBind_ok h
        obtain ⟨lon, h3, h⟩ := exceptBind_ok h
        obtain ⟨b0, bs, hb0, hbs, hout⟩ := mapME_ok_cons _ _ _ _ h
        subst hout
        obtain ⟨s0, hs0, hb0s, _, _⟩ := owForecastEntry_shape _ _ _ _ _ _ hb0
        have hs0i : s0 = issued := by
          rw [h1] at hs0
          exact (Except.ok.inj hs0).symm
        obtain ⟨a, ha, hga⟩ := mapME_ok_mem _ _ _ h q hq
        obtain ⟨s, hs, hqs, hqe, hqi⟩ := owForecastEntry_shape _ _ _ _ _ _ hga
        refine ⟨by rw [hqe, hqs], by rw [hqe, hqs]; linarith, b0, rfl, ?_⟩
        rw [hqi, hb0s, hs0i]
  · intro isoParse provider payload out h q hq
    simp only [map_tomorrow_io_forecast] at h
    split at h
    · simp at h
    · split at h
      · simp only [Except.ok.injEq] at h
        subst h
        simp at hq
      · split at h
        · simp at h
        · obtain ⟨issued, h1, h⟩ := exceptBind_ok h
          obtain ⟨lat, h2, h⟩ := exceptBind_ok h
          obtain ⟨lon, h3, h⟩ := exceptBind_ok h
          rw [List.enum_cons] at h
          obtain ⟨b0, bs, hb0, hbs, hout⟩ := mapME_ok_cons _ _ _ _ h
          subst hout
          obtain ⟨s0, e0t, hs0, _, hb0s, _, _⟩ := tioForecastEntry_shape _ _ _ _ _ _ _ _ hb0
          have hs0i : s0 = issued := by
            rw [h1] at hs0
            exact (Except.ok.inj hs0).symm
          have hqmem : q = b0 ∨ q ∈ bs := List.mem_cons.mp hq
          rcases hqmem with rfl | hq1
          · exact ⟨q, rfl, by
              obtain ⟨s, e, hs, he, hqs, hqe, hqi⟩ := tioForecastEntry_shape _ _ _ _ _ _ _ _ hb0
              rw [hqi, hb0s, hs0i]⟩
          · obtain ⟨a, ha, hga⟩ := mapME_ok_mem _ _ _ hbs q hq1
            obtain ⟨s, e, hs, he, hqs, hqe, hqi⟩ := tioForecastEntry_shape _ _ _ _ _ _ _ _ hga
            exact ⟨b0, rfl, by rw [hqi, hb0s, hs0i]⟩

/-- Concrete OpenWeather forecast payload with one 3-hour interval. -/
def c4Payload : Json :=
  .obj [("city", .obj [("coord", .obj [("lat", .num 1), ("lon", .num 2)])]),
        ("list", .arr [.obj [("dt", .num 1000)]])]

/-- The period C4's witness expects from the OpenWeather mapper. -/
def c4Q : ForecastPeriod :=
  { provider := "openweather", location := ⟨1, 2⟩, issued_at := 1000,
    start_time := 1000, end_time := 11800 }

/-- Concrete Tomorrow.io hourly payload with one interval. -/
def c4TioPayload : Json :=
  .obj [("location", .obj [("lat", .num 1), ("lon", .num 2)]),
        ("timelines", .obj [("hourly", .arr [.obj [("time", .str "t")]])])]

def c4TioParse : String → Except String Instant :=
  fun s => if s = "t" then .ok 7200 else .error s

/-- The period C4's witness expects from the Tomorrow.io hourly mapper. -/
def c4TQ : ForecastPeriod :=
  { provider := "tomorrow_io", location := ⟨1, 2⟩, issued_at := 7200,
    start_time := 7200, end_time := 10800 }

/-- Witness for C4 (amended) on concrete aggregator and mapper runs. -/
theorem C4_time_invariants_witness :
    aggregate_daily_from_periods 0 [p4] = [aggregateGroup 0 [p4] p4]
    ∧ (aggregateGroup 0 [p4] p4).end_time = (aggregateGroup 0 [p4] p4).start_time + 86400
    ∧ map_openweather_forecast "openweather" c4Payload = .ok [c4Q]
    ∧ c4Q.end_time = c4Q.start_time + 3 * 3600 ∧ c4Q.issued_at = c4Q.start_time
    ∧ map_tomorrow_io_forecast c4TioParse "tomorrow_io" c4TioPayload = .ok [c4TQ]
    ∧ c4TQ.issued_at = c4TQ.start_time := by
  have ha : aggregate_daily_from_periods 0 [p4] = [aggregateGroup 0 [p4] p4] := by decide
  have hb : map_openweather_forecast "openweather" c4Payload = .ok [c4Q] := by decide
  have hc : map_tomorrow_io_forecast c4TioParse "tomorrow_io" c4TioPayload = .ok [c4TQ] := by
    decide
  have h1 := C4_time_invariants.1 0 [p4] (aggregateGroup 0 [p4] p4)
    (by rw [ha]; exact List.mem_singleton.mpr rfl)
  have h2 := C4_time_invariants.2.1 "openweather" c4Payload [c4Q] hb c4Q
    (List.mem_singleton.mpr rfl)
  have h3 := C4_time_invariants.2.2 c4TioParse "tomorrow_io" c4TioPayload [c4TQ] hc c4TQ
    (List.mem_singleton.mpr rfl)
  obtain ⟨q0, hq0, hq0i⟩ := h2.2.2
  have hq0e : q0 = c4Q := by simpa using hq0.symm
  obtain ⟨t0, ht0, ht0i⟩ := h3
  have ht0e : t0 = c4TQ := by simpa using ht0.symm
  exact ⟨ha, h1.1, hb, h2.1, by rw [hq0i, hq0e], hc, by rw [ht0i, ht0e]⟩

/-! ## Claim C10 -/

/-- Stand-in for the injectable ISO parser where the accuweather mappers
never reach it (epoch timestamps are present). -/
def c10IsoOpt : String → Option Instant := fun _ => none

/-- ISO parser for the C10 payloads: `"t"` is epoch second 5, `"t2"` is 6. -/
def c10Parse : String → Except String Instant :=
  fun x => if x = "t" then .ok 5 else if x = "t2" then .ok 6 else .error x

/-- OpenWeather current-conditions payload carrying an arbitrary raw value
`v` in every optional numeric metric slot the mapper reads. -/
def c10OwPayload (v : Json) : Json :=
  .obj [("coord", .obj [("lat", .num 1), ("lon", .num 2)]),
        ("dt", .num 1000),
        ("name", .str "ow-station"),
        ("main", .obj [("temp", v), ("feels_like", v), ("pressure", v), ("humidity", v)]),
        ("wind", .obj [("speed", v), ("deg", v), ("gust", v)]),
        ("clouds", .obj [("all", v)]),
        ("visibility", v),
        ("weather", .arr [.obj [("id", v), ("description", .str "Sunny")]]),
        ("rain", .obj [("1h", v)])]

/-- The observation C10 expects from the OpenWeather mapper: every optional
numeric metric absent. -/
def c10OwObs : Observation :=
  { provider := "openweather", station := some "ow-station", location := ⟨1, 2⟩,
    observed_at := 1000, condition := some "Sunny" }

/-- OpenWeather 5-day forecast payload, one interval, junk in every
optional numeric metric slot. -/
def c10OwFcPayload (v : Json) : Json :=
  .obj [("city", .obj [("coord", .obj [("lat", .num 1), ("lon", .num 2)])]),
        ("list", .arr [.obj [("dt", .num 1000),
          ("main", .obj [("temp", v), ("temp_max", v), ("temp_min", v),
                         ("pressure", v), ("humidity", v)]),
          ("wind", .obj [("speed", v), ("deg", v), ("gust", v)]),
          ("clouds", .obj [("all", v)]),
          ("pop", v),
          ("weather", .arr [.obj [("id", v), ("description", .str "Cloudy")]]),
          ("rain", .obj [("1h", v)])]])]

def c10OwFcQ : ForecastPeriod :=
  { provider := "openweather", location := ⟨1, 2⟩, issued_at := 1000,
    start_time := 1000, end_time := 11800, summary := some "Cloudy" }

/-- One Call hourly entry with junk in every optional numeric metric slot. -/
def c10OcHEntry (v : Json) : Json :=
  .obj [("dt", .num 1000), ("temp", v), ("feels_like", v), ("dew_point", v), ("pop", v),
        ("rain", .obj [("1h", v)]),
        ("weather", .arr [.obj [("id", v), ("description", .str "Clear")]]),
        ("wind_speed", v), ("wind_deg", v), ("wind_gust", v), ("uvi", v), ("humidity", v),
        ("pressure", v), ("clouds", v), ("visibility", v)]

def c10OcHPayload (v : Json) : Json :=
  .obj [("lat", .num 1), ("lon", .num 2), ("hourly", .arr [c10OcHEntry v])]

def c10OcHQ : ForecastPeriod :=
  { provider := "openweather", location := ⟨1, 2⟩, issued_at := 1000,
    start_time := 1000, end_time := 4600, summary := some "Clear" }

/-- One Call daily entry; the `rain` slot itself carries the junk value, so
`_extract_onecall_precipitation` falls through both branches. -/
def c10OcDEntry (v : Json) : Json :=
  .obj [("dt", .num 1000), ("temp", .obj [("day", v), ("max", v), ("min", v)]),
        ("feels_like", .obj [("day", v)]), ("dew_point", v), ("pop", v),
        ("rain", v),
        ("weather", .arr [.obj [("id", v), ("description", .str "Clear")]]),
        ("wind_speed", v), ("wind_deg", v), ("wind_gust", v), ("uvi", v), ("humidity", v),
        ("pressure", v), ("clouds", v)]

def c10OcDPayload (v : Json) : Json :=
  .obj [("lat", .num 1), ("lon", .num 2), ("daily", .arr [c10OcDEntry v])]

def c10OcDQ : ForecastPeriod :=
  { provider := "openweather", location := ⟨1, 2⟩, issued_at := 1000,
    start_time := 1000, end_time := 87400, summary := some "Clear" }

/-- Tomorrow.io realtime values block, junk in every metric key. -/
def c10TioValues (v : Json) : Json :=
  .obj [("temperature", v), ("temperatureApparent", v), ("dewPoint", v),
        ("windSpeed", v), ("windDirection", v), ("windGust", v),
        ("pressureSurfaceLevel", v), ("pressureSeaLevel", v), ("altimeterSetting", v),
        ("humidity", v), ("visibility", v), ("cloudCover", v), ("cloudBase", v),
        ("cloudCeiling", v), ("weatherCode", v), ("rainIntensity", v),
        ("snowIntensity", v), ("sleetIntensity", v), ("freezingRainIntensity", v),
        ("uvIndex", v), ("uvHealthConcern", v)]

def c10TioPayload (v : Json) : Json :=
  .obj [("location", .obj [("lat", .num 1), ("lon", .num 2), ("name", .str "tio-station")]),
        ("data", .obj [("time", .str "t"), ("values", c10TioValues v)])]

def c10TioObs : Observation :=
  { provider := "tomorrow_io", station := some "tio-station", location := ⟨1, 2⟩,
    observed_at := 5 }

/-- Tomorrow.io hourly values block, junk in every metric key. -/
def c10TioFcValues (v : Json) : Json :=
  .obj [("temperature", v), ("temperatureApparent", v), ("dewPoint", v),
        ("precipitationProbability", v), ("rainAccumulation", v), ("snowAccumulation", v),
        ("sleetAccumulation", v), ("iceAccumulation", v), ("snowAccumulationLwe", v),
        ("sleetAccumulationLwe", v), ("iceAccumulationLwe", v), ("rainIntensity", v),
        ("snowIntensity", v), ("sleetIntensity", v), ("freezingRainIntensity", v),
        ("weatherCode", v), ("windSpeed", v), ("windDirection", v), ("windGust", v),
        ("uvIndex", v), ("uvHealthConcern", v), ("humidity", v), ("visibility", v),
        ("pressureSurfaceLevel", v), ("pressureSeaLevel", v), ("altimeterSetting", v),
        ("cloudCover", v), ("cloudBase", v), ("cloudCeiling", v), ("snowDepth", v),
        ("evapotranspiration", v)]

def c10TioFcPayload (v : Json) : Json :=
  .obj [("location", .obj [("lat", .num 1), ("lon", .num 2)]),
        ("timelines", .obj [("hourly", .arr [.obj [("time", .str "t"),
          ("values", c10TioFcValues v)]])])]

def c10TioFcQ : ForecastPeriod :=
  { provider := "tomorrow_io", location := ⟨1, 2⟩, issued_at := 5,
    start_time := 5, end_time := 3605 }

/-- Tomorrow.io daily values block: junk in every base metric key and in
every suffixed (`Avg`/`Sum`/`Max`/`Min`) variant the mapper consults. -/
def c10TioDValues (v : Json) : Json :=
  .obj [("temperatureAvg", v), ("temperature", v), ("temperatureApparentAvg", v),
        ("temperatureApparent", v), ("temperatureMax", v), ("temperatureApparentMax", v),
        ("temperatureMin", v), ("temperatureApparentMin", v),
        ("dewPointAvg", v), ("dewPoint", v),
        ("precipitationProbabilityMax", v), ("precipitationProbabilityAvg", v),
        ("precipitationProbability", v),
        ("rainAccumulationSum", v), ("rainAccumulation", v),
        ("snowAccumulationSum", v), ("snowAccumulation", v),
        ("sleetAccumulationSum", v), ("sleetAccumulation", v),
        ("iceAccumulationSum", v), ("iceAccumulation", v),
        ("snowAccumulationLweSum", v), ("snowAccumulationLwe", v),
        ("sleetAccumulationLweSum", v), ("sleetAccumulationLwe", v),
        ("iceAccumulationLweSum", v), ("iceAccumulationLwe", v),
        ("rainIntensityAvg", v), ("rainIntensity", v),
        ("snowIntensityAvg", v), ("snowIntensity", v),
        ("sleetIntensityAvg", v), ("sleetIntensity", v),
        ("freezingRainIntensityAvg", v), ("freezingRainIntensity", v),
        ("weatherCodeMax", v), ("weatherCode", v),
        ("windSpeedAvg", v), ("windSpeed", v),
        ("windDirectionAvg", v), ("windDirection", v),
        ("windGustAvg", v), ("windGust", v),
        ("uvIndexMax", v), ("uvIndex", v),
        ("uvHealthConcernMax", v), ("uvHealthConcernAvg", v), ("uvHealthConcern", v),
        ("humidityAvg", v), ("humidity", v),
        ("visibilityAvg", v), ("visibility", v),
        ("pressureSeaLevelAvg", v), ("pressureSeaLevel", v),
        ("pressureSurfaceLevelAvg", v), ("pressureSurfaceLevel", v),
        ("altimeterSettingAvg", v), ("altimeterSetting", v),
        ("cloudCoverAvg", v), ("cloudCover", v),
        ("cloudBaseAvg", v), ("cloudBase", v),
        ("cloudCeilingAvg", v), ("cloudCeiling", v),
        ("snowDepthAvg", v), ("snowDepth", v),
        ("evapotranspirationSum", v), ("evapotranspirationAvg", v), ("evapotranspiration", v)]

def c10TioDPayload (v : Json) : Json :=
  .obj [("location", .obj [("lat", .num 1), ("lon", .num 2)]),
        ("timelines", .obj [("daily", .arr [.obj [("time", .str "t"),
          ("values", c10TioDValues v)]])])]

def c10TioDQ : ForecastPeriod :=
  { provider := "tomorrow_io", location := ⟨1, 2⟩, issued_at := 5,
    start_time := 5, end_time := 86405 }

/-- AmbientWeather `lastData` block, junk in every optional numeric slot
(including every fallback key of the `is not None` chains). -/
def c10AmbLastData (v : Json) : Json :=
  .obj [("dateutc", .num 1000), ("tempf", v), ("tempOut", v), ("tempc", v),
        ("tempinf", v), ("tempIn", v), ("feelsLike", v), ("feelsLikein", v),
        ("dewPoint", v), ("dewptf", v), ("dewpt", v), ("dewPointin", v), ("dewptin", v),
        ("windspeedmph", v), ("windSpeed", v), ("windgustmph", v), ("maxdailygust", v),
        ("baromrelin", v), ("baromabsin", v), ("barometer", v),
        ("hourlyrainin", v), ("hourlyrain", v), ("winddir", v), ("winddir_avg10m", v),
        ("humidity", v), ("humidityin", v), ("dailyrainin", v), ("weeklyrainin", v),
        ("monthlyrainin", v), ("yearlyrainin", v), ("eventrainin", v),
        ("uv", v), ("solarradiation", v), ("battin", v), ("battout", v)]

def c10AmbDevice (v : Json) : Json :=
  .obj [("macAddress", .str "aa:bb"),
        ("info", .obj [("name", .str "amb-station"),
                       ("coords", .obj [("lat", .num 1), ("lon", .num 2)])]),
        ("lastData", c10AmbLastData v)]

def c10AmbObs : Observation :=
  { provider := "ambient_weather", station := some "amb-station",
    location := ⟨1, 2⟩, observed_at := 1000 }

/-- MSC GeoMet `currentConditions` block, junk in every metric key. -/
def c10MscCC (v : Json) : Json :=
  .obj [("airTemperature", v), ("temperature", v), ("dewpointTemperature", v), ("dewpoint", v),
        ("wind", .obj [("speed", v), ("direction", v)]),
        ("seaLevelPressure", v), ("pressure", v), ("relativeHumidity", v),
        ("visibility", v), ("precipitationLastHour", v)]

def c10MscObsFeature (v : Json) : Json :=
  .obj [("properties", .obj [("observationTime", .str "t"),
          ("name", .obj [("en", .str "msc-station")]),
          ("currentConditions", c10MscCC v)]),
        ("geometry", .obj [("coordinates", .arr [.num 2, .num 1])])]

def c10MscObs : Observation :=
  { provider := "msc_geomet", station := some "msc-station",
    location := ⟨1, 2⟩, observed_at := 5 }

/-- MSC GeoMet forecast period, junk in every metric slot of both the
structured (`pop`/`precipAmounts`/`wind`) and flat fallback keys. -/
def c10MscPeriod (v : Json) : Json :=
  .obj [("start", .str "t"), ("end", .str "t2"),
        ("temperature", v), ("temperatureHigh", v), ("temperatureLow", v),
        ("pop", .obj [("value", v)]), ("probabilityOfPrecipitation", v),
        ("precipitation", .obj [("precipAmounts", .arr [v])]), ("totalPrecipitation", v),
        ("wind", .obj [("speed", v), ("direction", v)]), ("windSpeed", v), ("windDirection", v)]

def c10MscFcFeature (v : Json) : Json :=
  .obj [("properties", .obj [("forecastGroup", .obj [("forecastIssueTime", .str "t"),
          ("periods", .arr [c10MscPeriod v])])]),
        ("geometry", .obj [("coordinates", .arr [.num 2, .num 1])])]

def c10MscFcQ : ForecastPeriod :=
  { provider := "msc_geomet", location := ⟨1, 2⟩, issued_at := 5,
    start_time := 5, end_time := 6 }

/-- A fully usable PROGNOS feature. -/
def c10PrognosGoodF : Json :=
  .obj [("geometry", .obj [("coordinates", .arr [.num 2, .num 1])]),
        ("properties", .obj [("prognos_station_id", .str "A"),
          ("reference_datetime", .str "t"), ("forecast_datetime", .str "t2"),
          ("forecast_leadtime", .str "PT3H"), ("forecast_value", .num 7),
          ("unit", .str "C")])]

/-- A PROGNOS feature whose `forecast_value` is the junk value `v`. -/
def c10PrognosBadF (v : Json) : Json :=
  .obj [("geometry", .obj [("coordinates", .arr [.num 2, .num 1])]),
        ("properties", .obj [("prognos_station_id", .str "B"),
          ("reference_datetime", .str "t"), ("forecast_datetime", .str "t2"),
          ("forecast_leadtime", .str "PT3H"), ("forecast_value", v),
          ("unit", .str "C")])]

def c10PrognosPayload (v : Json) : Json :=
  Json.obj [("features", Json.arr [c10PrognosGoodF, c10PrognosBadF v])]

def c10PrognosGV : PrognosStationValue :=
  { station_id := "A", latitude := 1, longitude := 2, reference_time := 5,
    forecast_time := 6, lead_hours := 3, unit := "C", value := 7 }

/-- AccuWeather metric blocks in identity units (`C`, `km/h`, `mm`, `km`),
each carrying the junk value `v` in `Value`. -/
def c10CBlock (v : Json) : Json :=
  .obj [("Metric", .obj [("Value", v), ("Unit", .str "C")])]

def c10KmhBlock (v : Json) : Json :=
  .obj [("Metric", .obj [("Value", v), ("Unit", .str "km/h")])]

def c10MmBlock (v : Json) : Json :=
  .obj [("Metric", .obj [("Value", v), ("Unit", .str "mm")])]

def c10KmBlock (v : Json) : Json :=
  .obj [("Metric", .obj [("Value", v), ("Unit", .str "km")])]

/-- AccuWeather current conditions, junk in every optional numeric slot. -/
def c10AccuCurrent (v : Json) : Json :=
  .obj [("EpochTime", .num 1000),
        ("StationName", .str "accu-station"),
        ("Temperature", c10CBlock v),
        ("DewPoint", c10CBlock v),
        ("Pressure", .obj [("Metric", .obj [("Value", v), ("Unit", .str "kpa")])]),
        ("Visibility", c10KmBlock v),
        ("Ceiling", c10KmBlock v),
        ("Wind", .obj [("Speed", c10KmhBlock v), ("Direction", .obj [("Degrees", v)])]),
        ("WindGust", .obj [("Speed", c10KmhBlock v)]),
        ("UVIndexFloat", v),
        ("RealFeelTemperature", c10CBlock v),
        ("RealFeelTemperatureShade", c10CBlock v),
        ("ApparentTemperature", c10CBlock v),
        ("WindChillTemperature", c10CBlock v),
        ("WetBulbTemperature", c10CBlock v),
        ("WetBulbGlobeTemperature", c10CBlock v),
        ("Past24HourTemperatureDeparture", c10CBlock v),
        ("PrecipitationSummary", .obj [("Precipitation", c10MmBlock v)]),
        ("Precip1hr", c10MmBlock v),
        ("RelativeHumidity", v), ("IndoorRelativeHumidity", v), ("CloudCover", v),
        ("WeatherIcon", v)]

def c10AccuObs : Observation :=
  { provider := "accuweather", station := some "accu-station",
    location := ⟨1, 2⟩, observed_at := 1000 }

/-- AccuWeather hourly entry, junk in every optional numeric slot. -/
def c10AccuHEntry (v : Json) : Json :=
  .obj [("EpochDateTime", .num 1000),
        ("Temperature", c10CBlock v), ("RealFeelTemperature", c10CBlock v),
        ("RealFeelTemperatureShade", c10CBlock v), ("DewPoint", c10CBlock v),
        ("WetBulbTemperature", c10CBlock v), ("WetBulbGlobeTemperature", c10CBlock v),
        ("Wind", .obj [("Speed", c10KmhBlock v), ("Direction", .obj [("Degrees", v)])]),
        ("WindGust", .obj [("Speed", c10KmhBlock v)]),
        ("UVIndexFloat", v),
        ("PrecipitationProbability", v), ("ThunderstormProbability", v),
        ("RainProbability", v), ("SnowProbability", v), ("IceProbability", v),
        ("Rain", c10MmBlock v), ("Snow", c10MmBlock v), ("Ice", c10MmBlock v),
        ("TotalLiquid", c10MmBlock v),
        ("Visibility", c10KmBlock v), ("Ceiling", c10KmBlock v),
        ("IconPhrase", .str "Hot"), ("WeatherIcon", v), ("RelativeHumidity", v)]

def c10AccuHQ : ForecastPeriod :=
  { provider := "accuweather", location := ⟨1, 2⟩, issued_at := 1000,
    start_time := 1000, end_time := 4600, summary := some "Hot" }

/-- AccuWeather daily `Day` block, junk in every optional numeric slot
(blocks read without the `Metric` wrapper carry `Value`/`Unit` directly). -/
def c10AccuDay (v : Json) : Json :=
  .obj [("Wind", .obj [("Speed", c10KmhBlock v), ("Direction", .obj [("Degrees", v)])]),
        ("WindGust", .obj [("Speed", c10KmhBlock v)]),
        ("UVIndex", .obj [("Minimum", v), ("Maximum", v)]),
        ("Rain", c10MmBlock v), ("Snow", c10MmBlock v), ("Ice", c10MmBlock v),
        ("TotalLiquid", c10MmBlock v),
        ("WetBulbTemperature", .obj [("Average", .obj [("Value", v), ("Unit", .str "C")])]),
        ("WetBulbGlobeTemperature",
          .obj [("Average", .obj [("Value", v), ("Unit", .str "C")])]),
        ("RelativeHumidity", .obj [("Average", v)]),
        ("Evapotranspiration", .obj [("Value", v), ("Unit", .str "mm")]),
        ("SolarIrradiance", .obj [("Value", v), ("Unit", .str "wm2")]),
        ("PrecipitationProbability", v), ("ThunderstormProbability", v),
        ("RainProbability", v), ("SnowProbability", v), ("IceProbability", v),
        ("IconPhrase", .str "Mild"), ("Icon", v), ("CloudCover", v)]

def c10AccuDEntry (v : Json) : Json :=
  .obj [("EpochDate", .num 1000), ("HoursOfSun", v),
        ("Temperature", .obj [("Minimum", c10CBlock v), ("Maximum", c10CBlock v)]),
        ("RealFeelTemperature", .obj [("Minimum", c10CBlock v), ("Maximum", c10CBlock v)]),
        ("RealFeelTemperatureShade",
          .obj [("Average", .obj [("Value", v), ("Unit", .str "C")])]),
        ("Day", c10AccuDay v)]

def c10AccuDPayload (v : Json) : Json :=
  Json.obj [("DailyForecasts", Json.arr [c10AccuDEntry v])]

def c10AccuDQ : ForecastPeriod :=
  { provider := "accuweather", location := ⟨1, 2⟩, issued_at := 1000,
    start_time := 1000, end_time := 87400, summary := some "Mild" }

/-- C10: a present but non-numeric raw value in an optional metric field is
treated as absent, never fatal. The shared `_to_optional_float` /
`_to_optional_int` helpers map any non-numeric (non-empty) string to
`None`; every Observation/ForecastPeriod-producing mapper of every
provider, fed a payload whose every optional numeric metric slot carries
such a string, still returns successfully with every one of those
canonical fields absent (the PROGNOS parser skips the junk-valued feature
and keeps the usable one; the AccuWeather minute-forecast and location
mappers read no optional numeric metric fields). Only missing required
inputs — coordinates and primary timestamps, which all these payloads
supply — abort a mapping call. -/
theorem C10_nonnumeric_optional_is_absent (s : String)
    (hf : parseFloatString s = none) (hi : parseIntString s = none) (hs : s ≠ "") :
    toOptionalFloat (Json.str s) = none
    ∧ toOptionalInt (Json.str s) = none
    ∧ map_openweather_observation "openweather" (c10OwPayload (Json.str s)) = .ok c10OwObs
    ∧ map_openweather_forecast "openweather" (c10OwFcPayload (Json.str s)) = .ok [c10OwFcQ]
    ∧ map_openweather_onecall_hourly "openweather" (c10OcHPayload (Json.str s))
        = .ok [c10OcHQ]
    ∧ map_openweather_onecall_daily "openweather" (c10OcDPayload (Json.str s))
        = .ok [c10OcDQ]
    ∧ map_tomorrow_io_observation c10Parse "tomorrow_io" (c10TioPayload (Json.str s))
        = .ok c10TioObs
    ∧ map_tomorrow_io_forecast c10Parse "tomorrow_io" (c10TioFcPayload (Json.str s))
        = .ok [c10TioFcQ]
    ∧ map_tomorrow_io_daily_forecast c10Parse "tomorrow_io" (c10TioDPayload (Json.str s))
        = .ok [c10TioDQ]
    ∧ map_ambient_weather_observation "ambient_weather" none [c10AmbDevice (Json.str s)]
        = .ok c10AmbObs
    ∧ map_msc_geomet_observation c10Parse "msc_geomet" (c10MscObsFeature (Json.str s))
        = .ok c10MscObs
    ∧ map_msc_geomet_forecast c10Parse "msc_geomet" (c10MscFcFeature (Json.str s))
        = .ok [c10MscFcQ]
    ∧ parse_prognos_payload c10Parse (c10PrognosPayload (Json.str s)) = .ok [c10PrognosGV]
    ∧ map_accuweather_observation c10IsoOpt (some 1) (some 2) "accuweather"
        [c10AccuCurrent (Json.str s)] = .ok c10AccuObs
    ∧ map_accuweather_hourly_forecast c10IsoOpt (some 1) (some 2) "accuweather"
        [c10AccuHEntry (Json.str s)] = .ok [c10AccuHQ]
    ∧ map_accuweather_daily_forecast c10IsoOpt (some 1) (some 2) "accuweather"
        (c10AccuDPayload (Json.str s)) = .ok [c10AccuDQ] := by
  have h1 : toOptionalFloat (Json.str s) = none := by
    simp [toOptionalFloat, pyFloatE, hf, exceptToOption]
  have h2 : toOptionalInt (Json.str s) = none := by
    simp [toOptionalInt, pyIntE, hi, exceptToOption]
  have hT : (Json.str s).isTruthy = true := by simp [Json.isTruthy, hs]
  have hpo : ∀ b, pyOr (Json.str s) b = Json.str s := fun b => pyOr_truthy _ b hT
  have hu := unwrapValue_str s
  have hcode : describeWeatherCode (Json.str s) = none := describeWeatherCode_none _ h2
  refine ⟨h1, h2, ?_, ?_, ?_, ?_, ?_, ?_, ?_, ?_, ?_, ?_, ?_, ?_, ?_, ?_⟩
  · have hstep : map_openweather_observation "openweather" (c10OwPayload (Json.str s))
        = .ok { provider := "openweather"
                station := some "ow-station"
                location := ⟨1, 2⟩
                observed_at := 1000
                temperature_c := kelvin_to_celsius (toOptionalFloat (Json.str s))
                temperature_apparent_c := kelvin_to_celsius (toOptionalFloat (Json.str s))
                wind_speed_kph := ms_to_kph (toOptionalFloat (Json.str s))
                wind_direction_deg := toOptionalInt (Json.str s)
                wind_gust_kph := ms_to_kph (toOptionalFloat (Json.str s))
                pressure_kpa := hpa_to_kpa (toOptionalFloat (Json.str s))
                pressure_sea_level_kpa := hpa_to_kpa (toOptionalFloat (Json.str s))
                relative_humidity := toOptionalFloat (Json.str s)
                visibility_km := meters_to_km (toOptionalFloat (Json.str s))
                cloud_cover_pct := toOptionalFloat (Json.str s)
                condition := some "Sunny"
                condition_code := toOptionalInt (Json.str s)
                precipitation_last_hour_mm :=
                  toOptionalFloat (pyOr (Json.str s) Json.null) } := rfl
    rw [hstep, hpo, h1, h2]
    rfl
  · have hstep : map_openweather_forecast "openweather" (c10OwFcPayload (Json.str s))
        = .ok [{ provider := "openweather"
                 location := ⟨1, 2⟩
                 issued_at := 1000
                 start_time := 1000
                 end_time := 11800
                 temperature_c := kelvin_to_celsius (toOptionalFloat (Json.str s))
                 temperature_high_c := kelvin_to_celsius (toOptionalFloat (Json.str s))
                 temperature_low_c := kelvin_to_celsius (toOptionalFloat (Json.str s))
                 precipitation_probability := (toOptionalFloat (Json.str s)).map (· * 100)
                 precipitation_mm := toOptionalFloat (pyOr (Json.str s) Json.null)
                 summary := some "Cloudy"
                 condition_code := toOptionalInt (Json.str s)
                 wind_speed_kph := ms_to_kph (toOptionalFloat (Json.str s))
                 wind_direction_deg := toOptionalInt (Json.str s)
                 wind_gust_kph := ms_to_kph (toOptionalFloat (Json.str s))
                 relative_humidity := toOptionalFloat (Json.str s)
                 pressure_sea_level_kpa := hpa_to_kpa (toOptionalFloat (Json.str s))
                 cloud_cover_pct := toOptionalFloat (Json.str s) }] := rfl
    rw [hstep, hpo, h1, h2]
    rfl
  · have hstep : map_openweather_onecall_hourly "openweather" (c10OcHPayload (Json.str s))
        = .ok [{ provider := "openweather"
                 location := ⟨1, 2⟩
                 issued_at := 1000
                 start_time := 1000
                 end_time := 4600
                 temperature_c := toOptionalFloat (Json.str s)
                 temperature_apparent_c := toOptionalFloat (Json.str s)
                 dewpoint_c := toOptionalFloat (Json.str s)
                 precipitation_probability := (toOptionalFloat (Json.str s)).map (· * 100)
                 precipitation_mm := toOptionalFloat (pyOr (Json.str s) Json.null)
                 summary := some "Clear"
                 condition_code := toOptionalInt (Json.str s)
                 wind_speed_kph := ms_to_kph (toOptionalFloat (Json.str s))
                 wind_direction_deg := toOptionalInt (Json.str s)
                 wind_gust_kph := ms_to_kph (toOptionalFloat (Json.str s))
                 uv_index := toOptionalFloat (Json.str s)
                 relative_humidity := toOptionalFloat (Json.str s)
                 pressure_sea_level_kpa := hpa_to_kpa (toOptionalFloat (Json.str s))
                 cloud_cover_pct := toOptionalFloat (Json.str s)
                 visibility_km := meters_to_km (toOptionalFloat (Json.str s)) }] := rfl
    rw [hstep, hpo, h1, h2]
    rfl
  · have hstep : map_openweather_onecall_daily "openweather" (c10OcDPayload (Json.str s))
        = .ok [{ provider := "openweather"
                 location := ⟨1, 2⟩
                 issued_at := 1000
                 start_time := 1000
                 end_time := 87400
                 temperature_c := toOptionalFloat (Json.str s)
                 temperature_apparent_c := toOptionalFloat (Json.str s)
                 temperature_high_c := toOptionalFloat (Json.str s)
                 temperature_low_c := toOptionalFloat (Json.str s)
                 dewpoint_c := toOptionalFloat (Json.str s)
                 precipitation_probability := (toOptionalFloat (Json.str s)).map (· * 100)
                 precipitation_mm := none
                 summary := some "Clear"
                 condition_code := toOptionalInt (Json.str s)
                 wind_speed_kph := ms_to_kph (toOptionalFloat (Json.str s))
                 wind_direction_deg := toOptionalInt (Json.str s)
                 wind_gust_kph := ms_to_kph (toOptionalFloat (Json.str s))
                 uv_index := toOptionalFloat (Json.str s)
                 relative_humidity := toOptionalFloat (Json.str s)
                 pressure_sea_level_kpa := hpa_to_kpa (toOptionalFloat (Json.str s))
                 cloud_cover_pct := toOptionalFloat (Json.str s) }] := rfl
    rw [hstep, h1, h2]
    rfl
  · have hsum : sumIntensities (c10TioValues (Json.str s)) = none :=
      sumIntensities_none _ h1 h1 h1 h1
    have hstep : map_tomorrow_io_observation c10Parse "tomorrow_io"
          (c10TioPayload (Json.str s))
        = .ok { provider := "tomorrow_io"
                station := some "tio-station"
                location := ⟨1, 2⟩
                observed_at := 5
                temperature_c := toOptionalFloat (Json.str s)
                temperature_apparent_c := toOptionalFloat (Json.str s)
                dewpoint_c := toOptionalFloat (Json.str s)
                wind_speed_kph := ms_to_kph (toOptionalFloat (Json.str s))
                wind_direction_deg := toOptionalInt (Json.str s)
                wind_gust_kph := ms_to_kph (toOptionalFloat (Json.str s))
                pressure_kpa := hpa_to_kpa (toOptionalFloat (Json.str s))
                pressure_surface_kpa := hpa_to_kpa (toOptionalFloat (Json.str s))
                pressure_sea_level_kpa := hpa_to_kpa (toOptionalFloat (Json.str s))
                altimeter_kpa := hpa_to_kpa (toOptionalFloat (Json.str s))
                relative_humidity := toOptionalFloat (Json.str s)
                visibility_km := toOptionalFloat (Json.str s)
                cloud_cover_pct := toOptionalFloat (Json.str s)
                cloud_base_km := toOptionalFloat (Json.str s)
                cloud_ceiling_km := toOptionalFloat (Json.str s)
                condition := describeWeatherCode (Json.str s)
                condition_code := toOptionalInt (Json.str s)
                precipitation_last_hour_mm := sumIntensities (c10TioValues (Json.str s))
                precipitation_rate_rain_mm_hr := toOptionalFloat (Json.str s)
                precipitation_rate_snow_mm_hr := toOptionalFloat (Json.str s)
                precipitation_rate_sleet_mm_hr := toOptionalFloat (Json.str s)
                precipitation_rate_freezing_rain_mm_hr := toOptionalFloat (Json.str s)
                uv_index := toOptionalFloat (Json.str s)
                uv_health_concern := toOptionalFloat (Json.str s) } := rfl
    rw [hstep, hsum, hcode, h1, h2]
    rfl
  · have hsum : sumIntensities (c10TioFcValues (Json.str s)) = none :=
      sumIntensities_none _ h1 h1 h1 h1
    have hstep : map_tomorrow_io_forecast c10Parse "tomorrow_io"
          (c10TioFcPayload (Json.str s))
        = .ok [{ provider := "tomorrow_io"
                 location := ⟨1, 2⟩
                 issued_at := 5
                 start_time := 5
                 end_time := 3605
                 temperature_c := toOptionalFloat (Json.str s)
                 temperature_apparent_c := toOptionalFloat (Json.str s)
                 dewpoint_c := toOptionalFloat (Json.str s)
                 precipitation_probability := toOptionalFloat (Json.str s)
                 precipitation_mm :=
                   match sumIntensities (c10TioFcValues (Json.str s)) with
                   | none => none
                   | some amount =>
                       if (3605 : ℚ) ≠ 5 then some (amount * (((3605 : ℚ) - 5) / 3600))
                       else some amount
                 precipitation_amount_rain_mm := toOptionalFloat (Json.str s)
                 precipitation_amount_snow_mm := toOptionalFloat (Json.str s)
                 precipitation_amount_sleet_mm := toOptionalFloat (Json.str s)
                 precipitation_amount_ice_mm := toOptionalFloat (Json.str s)
                 precipitation_amount_snow_lwe_mm := toOptionalFloat (Json.str s)
                 precipitation_amount_sleet_lwe_mm := toOptionalFloat (Json.str s)
                 precipitation_amount_ice_lwe_mm := toOptionalFloat (Json.str s)
                 precipitation_rate_rain_mm_hr := toOptionalFloat (Json.str s)
                 precipitation_rate_snow_mm_hr := toOptionalFloat (Json.str s)
                 precipitation_rate_sleet_mm_hr := toOptionalFloat (Json.str s)
                 precipitation_rate_freezing_rain_mm_hr := toOptionalFloat (Json.str s)
                 summary := describeWeatherCode (Json.str s)
                 condition_code := toOptionalInt (Json.str s)
                 wind_speed_kph := ms_to_kph (toOptionalFloat (Json.str s))
                 wind_direction_deg := toOptionalInt (Json.str s)
                 wind_gust_kph := ms_to_kph (toOptionalFloat (Json.str s))
                 uv_index := toOptionalFloat (Json.str s)
                 uv_health_concern := toOptionalFloat (Json.str s)
                 relative_humidity := toOptionalFloat (Json.str s)
                 visibility_km := toOptionalFloat (Json.str s)
                 pressure_surface_kpa := hpa_to_kpa (toOptionalFloat (Json.str s))
                 pressure_sea_level_kpa := hpa_to_kpa (toOptionalFloat (Json.str s))
                 altimeter_kpa := hpa_to_kpa (toOptionalFloat (Json.str s))
                 cloud_cover_pct := toOptionalFloat (Json.str s)
                 cloud_base_km := toOptionalFloat (Json.str s)
                 cloud_ceiling_km := toOptionalFloat (Json.str s)
                 snow_depth_cm := toOptionalFloat (Json.str s)
                 evapotranspiration_mm := toOptionalFloat (Json.str s) }] := rfl
    rw [hstep, hsum, hcode, h1, h2]
    rfl
  · have hvw : ∀ base suffix : String,
        toOptionalFloat ((c10TioDValues (Json.str s)).getD (base ++ suffix)) = none →
        toOptionalFloat ((c10TioDValues (Json.str s)).getD base) = none →
        dailyValueWith (c10TioDValues (Json.str s)) base suffix = none :=
      fun base suffix => dailyValueWith_none _ base suffix
    have hdew : dailyValue (c10TioDValues (Json.str s)) "dewPoint" = none := hvw _ _ h1 h1
    have hppM : dailyValueMax (c10TioDValues (Json.str s)) "precipitationProbability"
        = none := hvw _ _ h1 h1
    have hppA : dailyValue (c10TioDValues (Json.str s)) "precipitationProbability" = none :=
      hvw _ _ h1 h1
    have hrain : dailyValueSum (c10TioDValues (Json.str s)) "rainAccumulation" = none :=
      hvw _ _ h1 h1
    have hsnow : dailyValueSum (c10TioDValues (Json.str s)) "snowAccumulation" = none :=
      hvw _ _ h1 h1
    have hsleet : dailyValueSum (c10TioDValues (Json.str s)) "sleetAccumulation" = none :=
      hvw _ _ h1 h1
    have hice : dailyValueSum (c10TioDValues (Json.str s)) "iceAccumulation" = none :=
      hvw _ _ h1 h1
    have hsnowL : dailyValueSum (c10TioDValues (Json.str s)) "snowAccumulationLwe" = none :=
      hvw _ _ h1 h1
    have hsleetL : dailyValueSum (c10TioDValues (Json.str s)) "sleetAccumulationLwe"
        = none := hvw _ _ h1 h1
    have hiceL : dailyValueSum (c10TioDValues (Json.str s)) "iceAccumulationLwe" = none :=
      hvw _ _ h1 h1
    have hrInt : dailyValue (c10TioDValues (Json.str s)) "rainIntensity" = none :=
      hvw _ _ h1 h1
    have hsInt : dailyValue (c10TioDValues (Json.str s)) "snowIntensity" = none :=
      hvw _ _ h1 h1
    have hslInt : dailyValue (c10TioDValues (Json.str s)) "sleetIntensity" = none :=
      hvw _ _ h1 h1
    have hfrInt : dailyValue (c10TioDValues (Json.str s)) "freezingRainIntensity" = none :=
      hvw _ _ h1 h1
    have hhum : dailyValue (c10TioDValues (Json.str s)) "humidity" = none := hvw _ _ h1 h1
    have hvis : dailyValue (c10TioDValues (Json.str s)) "visibility" = none := hvw _ _ h1 h1
    have hpsl : dailyValue (c10TioDValues (Json.str s)) "pressureSeaLevel" = none :=
      hvw _ _ h1 h1
    have hpsf : dailyValue (c10TioDValues (Json.str s)) "pressureSurfaceLevel" = none :=
      hvw _ _ h1 h1
    have halt : dailyValue (c10TioDValues (Json.str s)) "altimeterSetting" = none :=
      hvw _ _ h1 h1
    have hcc : dailyValue (c10TioDValues (Json.str s)) "cloudCover" = none := hvw _ _ h1 h1
    have hcb : dailyValue (c10TioDValues (Json.str s)) "cloudBase" = none := hvw _ _ h1 h1
    have hcl : dailyValue (c10TioDValues (Json.str s)) "cloudCeiling" = none := hvw _ _ h1 h1
    have hsd : dailyValue (c10TioDValues (Json.str s)) "snowDepth" = none := hvw _ _ h1 h1
    have hevS : dailyValueSum (c10TioDValues (Json.str s)) "evapotranspiration" = none :=
      hvw _ _ h1 h1
    have hevA : dailyValue (c10TioDValues (Json.str s)) "evapotranspiration" = none :=
      hvw _ _ h1 h1
    have hfp : ∀ keys : List String,
        (∀ k ∈ keys, toOptionalFloat ((c10TioDValues (Json.str s)).getD k) = none) →
        firstPresentTio (c10TioDValues (Json.str s)) keys = none :=
      firstPresentTio_none _
    have hfp1 : firstPresentTio (c10TioDValues (Json.str s))
        ["temperatureAvg", "temperature", "temperatureApparentAvg"] = none := by
      refine hfp _ ?_
      intro k hk
      rcases hk with _ | ⟨_, _ | ⟨_, _ | ⟨_, hk⟩⟩⟩ <;> first | exact h1 | cases hk
    have hfp2 : firstPresentTio (c10TioDValues (Json.str s))
        ["temperatureApparentAvg", "temperatureApparent"] = none := by
      refine hfp _ ?_
      intro k hk
      rcases hk with _ | ⟨_, _ | ⟨_, hk⟩⟩ <;> first | exact h1 | cases hk
    have hfp3 : firstPresentTio (c10TioDValues (Json.str s))
        ["temperatureMax", "temperatureApparentMax"] = none := by
      refine hfp _ ?_
      intro k hk
      rcases hk with _ | ⟨_, _ | ⟨_, hk⟩⟩ <;> first | exact h1 | cases hk
    have hfp4 : firstPresentTio (c10TioDValues (Json.str s))
        ["temperatureMin", "temperatureApparentMin"] = none := by
      refine hfp _ ?_
      intro k hk
      rcases hk with _ | ⟨_, _ | ⟨_, hk⟩⟩ <;> first | exact h1 | cases hk
    have hfp5 : firstPresentTio (c10TioDValues (Json.str s))
        ["windSpeedAvg", "windSpeed"] = none := by
      refine hfp _ ?_
      intro k hk
      rcases hk with _ | ⟨_, _ | ⟨_, hk⟩⟩ <;> first | exact h1 | cases hk
    have hfp6 : firstPresentTio (c10TioDValues (Json.str s))
        ["windGustAvg", "windGust"] = none := by
      refine hfp _ ?_
      intro k hk
      rcases hk with _ | ⟨_, _ | ⟨_, hk⟩⟩ <;> first | exact h1 | cases hk
    have hfp7 : firstPresentTio (c10TioDValues (Json.str s))
        ["uvIndexMax", "uvIndex"] = none := by
      refine hfp _ ?_
      intro k hk
      rcases hk with _ | ⟨_, _ | ⟨_, hk⟩⟩ <;> first | exact h1 | cases hk
    have hfp8 : firstPresentTio (c10TioDValues (Json.str s))
        ["uvHealthConcernMax", "uvHealthConcernAvg", "uvHealthConcern"] = none := by
      refine hfp _ ?_
      intro k hk
      rcases hk with _ | ⟨_, _ | ⟨_, _ | ⟨_, hk⟩⟩⟩ <;> first | exact h1 | cases hk
    have hstep : map_tomorrow_io_daily_forecast c10Parse "tomorrow_io"
          (c10TioDPayload (Json.str s))
        = .ok [{ provider := "tomorrow_io"
                 location := ⟨1, 2⟩
                 issued_at := 5
                 start_time := 5
                 end_time := 86405
                 temperature_c := firstPresentTio (c10TioDValues (Json.str s))
                   ["temperatureAvg", "temperature", "temperatureApparentAvg"]
                 temperature_apparent_c := firstPresentTio (c10TioDValues (Json.str s))
                   ["temperatureApparentAvg", "temperatureApparent"]
                 temperature_high_c := firstPresentTio (c10TioDValues (Json.str s))
                   ["temperatureMax", "temperatureApparentMax"]
                 temperature_low_c := firstPresentTio (c10TioDValues (Json.str s))
                   ["temperatureMin", "temperatureApparentMin"]
                 dewpoint_c := dailyValue (c10TioDValues (Json.str s)) "dewPoint"
                 precipitation_probability :=
                   orOptQ (dailyValueMax (c10TioDValues (Json.str s))
                       "precipitationProbability")
                     (dailyValue (c10TioDValues (Json.str s)) "precipitationProbability")
                 precipitation_mm :=
                   if listSum ([dailyValueSum (c10TioDValues (Json.str s)) "rainAccumulation",
                       dailyValueSum (c10TioDValues (Json.str s)) "snowAccumulation",
                       dailyValueSum (c10TioDValues (Json.str s)) "sleetAccumulation",
                       dailyValueSum (c10TioDValues (Json.str s))
                         "iceAccumulation"].filterMap id)
                       = 0 then none
                   else some (listSum
                     ([dailyValueSum (c10TioDValues (Json.str s)) "rainAccumulation",
                       dailyValueSum (c10TioDValues (Json.str s)) "snowAccumulation",
                       dailyValueSum (c10TioDValues (Json.str s)) "sleetAccumulation",
                       dailyValueSum (c10TioDValues (Json.str s))
                         "iceAccumulation"].filterMap id))
                 precipitation_amount_rain_mm :=
                   dailyValueSum (c10TioDValues (Json.str s)) "rainAccumulation"
                 precipitation_amount_snow_mm :=
                   dailyValueSum (c10TioDValues (Json.str s)) "snowAccumulation"
                 precipitation_amount_sleet_mm :=
                   dailyValueSum (c10TioDValues (Json.str s)) "sleetAccumulation"
                 precipitation_amount_ice_mm :=
                   dailyValueSum (c10TioDValues (Json.str s)) "iceAccumulation"
                 precipitation_amount_snow_lwe_mm :=
                   dailyValueSum (c10TioDValues (Json.str s)) "snowAccumulationLwe"
                 precipitation_amount_sleet_lwe_mm :=
                   dailyValueSum (c10TioDValues (Json.str s)) "sleetAccumulationLwe"
                 precipitation_amount_ice_lwe_mm :=
                   dailyValueSum (c10TioDValues (Json.str s)) "iceAccumulationLwe"
                 precipitation_rate_rain_mm_hr :=
                   dailyValue (c10TioDValues (Json.str s)) "rainIntensity"
                 precipitation_rate_snow_mm_hr :=
                   dailyValue (c10TioDValues (Json.str s)) "snowIntensity"
                 precipitation_rate_sleet_mm_hr :=
                   dailyValue (c10TioDValues (Json.str s)) "sleetIntensity"
                 precipitation_rate_freezing_rain_mm_hr :=
                   dailyValue (c10TioDValues (Json.str s)) "freezingRainIntensity"
                 summary := describeWeatherCode (Json.str s)
                 condition_code := toOptionalInt (pyOr (Json.str s) (Json.str s))
                 wind_speed_kph := ms_to_kph (firstPresentTio (c10TioDValues (Json.str s))
                   ["windSpeedAvg", "windSpeed"])
                 wind_direction_deg := toOptionalInt (pyOr (Json.str s) (Json.str s))
                 wind_gust_kph := ms_to_kph (firstPresentTio (c10TioDValues (Json.str s))
                   ["windGustAvg", "windGust"])
                 uv_index := firstPresentTio (c10TioDValues (Json.str s))
                   ["uvIndexMax", "uvIndex"]
                 uv_health_concern := firstPresentTio (c10TioDValues (Json.str s))
                   ["uvHealthConcernMax", "uvHealthConcernAvg", "uvHealthConcern"]
                 relative_humidity := dailyValue (c10TioDValues (Json.str s)) "humidity"
                 visibility_km := dailyValue (c10TioDValues (Json.str s)) "visibility"
                 pressure_sea_level_kpa :=
                   hpa_to_kpa (dailyValue (c10TioDValues (Json.str s)) "pressureSeaLevel")
                 pressure_surface_kpa :=
                   hpa_to_kpa (dailyValue (c10TioDValues (Json.str s))
                     "pressureSurfaceLevel")
                 altimeter_kpa :=
                   hpa_to_kpa (dailyValue (c10TioDValues (Json.str s)) "altimeterSetting")
                 cloud_cover_pct := dailyValue (c10TioDValues (Json.str s)) "cloudCover"
                 cloud_base_km := dailyValue (c10TioDValues (Json.str s)) "cloudBase"
                 cloud_ceiling_km := dailyValue (c10TioDValues (Json.str s)) "cloudCeiling"
                 snow_depth_cm := dailyValue (c10TioDValues (Json.str s)) "snowDepth"
                 evapotranspiration_mm :=
                   orOptQ (dailyValueSum (c10TioDValues (Json.str s)) "evapotranspiration")
                     (dailyValue (c10TioDValues (Json.str s)) "evapotranspiration") }]
        := rfl
    rw [hstep, hpo, hcode, hdew, hppM, hppA, hrain, hsnow, hsleet, hice, hsnowL, hsleetL,
      hiceL, hrInt, hsInt, hslInt, hfrInt, hhum, hvis, hpsl, hpsf, halt, hcc, hcb, hcl,
      hsd, hevS, hevA, hfp1, hfp2, hfp3, hfp4, hfp5, hfp6, hfp7, hfp8, h2]
    rfl
  · have hstep : map_ambient_weather_observation "ambient_weather" none
          [c10AmbDevice (Json.str s)]
        = .ok { provider := "ambient_weather"
                station := some "amb-station"
                location := ⟨1, 2⟩
                observed_at := 1000
                temperature_c :=
                  match (match orElseOpt (toOptionalFloat (Json.str s))
                          (toOptionalFloat (Json.str s)) with
                        | none => toOptionalFloat (Json.str s)
                        | some _ => none) with
                  | some v => some v
                  | none => f_to_c (orElseOpt (toOptionalFloat (Json.str s))
                      (toOptionalFloat (Json.str s)))
                temperature_apparent_c := f_to_c (toOptionalFloat (Json.str s))
                temperature_in_c := f_to_c (orElseOpt (toOptionalFloat (Json.str s))
                  (toOptionalFloat (Json.str s)))
                temperature_apparent_in_c := f_to_c (toOptionalFloat (Json.str s))
                dewpoint_c :=
                  match (match orElseOpt (toOptionalFloat (Json.str s))
                          (toOptionalFloat (Json.str s)) with
                        | none => toOptionalFloat (Json.str s)
                        | some _ => none) with
                  | some v => some v
                  | none => f_to_c (orElseOpt (toOptionalFloat (Json.str s))
                      (toOptionalFloat (Json.str s)))
                dewpoint_in_c := f_to_c (orElseOpt (toOptionalFloat (Json.str s))
                  (toOptionalFloat (Json.str s)))
                wind_speed_kph := mph_to_kph (orElseOpt (toOptionalFloat (Json.str s))
                  (toOptionalFloat (Json.str s)))
                wind_gust_kph := mph_to_kph (toOptionalFloat (Json.str s))
                wind_gust_daily_max_kph := mph_to_kph (toOptionalFloat (Json.str s))
                wind_direction_deg := toOptionalInt (Json.str s)
                wind_direction_avg_10m_deg := toOptionalInt (Json.str s)
                pressure_kpa := inHg_to_kpa (orElseOpt (toOptionalFloat (Json.str s))
                  (orElseOpt (toOptionalFloat (Json.str s)) (toOptionalFloat (Json.str s))))
                pressure_absolute_kpa := inHg_to_kpa (toOptionalFloat (Json.str s))
                relative_humidity := toOptionalFloat (Json.str s)
                relative_humidity_in := toOptionalFloat (Json.str s)
                visibility_km := none
                condition := none
                precipitation_last_hour_mm := inches_to_mm
                  (orElseOpt (toOptionalFloat (Json.str s)) (toOptionalFloat (Json.str s)))
                precipitation_daily_mm := inches_to_mm (toOptionalFloat (Json.str s))
                precipitation_weekly_mm := inches_to_mm (toOptionalFloat (Json.str s))
                precipitation_monthly_mm := inches_to_mm (toOptionalFloat (Json.str s))
                precipitation_yearly_mm := inches_to_mm (toOptionalFloat (Json.str s))
                precipitation_event_mm := inches_to_mm (toOptionalFloat (Json.str s))
                uv_index := toOptionalFloat (Json.str s)
                solar_radiation_wm2 := toOptionalFloat (Json.str s)
                battery_in := toOptionalFloat (Json.str s)
                battery_out := toOptionalFloat (Json.str s) } := rfl
    rw [hstep, h1, h2]
    rfl
  · have hstep : map_msc_geomet_observation c10Parse "msc_geomet"
          (c10MscObsFeature (Json.str s))
        = .ok { provider := "msc_geomet"
                station := some "msc-station"
                location := ⟨1, 2⟩
                observed_at := 5
                temperature_c := toOptionalFloat (unwrapValue (unwrapValue (Json.str s)))
                dewpoint_c := toOptionalFloat (unwrapValue (unwrapValue (Json.str s)))
                wind_speed_kph := toOptionalFloat (unwrapValue (unwrapValue (Json.str s)))
                wind_direction_deg := toOptionalInt (unwrapValue (unwrapValue (Json.str s)))
                pressure_kpa := toOptionalFloat (unwrapValue (unwrapValue (Json.str s)))
                relative_humidity := toOptionalFloat (unwrapValue (Json.str s))
                visibility_km := toOptionalFloat (unwrapValue (Json.str s))
                condition := none
                precipitation_last_hour_mm := toOptionalFloat (unwrapValue (Json.str s)) }
        := rfl
    rw [hstep]
    simp only [hu, h1, h2]
    rfl
  · have hstep : map_msc_geomet_forecast c10Parse "msc_geomet"
          (c10MscFcFeature (Json.str s))
        = .ok [{ provider := "msc_geomet"
                 location := ⟨1, 2⟩
                 issued_at := 5
                 start_time := 5
                 end_time := 6
                 temperature_c := toOptionalFloat (unwrapValue (Json.str s))
                 temperature_high_c := toOptionalFloat (unwrapValue (Json.str s))
                 temperature_low_c := toOptionalFloat (unwrapValue (Json.str s))
                 precipitation_probability :=
                   orElseOpt (toOptionalFloat (unwrapValue (unwrapValue (Json.str s))))
                     (toOptionalFloat (unwrapValue (unwrapValue (Json.str s))))
                 precipitation_mm :=
                   orElseOpt (toOptionalFloat (unwrapValue (Json.str s)))
                     (toOptionalFloat (unwrapValue (unwrapValue (Json.str s))))
                 summary := none
                 wind_speed_kph :=
                   orElseOpt (toOptionalFloat (unwrapValue (unwrapValue (Json.str s))))
                     (toOptionalFloat (unwrapValue (Json.str s)))
                 wind_direction_deg :=
                   orElseOpt (toOptionalInt (unwrapValue (unwrapValue (Json.str s))))
                     (toOptionalInt (unwrapValue (Json.str s))) }] := rfl
    rw [hstep]
    simp only [hu, h1, h2]
    rfl
  · have hbad : prognosFeature c10Parse (c10PrognosBadF (Json.str s)) = .ok none := by
      simp +decide [prognosFeature, c10PrognosBadF, Json.getOr, Json.getD, Json.get,
        lookupKey, pyOr, Json.isTruthy, Json.isNull, Option.getD, h1]
    have hgood : prognosFeature c10Parse c10PrognosGoodF = .ok (some c10PrognosGV) := rfl
    have hrun : mapME (prognosFeature c10Parse)
        [c10PrognosGoodF, c10PrognosBadF (Json.str s)] = .ok [some c10PrognosGV, none] := by
      rw [mapME, hgood, mapME, hbad, mapME]
      rfl
    have key : ∀ r, mapME (prognosFeature c10Parse)
          [c10PrognosGoodF, c10PrognosBadF (Json.str s)] = r →
        parse_prognos_payload c10Parse (c10PrognosPayload (Json.str s))
          = (do
              let results ← r
              let values := results.filterMap id
              if values.isEmpty then
                Except.error "No usable station values in RDPS PROGNOS payload"
              else pure values) := by
      intro r hr
      rw [← hr]
      rfl
    rw [key _ hrun]
    rfl
  · have hstep : map_accuweather_observation c10IsoOpt (some 1) (some 2) "accuweather"
          [c10AccuCurrent (Json.str s)]
        = .ok { provider := "accuweather"
                station := some "accu-station"
                location := ⟨1, 2⟩
                observed_at := 1000
                temperature_c := toOptionalFloat (Json.str s)
                temperature_apparent_c := toOptionalFloat (Json.str s)
                temperature_apparent_shade_c := toOptionalFloat (Json.str s)
                temperature_apparent_alt_c := toOptionalFloat (Json.str s)
                temperature_wind_chill_c := toOptionalFloat (Json.str s)
                temperature_wet_bulb_c := toOptionalFloat (Json.str s)
                temperature_wet_bulb_globe_c := toOptionalFloat (Json.str s)
                temperature_departure_24h_c := toOptionalFloat (Json.str s)
                dewpoint_c := toOptionalFloat (Json.str s)
                wind_speed_kph := toOptionalFloat (Json.str s)
                wind_direction_deg := toOptionalInt (Json.str s)
                wind_gust_kph := toOptionalFloat (Json.str s)
                pressure_kpa := pressure_to_kpa (toOptionalFloat (Json.str s)) (some "kpa")
                pressure_sea_level_kpa :=
                  pressure_to_kpa (toOptionalFloat (Json.str s)) (some "kpa")
                relative_humidity := toOptionalFloat (Json.str s)
                relative_humidity_in := toOptionalFloat (Json.str s)
                visibility_km := toOptionalFloat (Json.str s)
                cloud_ceiling_km := toOptionalFloat (Json.str s)
                cloud_cover_pct := toOptionalFloat (Json.str s)
                condition := none
                condition_code := toOptionalInt (Json.str s)
                precipitation_last_hour_mm :=
                  orOptQ (toOptionalFloat (Json.str s)) (toOptionalFloat (Json.str s))
                uv_index := toOptionalFloat (pyOr (Json.str s) Json.null)
                precipitation_type := none
                pressure_tendency := none } := rfl
    rw [hstep, hpo, h1, h2]
    rfl
  · have hstep : map_accuweather_hourly_forecast c10IsoOpt (some 1) (some 2) "accuweather"
          [c10AccuHEntry (Json.str s)]
        = .ok [{ provider := "accuweather"
                 location := ⟨1, 2⟩
                 issued_at := 1000
                 start_time := 1000
                 end_time := 4600
                 temperature_c := toOptionalFloat (Json.str s)
                 temperature_apparent_c := toOptionalFloat (Json.str s)
                 temperature_apparent_shade_c := toOptionalFloat (Json.str s)
                 temperature_wet_bulb_c := toOptionalFloat (Json.str s)
                 temperature_wet_bulb_globe_c := toOptionalFloat (Json.str s)
                 dewpoint_c := toOptionalFloat (Json.str s)
                 temperature_high_c := none
                 temperature_low_c := none
                 precipitation_probability := toOptionalFloat (Json.str s)
                 precipitation_probability_thunderstorm := toOptionalFloat (Json.str s)
                 precipitation_probability_rain := toOptionalFloat (Json.str s)
                 precipitation_probability_snow := toOptionalFloat (Json.str s)
                 precipitation_probability_ice := toOptionalFloat (Json.str s)
                 precipitation_mm :=
                   orOptQ (toOptionalFloat (Json.str s))
                     (orOptQ (toOptionalFloat (Json.str s)) (toOptionalFloat (Json.str s)))
                 precipitation_amount_rain_mm := toOptionalFloat (Json.str s)
                 precipitation_amount_snow_mm := toOptionalFloat (Json.str s)
                 precipitation_amount_ice_mm := toOptionalFloat (Json.str s)
                 summary := some "Hot"
                 condition_code := toOptionalInt (Json.str s)
                 wind_speed_kph := toOptionalFloat (Json.str s)
                 wind_direction_deg := toOptionalInt (Json.str s)
                 wind_gust_kph := toOptionalFloat (Json.str s)
                 uv_index := toOptionalFloat (pyOr (Json.str s) Json.null)
                 relative_humidity := toOptionalFloat (Json.str s)
                 visibility_km := toOptionalFloat (Json.str s)
                 cloud_ceiling_km := toOptionalFloat (Json.str s) }] := rfl
    rw [hstep, hpo, h1, h2]
    rfl
  · have hstep : map_accuweather_daily_forecast c10IsoOpt (some 1) (some 2) "accuweather"
          (c10AccuDPayload (Json.str s))
        = .ok [{ provider := "accuweather"
                 location := ⟨1, 2⟩
                 issued_at := 1000
                 start_time := 1000
                 end_time := 87400
                 temperature_c :=
                   match toOptionalFloat (Json.str s), toOptionalFloat (Json.str s) with
                   | some a, some b => some ((a + b) / 2)
                   | _, _ => none
                 temperature_apparent_c :=
                   match toOptionalFloat (Json.str s), toOptionalFloat (Json.str s) with
                   | some a, some b => some ((a + b) / 2)
                   | _, _ => none
                 temperature_apparent_shade_c := toOptionalFloat (Json.str s)
                 temperature_high_c := toOptionalFloat (Json.str s)
                 temperature_low_c := toOptionalFloat (Json.str s)
                 precipitation_probability := toOptionalFloat (Json.str s)
                 precipitation_probability_thunderstorm := toOptionalFloat (Json.str s)
                 precipitation_probability_rain := toOptionalFloat (Json.str s)
                 precipitation_probability_snow := toOptionalFloat (Json.str s)
                 precipitation_probability_ice := toOptionalFloat (Json.str s)
                 precipitation_mm :=
                   orOptQ (toOptionalFloat (Json.str s))
                     (orOptQ (toOptionalFloat (Json.str s)) (toOptionalFloat (Json.str s)))
                 precipitation_amount_rain_mm := toOptionalFloat (Json.str s)
                 precipitation_amount_snow_mm := toOptionalFloat (Json.str s)
                 precipitation_amount_ice_mm := toOptionalFloat (Json.str s)
                 summary := some "Mild"
                 condition_code := toOptionalInt (Json.str s)
                 wind_speed_kph := toOptionalFloat (Json.str s)
                 wind_direction_deg := toOptionalInt (Json.str s)
                 wind_gust_kph := toOptionalFloat (Json.str s)
                 uv_index :=
                   match toOptionalFloat (Json.str s), toOptionalFloat (Json.str s) with
                   | some a, some b => some ((a + b) / 2)
                   | _, _ =>
                       orOptQ (toOptionalFloat (Json.str s)) (toOptionalFloat (Json.str s))
                 relative_humidity := toOptionalFloat (Json.str s)
                 cloud_cover_pct := toOptionalFloat (Json.str s)
                 evapotranspiration_mm := toOptionalFloat (Json.str s)
                 solar_irradiance_wm2 := toOptionalFloat (Json.str s)
                 sun_hours := toOptionalFloat (Json.str s)
                 temperature_wet_bulb_c := toOptionalFloat (Json.str s)
                 temperature_wet_bulb_globe_c := toOptionalFloat (Json.str s) }] := rfl
    rw [hstep, h1, h2]
    rfl

/-- Witness for C10 at the non-numeric string `"abc"`: every mapper run
concretely, all junk-fed canonical fields absent. -/
theorem C10_nonnumeric_optional_is_absent_witness :
    parseFloatString "abc" = none ∧ parseIntString "abc" = none
    ∧ toOptionalFloat (Json.str "abc") = none
    ∧ toOptionalInt (Json.str "abc") = none
    ∧ map_openweather_observation "openweather" (c10OwPayload (Json.str "abc"))
        = .ok c10OwObs
    ∧ map_openweather_forecast "openweather" (c10OwFcPayload (Json.str "abc"))
        = .ok [c10OwFcQ]
    ∧ map_openweather_onecall_hourly "openweather" (c10OcHPayload (Json.str "abc"))
        = .ok [c10OcHQ]
    ∧ map_openweather_onecall_daily "openweather" (c10OcDPayload (Json.str "abc"))
        = .ok [c10OcDQ]
    ∧ map_tomorrow_io_observation c10Parse "tomorrow_io" (c10TioPayload (Json.str "abc"))
        = .ok c10TioObs
    ∧ map_tomorrow_io_forecast c10Parse "tomorrow_io" (c10TioFcPayload (Json.str "abc"))
        = .ok [c10TioFcQ]
    ∧ map_tomorrow_io_daily_forecast c10Parse "tomorrow_io"
        (c10TioDPayload (Json.str "abc")) = .ok [c10TioDQ]
    ∧ map_ambient_weather_observation "ambient_weather" none
        [c10AmbDevice (Json.str "abc")] = .ok c10AmbObs
    ∧ map_msc_geomet_observation c10Parse "msc_geomet" (c10MscObsFeature (Json.str "abc"))
        = .ok c10MscObs
    ∧ map_msc_geomet_forecast c10Parse "msc_geomet" (c10MscFcFeature (Json.str "abc"))
        = .ok [c10MscFcQ]
    ∧ parse_prognos_payload c10Parse (c10PrognosPayload (Json.str "abc"))
        = .ok [c10PrognosGV]
    ∧ map_accuweather_observation c10IsoOpt (some 1) (some 2) "accuweather"
        [c10AccuCurrent (Json.str "abc")] = .ok c10AccuObs
    ∧ map_accuweather_hourly_forecast c10IsoOpt (some 1) (some 2) "accuweather"
        [c10AccuHEntry (Json.str "abc")] = .ok [c10AccuHQ]
    ∧ map_accuweather_daily_forecast c10IsoOpt (some 1) (some 2) "accuweather"
        (c10AccuDPayload (Json.str "abc")) = .ok [c10AccuDQ]
    ∧ c10OwObs.temperature_c = none ∧ c10TioObs.temperature_c = none
    ∧ c10AmbObs.temperature_c = none ∧ c10AccuObs.uv_index = none := by
  obtain ⟨w1, w2, w3, w4, w5, w6, w7, w8, w9, w10, w11, w12, w13, w14, w15, w16⟩ :=
    C10_nonnumeric_optional_is_absent "abc" (by decide) (by decide) (by decide)
  exact ⟨by decide, by decide, w1, w2, w3, w4, w5, w6, w7, w8, w9, w10, w11, w12, w13,
    w14, w15, w16, rfl, rfl, rfl, rfl⟩

/-! ## Claim C7 -/

/-- A PROGNOS feature without a usable coordinate pair. -/
def featureLacksCoords (f : Json) : Bool :=
  match (f.getOr "geometry" (.obj [])).getOr "coordinates" (.arr []) with
  | .arr (_ :: _ :: _) => false
  | _ => true

/-- A coordinate-less PROGNOS feature is skipped by the parsing loop. -/
theorem prognosFeature_skip (isoParse : String → Except String Instant) (f : Json)
    (h : featureLacksCoords f = true) : prognosFeature isoParse f = .ok none := by
  cases f with
  | obj fields =>
      simp only [prognosFeature]
      simp only [featureLacksCoords] at h
      generalize ((Json.obj fields).getOr "geometry" (Json.obj [])).getOr "coordinates"
        (Json.arr []) = c at h ⊢
      cases c with
      | arr items =>
          rcases items with _ | ⟨a, items⟩
          · rfl
          · rcases items with _ | ⟨b, t⟩
            · rfl
            · simp at h
      | null => rfl
      | bool b => rfl
      | num q => rfl
      | str s => rfl
      | obj o => rfl
  | null => rfl
  | bool b => rfl
  | num q => rfl
  | str s => rfl
  | arr items => rfl

/-- A loop that only skips produces no usable values. -/
theorem mapME_all_none {α : Type} (g : Json → Except String (Option α)) :
    ∀ l : List Json, (∀ f ∈ l, g f = .ok none) →
      ∃ out, mapME g l = .ok out ∧ out.filterMap id = [] := by
  intro l
  induction l with
  | nil => intro _; exact ⟨[], rfl, rfl⟩
  | cons a rest ih =>
      intro h
      obtain ⟨out, hout, hfil⟩ := ih (fun f hf => h f (List.mem_cons_of_mem _ hf))
      refine ⟨none :: out, ?_, by simpa using hfil⟩
      rw [mapME, h a (List.mem_cons_self _ _), hout]
      rfl

/-- C7: every mapper raises the validation failure and produces zero output
records when its payload lacks both embedded and caller-supplied
coordinates: the four OpenWeather mappers, the three Tomorrow.io mappers,
the AmbientWeather observation mapper (for a selectable device carrying
data but no resolvable coordinates), the two MSC GeoMet mappers, the RDPS
PROGNOS payload parser (all features coordinate-less), and the four
AccuWeather mappers (caller-supplied coordinates absent). -/
theorem C7_missing_coordinates_fatal :
    (∀ (provider : String) (payload : Json),
        ((payload.getOr "coord" (.obj [])).containsKey "lat"
          && (payload.getOr "coord" (.obj [])).containsKey "lon") = false →
        map_openweather_observation provider payload
          = .error "Missing coordinates for observation")
    ∧ (∀ (provider : String) (payload : Json),
        (((payload.getOr "city" (.obj [])).getOr "coord" (.obj [])).containsKey "lat"
          && ((payload.getOr "city" (.obj [])).getOr "coord" (.obj [])).containsKey "lon")
            = false →
        map_openweather_forecast provider payload = .error "Missing coordinates for forecast")
    ∧ (∀ (provider : String) (payload : Json),
        ((payload.getD "lat").isNull || (payload.getD "lon").isNull) = true →
        map_openweather_onecall_hourly provider payload
          = .error "Missing coordinates for One Call hourly forecast")
    ∧ (∀ (provider : String) (payload : Json),
        ((payload.getD "lat").isNull || (payload.getD "lon").isNull) = true →
        map_openweather_onecall_daily provider payload
          = .error "Missing coordinates for One Call daily forecast")
    ∧ (∀ (isoParse : String → Except String Instant) (provider : String) (payload : Json),
        ((payload.getOr "location" (.obj [])).containsKey "lat"
          && (payload.getOr "location" (.obj [])).containsKey "lon") = false →
        map_tomorrow_io_observation isoParse provider payload
          = .error "Missing coordinates for observation")
    ∧ (∀ (isoParse : String → Except String Instant) (provider : String) (payload : Json),
        ((payload.getOr "location" (.obj [])).containsKey "lat"
          && (payload.getOr "location" (.obj [])).containsKey "lon") = false →
        map_tomorrow_io_forecast isoParse provider payload
          = .error "Missing coordinates for forecast")
    ∧ (∀ (isoParse : String → Except String Instant) (provider : String) (payload : Json),
        ((payload.getOr "location" (.obj [])).containsKey "lat"
          && (payload.getOr "location" (.obj [])).containsKey "lon") = false →
        map_tomorrow_io_daily_forecast isoParse provider payload
          = .error "Missing coordinates for forecast")
    ∧ (∀ (provider : String) (mac : Option String) (payload : List Json) (device : Json),
        selectDevice payload mac = .ok device →
        (device.getOr "lastData" (.obj [])).isTruthy = true →
        ((extractCoordsRaw (device.getOr "info" (.obj []))).1.isNull
          || (extractCoordsRaw (device.getOr "info" (.obj []))).2.isNull) = true →
        map_ambient_weather_observation provider mac payload
          = .error "Missing coordinates for device")
    ∧ (∀ (isoParse : String → Except String Instant) (provider : String) (feature : Json),
        (((feature.getOr "geometry" (.obj [])).getOr "coordinates" (.arr [])).asArr).length < 2 →
        map_msc_geomet_observation isoParse provider feature
          = .error "Missing coordinates for observation")
    ∧ (∀ (isoParse : String → Except String Instant) (provider : String) (feature : Json),
        (((feature.getOr "geometry" (.obj [])).getOr "coordinates" (.arr [])).asArr).length < 2 →
        map_msc_geomet_forecast isoParse provider feature
          = .error "Missing coordinates for forecast")
    ∧ (∀ (isoParse : String → Except String Instant) (payload : Json) (l : List Json),
        prognosFeatures payload = .ok l → (∀ f ∈ l, featureLacksCoords f = true) →
        parse_prognos_payload isoParse payload
          = .error "No usable station values in RDPS PROGNOS payload")
    ∧ (∀ (isoParseOpt : String → Option Instant) (latitude longitude : Option ℚ)
        (provider : String) (payload : List Json),
        latitude = none ∨ longitude = none →
        map_accuweather_observation isoParseOpt latitude longitude provider payload
          = .error "Missing coordinates for observation")
    ∧ (∀ (isoParseOpt : String → Option Instant) (latitude longitude : Option ℚ)
        (provider : String) (payload : List Json),
        latitude = none ∨ longitude = none →
        map_accuweather_hourly_forecast isoParseOpt latitude longitude provider payload
          = .error "Missing coordinates for forecast")
    ∧ (∀ (isoParseOpt : String → Option Instant) (latitude longitude : Option ℚ)
        (provider : String) (payload : Json),
        latitude = none ∨ longitude = none →
        map_accuweather_daily_forecast isoParseOpt latitude longitude provider payload
          = .error "Missing coordinates for forecast")
    ∧ (∀ (latitude longitude : Option ℚ) (issuedAt : Instant) (provider : String)
        (payload : Json),
        latitude = none ∨ longitude = none →
        map_accuweather_minute_forecast latitude longitude issuedAt provider payload
          = .error "Missing coordinates for forecast") := by
  refine ⟨?_, ?_, ?_, ?_, ?_, ?_, ?_, ?_, ?_, ?_, ?_, ?_, ?_, ?_, ?_⟩
  · intro provider payload hc
    simp [map_openweather_observation, hc]
  · intro provider payload hc
    simp [map_openweather_forecast, hc]
  · intro provider payload hc
    simp [map_openweather_onecall_hourly, hc]
  · intro provider payload hc
    simp [map_openweather_onecall_daily, hc]
  · intro isoParse provider payload hc
    simp [map_tomorrow_io_observation, hc]
  · intro isoParse provider payload hc
    simp [map_tomorrow_io_forecast, hc]
  · intro isoParse provider payload hc
    simp [map_tomorrow_io_daily_forecast, hc]
  · intro provider mac payload device hsel htruthy hcn
    simp [map_ambient_weather_observation, hsel, htruthy, extract_coords, hcn,
      Bind.bind, Except.bind]
  · intro isoParse provider feature hlen
    simp [map_msc_geomet_observation, hlen]
  · intro isoParse provider feature hlen
    simp [map_msc_geomet_forecast, hlen]
  · intro isoParse payload l hfeat hall
    obtain ⟨out, hout, hfil⟩ :=
      mapME_all_none (prognosFeature isoParse) l
        (fun f hf => prognosFeature_skip isoParse f (hall f hf))
    simp [parse_prognos_payload, hfeat, hout, hfil, Bind.bind, Except.bind]
  · intro isoParseOpt lat lon provider payload h
    rcases h with rfl | rfl
    · cases lon <;> rfl
    · cases lat <;> rfl
  · intro isoParseOpt lat lon provider payload h
    rcases h with rfl | rfl
    · cases lon <;> rfl
    · cases lat <;> rfl
  · intro isoParseOpt lat lon provider payload h
    rcases h with rfl | rfl
    · cases lon <;> rfl
    · cases lat <;> rfl
  · intro lat lon issuedAt provider payload h
    rcases h with rfl | rfl
    · cases lon <;> rfl
    · cases lat <;> rfl

def c7Iso : String → Except String Instant := fun s => .error s

def c7IsoOpt : String → Option Instant := fun _ => none

def c7AmbDevice : Json := Json.obj [("lastData", Json.obj [("dateutc", Json.num 1)])]

/-- Witness for C7: each mapper, on a concrete coordinate-less payload. -/
theorem C7_missing_coordinates_fatal_witness :
    map_openweather_observation "openweather" (Json.obj [])
        = .error "Missing coordinates for observation"
    ∧ map_openweather_forecast "openweather" (Json.obj [])
        = .error "Missing coordinates for forecast"
    ∧ map_openweather_onecall_hourly "openweather" (Json.obj [])
        = .error "Missing coordinates for One Call hourly forecast"
    ∧ map_openweather_onecall_daily "openweather" (Json.obj [])
        = .error "Missing coordinates for One Call daily forecast"
    ∧ map_tomorrow_io_observation c7Iso "tomorrow_io" (Json.obj [])
        = .error "Missing coordinates for observation"
    ∧ map_tomorrow_io_forecast c7Iso "tomorrow_io" (Json.obj [])
        = .error "Missing coordinates for forecast"
    ∧ map_tomorrow_io_daily_forecast c7Iso "tomorrow_io" (Json.obj [])
        = .error "Missing coordinates for forecast"
    ∧ map_ambient_weather_observation "ambient_weather" none [c7AmbDevice]
        = .error "Missing coordinates for device"
    ∧ map_msc_geomet_observation c7Iso "msc_geomet" (Json.obj [])
        = .error "Missing coordinates for observation"
    ∧ map_msc_geomet_forecast c7Iso "msc_geomet" (Json.obj [])
        = .error "Missing coordinates for forecast"
    ∧ parse_prognos_payload c7Iso (Json.obj [])
        = .error "No usable station values in RDPS PROGNOS payload"
    ∧ map_accuweather_observation c7IsoOpt none none "accuweather" []
        = .error "Missing coordinates for observation"
    ∧ map_accuweather_hourly_forecast c7IsoOpt none none "accuweather" []
        = .error "Missing coordinates for forecast"
    ∧ map_accuweather_daily_forecast c7IsoOpt none none "accuweather" (Json.obj [])
        = .error "Missing coordinates for forecast"
    ∧ map_accuweather_minute_forecast none none 0 "accuweather" (Json.obj [])
        = .error "Missing coordinates for forecast" := by
  have h := C7_missing_coordinates_fatal
  refine ⟨h.1 "openweather" (Json.obj []) rfl,
    h.2.1 "openweather" (Json.obj []) rfl,
    h.2.2.1 "openweather" (Json.obj []) rfl,
    h.2.2.2.1 "openweather" (Json.obj []) rfl,
    h.2.2.2.2.1 c7Iso "tomorrow_io" (Json.obj []) rfl,
    h.2.2.2.2.2.1 c7Iso "tomorrow_io" (Json.obj []) rfl,
    h.2.2.2.2.2.2.1 c7Iso "tomorrow_io" (Json.obj []) rfl,
    h.2.2.2.2.2.2.2.1 "ambient_weather" none [c7AmbDevice] c7AmbDevice rfl rfl rfl,
    h.2.2.2.2.2.2.2.2.1 c7Iso "msc_geomet" (Json.obj []) (by decide),
    h.2.2.2.2.2.2.2.2.2.1 c7Iso "msc_geomet" (Json.obj []) (by decide),
    h.2.2.2.2.2.2.2.2.2.2.1 c7Iso (Json.obj []) [] rfl
      (fun f hf => absurd hf (List.not_mem_nil f)),
    h.2.2.2.2.2.2.2.2.2.2.2.1 c7IsoOpt none none "accuweather" [] (Or.inl rfl),
    h.2.2.2.2.2.2.2.2.2.2.2.2.1 c7IsoOpt none none "accuweather" [] (Or.inl rfl),
    h.2.2.2.2.2.2.2.2.2.2.2.2.2.1 c7IsoOpt none none "accuweather" (Json.obj []) (Or.inl rfl),
    h.2.2.2.2.2.2.2.2.2.2.2.2.2.2 none none 0 "accuweather" (Json.obj []) (Or.inl rfl)⟩
